import Mathlib

/-!
# Canvas diagram generators of the telemedicine portfolio site

A shallow embedding of the three page scripts

* `website/assets/generate-dashboard-images.js`
* `website/assets/generate-aws-diagram.js`
* `website/assets/generate-placeholder-images.js`

Numbers live in an ordered field `K` (`ℚ` for evaluation, `ℝ` for the
trigonometric statements).  Coordinates, lengths and angles are computed in
exact arithmetic.  The numbers the dashboard prints (percentages, axis labels,
bar values) are computed the way the script computes them, every literal and
every result of an operation rounded to binary64 by `fl`, because the decimal
digits of a label depend on that rounding.  The random bar height and bar
width of the placeholder charts come in both forms: `randomHeight` and
`randomWidth` are the exact values the charts of this file are drawn with,
`randomHeight64` and `randomWidth64` the binary64 values, which lie within
`2 ^ (-41)` of them.  `NaN` and the infinities are outside the model, so every
statement that divides assumes a non-zero divisor.  The functions of the
`Math` object that have no rational value are passed in as a `JsMath K`.  A 2D
context is a record of the style properties together with the current path
and the list of everything painted so far; each paint records the style
properties it reads at the moment it is issued.
-/

namespace Telemedicine

/-! ## Platform -/

/-- Functions and constants of the `Math` object used by the scripts. -/
structure JsMath (K : Type) where
  pi : K
  cos : K → K
  sin : K → K
  atan2 : K → K → K

/-- The `Math` object over the reals: `Math.PI`, `Math.cos`, `Math.sin` are the
real ones and `Math.atan2 y x` is the argument of `x + y i` in `(-π, π]`. -/
def JsMath.Exact (M : JsMath ℝ) : Prop :=
  M.pi = Real.pi ∧ M.cos = Real.cos ∧ M.sin = Real.sin ∧
    M.atan2 = fun y x => Complex.arg ⟨x, y⟩

section Numbers

variable {K : Type} [LinearOrderedField K] [FloorRing K]

/-- The integer nearest to `x`, the even one of the two when `x` is half-way. -/
def roundHalfEven (x : K) : Int :=
  let n := Int.floor x
  if x - n < 1 / 2 then n
  else if 1 / 2 < x - n then n + 1
  else if n % 2 = 0 then n else n + 1

/-- The binary64 number nearest to `x` (IEEE 754 round to nearest, ties to the
even significand), for magnitudes below `2 ^ 1024`: a multiple of
`2 ^ (e - 52)`, where `2 ^ e ≤ |x| < 2 ^ (e + 1)`, and `e = -1022` for the
subnormal numbers.  This is the value of a numeric literal `x` and, applied to
the exact result, the value of `+`, `-`, `*`, `/` on two doubles. -/
def fl (x : K) : K :=
  let e : Int := max (Int.log 2 |x|) (-1022)
  (roundHalfEven (x / 2 ^ (e - 52)) : K) * 2 ^ (e - 52)

/-- `Math.round`: the nearest integer, ties towards plus infinity. -/
def jsRound (x : K) : Int := Int.floor (x + 1 / 2)

/-- `Number.prototype.toFixed(1)` (for magnitudes below `1e21`): the sign, then
the nearest multiple of one tenth of the magnitude, ties to the larger one. -/
def toFixed1 (x : K) : String :=
  let n : Nat := (Int.floor (|x| * 10 + 1 / 2)).toNat
  (if x < 0 then "-" else "") ++ toString (n / 10) ++ "." ++ toString (n % 10)

end Numbers

/-! ## The 2D drawing context -/

/-- A value of `fillStyle` or `strokeStyle`. -/
inductive Style (K : Type) where
  | color (css : String)
  | linearGradient (x0 y0 x1 y1 : K) (stops : List (K × String))
  deriving DecidableEq

/-- One segment call on the current path. -/
inductive PathOp (K : Type) where
  | moveTo (x y : K)
  | lineTo (x y : K)
  | arc (cx cy r startAngle endAngle : K)
  | roundRect (x y w h r : K)
  | closePath
  deriving DecidableEq

/-- One mark put on the canvas, with the context properties it was drawn with. -/
inductive Paint (K : Type) where
  | fillRect (x y w h : K) (fillStyle : Style K) (alpha : K)
  | strokeRect (x y w h : K) (strokeStyle : Style K) (lineWidth : K)
      (lineDash : List K) (alpha : K)
  | fillText (text : String) (x y : K) (fillStyle : Style K)
      (font textAlign textBaseline : String) (alpha : K)
  | fill (path : List (PathOp K)) (fillStyle : Style K) (alpha : K)
  | stroke (path : List (PathOp K)) (strokeStyle : Style K) (lineWidth : K)
      (lineDash : List K) (alpha : K)
  deriving DecidableEq

/-- State of a `CanvasRenderingContext2D` and of the canvas behind it. -/
structure Ctx (K : Type) where
  fillStyle : Style K
  strokeStyle : Style K
  font : String
  textAlign : String
  textBaseline : String
  lineWidth : K
  globalAlpha : K
  lineDash : List K
  path : List (PathOp K)
  out : List (Paint K)
  deriving DecidableEq

section Context

variable {K : Type}

def setFillStyle (s : Style K) (c : Ctx K) : Ctx K := { c with fillStyle := s }
def setStrokeStyle (s : Style K) (c : Ctx K) : Ctx K := { c with strokeStyle := s }
def setFont (s : String) (c : Ctx K) : Ctx K := { c with font := s }
def setTextAlign (s : String) (c : Ctx K) : Ctx K := { c with textAlign := s }
def setTextBaseline (s : String) (c : Ctx K) : Ctx K := { c with textBaseline := s }
def setLineWidth (w : K) (c : Ctx K) : Ctx K := { c with lineWidth := w }
def setGlobalAlpha (a : K) (c : Ctx K) : Ctx K := { c with globalAlpha := a }
def setLineDash (d : List K) (c : Ctx K) : Ctx K := { c with lineDash := d }

def beginPath (c : Ctx K) : Ctx K := { c with path := [] }
def moveTo (x y : K) (c : Ctx K) : Ctx K := { c with path := c.path ++ [PathOp.moveTo x y] }
def lineTo (x y : K) (c : Ctx K) : Ctx K := { c with path := c.path ++ [PathOp.lineTo x y] }
def arc (cx cy r a0 a1 : K) (c : Ctx K) : Ctx K :=
  { c with path := c.path ++ [PathOp.arc cx cy r a0 a1] }
def roundRect (x y w h r : K) (c : Ctx K) : Ctx K :=
  { c with path := c.path ++ [PathOp.roundRect x y w h r] }
def closePath (c : Ctx K) : Ctx K := { c with path := c.path ++ [PathOp.closePath] }

def fillRect (x y w h : K) (c : Ctx K) : Ctx K :=
  { c with out := c.out ++ [Paint.fillRect x y w h c.fillStyle c.globalAlpha] }
def strokeRect (x y w h : K) (c : Ctx K) : Ctx K :=
  { c with out := c.out ++
      [Paint.strokeRect x y w h c.strokeStyle c.lineWidth c.lineDash c.globalAlpha] }
def fillText (text : String) (x y : K) (c : Ctx K) : Ctx K :=
  { c with out := c.out ++
      [Paint.fillText text x y c.fillStyle c.font c.textAlign c.textBaseline c.globalAlpha] }
def fill (c : Ctx K) : Ctx K :=
  { c with out := c.out ++ [Paint.fill c.path c.fillStyle c.globalAlpha] }
def stroke (c : Ctx K) : Ctx K :=
  { c with out := c.out ++
      [Paint.stroke c.path c.strokeStyle c.lineWidth c.lineDash c.globalAlpha] }

/-- The context a new canvas hands out from `getContext('2d')`. -/
def freshCtx [OfNat K 1] : Ctx K where
  fillStyle := .color "#000000"
  strokeStyle := .color "#000000"
  font := "10px sans-serif"
  textAlign := "start"
  textBaseline := "alphabetic"
  lineWidth := 1
  globalAlpha := 1
  lineDash := []
  path := []
  out := []

/-- What a drawing routine `f` adds to the canvas when started in context `c`. -/
def emitted (f : Ctx K → Ctx K) (c : Ctx K) : List (Paint K) :=
  (f c).out.drop c.out.length

/-- Two contexts agree on the properties no dashboard or AWS-diagram routine
sets before reading them: `globalAlpha`, the line dash and `textBaseline`. -/
def Agree (c₁ c₂ : Ctx K) : Prop :=
  c₁.globalAlpha = c₂.globalAlpha ∧ c₁.lineDash = c₂.lineDash ∧
    c₁.textBaseline = c₂.textBaseline

/-- A drawing routine is stable when it only appends to the canvas and, started
in two contexts that agree, appends the same marks and ends in contexts that
agree again. -/
def Stable (f : Ctx K → Ctx K) : Prop :=
  (∀ c, (f c).out = c.out ++ emitted f c) ∧
    ∀ c₁ c₂, Agree c₁ c₂ → Agree (f c₁) (f c₂) ∧ emitted f c₁ = emitted f c₂

/-- The arcs `(startAngle, endAngle)` of the filled paths, in paint order. -/
def filledArcs : List (Paint K) → List (K × K)
  | [] => []
  | Paint.fill path _ _ :: ps =>
      path.filterMap (fun op => match op with
        | PathOp.arc _ _ _ a0 a1 => some (a0, a1)
        | _ => none) ++ filledArcs ps
  | _ :: ps => filledArcs ps

/-- The texts drawn, with their anchor points, in paint order. -/
def texts : List (Paint K) → List (String × K × K)
  | [] => []
  | Paint.fillText t x y _ _ _ _ _ :: ps => (t, x, y) :: texts ps
  | _ :: ps => texts ps

/-- The filled rectangles `(x, y, w, h, style)`, in paint order. -/
def filledRects : List (Paint K) → List (K × K × K × K × Style K)
  | [] => []
  | Paint.fillRect x y w h s _ :: ps => (x, y, w, h, s) :: filledRects ps
  | _ :: ps => filledRects ps

/-- Arcs that follow one another without gap or overlap: the first starts at
`first`, each next one starts where the one before it ends, and the last one
ends at `last`. -/
def Consecutive : List (K × K) → K → K → Prop
  | [], first, last => first = last
  | p :: ps, first, last => p.1 = first ∧ Consecutive ps p.2 last

/-- The paths that were stroked, in paint order. -/
def strokedPaths : List (Paint K) → List (List (PathOp K))
  | [] => []
  | Paint.stroke path _ _ _ _ :: ps => path :: strokedPaths ps
  | _ :: ps => strokedPaths ps

/-- The paths that were filled, in paint order. -/
def filledPaths : List (Paint K) → List (List (PathOp K))
  | [] => []
  | Paint.fill path _ _ :: ps => path :: filledPaths ps
  | _ :: ps => filledPaths ps

end Context

/-! ## Plane geometry of arrowheads -/

section Geometry

variable {K : Type} [Field K]

/-- Inner product of two plane vectors. -/
def dot (u v : K × K) : K := u.1 * v.1 + u.2 * v.2

/-- Squared Euclidean distance of two points. -/
def sqDist (p q : K × K) : K := (p.1 - q.1) ^ 2 + (p.2 - q.2) ^ 2

/-- The mirror image of `p` in the line through `a` and `b`: twice the foot of
the perpendicular from `p`, minus `p`. -/
def mirror (a b p : K × K) : K × K :=
  let t := dot (p.1 - a.1, p.2 - a.2) (b.1 - a.1, b.2 - a.2) /
    dot (b.1 - a.1, b.2 - a.2) (b.1 - a.1, b.2 - a.2)
  (2 * (a.1 + t * (b.1 - a.1)) - p.1, 2 * (a.2 + t * (b.2 - a.2)) - p.2)

end Geometry

/-! ## The page -/

/-- An `img` element: the attributes the scripts read or write. -/
structure Img where
  src : String
  alt : String
  id : String
  className : String
  display : String
  deriving DecidableEq

/-- `String.prototype.replace` with a string pattern, on character lists: only
the first occurrence is replaced. -/
def replaceFirstChars (pat rep : List Char) : List Char → List Char
  | [] => if pat = [] then rep else []
  | ch :: cs =>
    if pat <+: ch :: cs then rep ++ (ch :: cs).drop pat.length
    else ch :: replaceFirstChars pat rep cs

/-- `s.replace(pat, rep)` for strings `pat` and `rep`. -/
def jsReplace (s pat rep : String) : String :=
  ⟨replaceFirstChars pat.data rep.data s.data⟩

/-- `s.includes(pat)`; for a non-empty `pat` this is also how the attribute
selector `[src*="pat"]` matches an element whose `src` attribute is `s`. -/
def jsIncludes (s pat : String) : Bool :=
  decide (pat.data <:+: s.data)

/-- A character of the base64 alphabet, padding included. -/
def isBase64Char (ch : Char) : Bool :=
  ch.isAlphanum || ch = '+' || ch = '/' || ch = '='

/-- The shape of what `canvas.toDataURL('image/png')` returns:
`data:image/png;base64,` followed by base64 characters. -/
def isPngDataUrl (u : String) : Bool :=
  "data:image/png;base64,".data <+: u.data && (u.data.drop 22).all isBase64Char

/-! ## generate-dashboard-images.js -/

/-- An entry of a chart dataset: a label, a value and a colour. -/
structure ChartDatum (K : Type) where
  label : String
  value : K
  color : String
  deriving DecidableEq

namespace Dashboard

section Charts

variable {K : Type} [LinearOrderedField K] [FloorRing K]

/-- `data.reduce((sum, item) => sum + item.value, 0)`. -/
def total (data : List (ChartDatum K)) : K :=
  data.foldl (fun sum item => sum + item.value) 0

/-- `(data[i].value / total) * Math.PI * 2`. -/
def sliceAngle (M : JsMath K) (total : K) (d : ChartDatum K) : K :=
  d.value / total * M.pi * 2

/-- The value of `data.reduce((sum, item) => sum + item.value, 0)` in binary64:
the doubles of the values added from the left, every sum rounded. -/
def total64 (data : List (ChartDatum K)) : K :=
  data.foldl (fun sum item => fl (sum + fl item.value)) 0

/-- `((data[i].value / total) * 100).toFixed(1) + '%'`, the quotient and the
product rounded to binary64; `total64` is the binary64 value of `total`. -/
def percentage (total64 : K) (d : ChartDatum K) : String :=
  toFixed1 (fl (fl (fl d.value / total64) * 100)) ++ "%"

/-- The loop of `drawPieChart` over the entries not yet drawn, `startAngle`
being the loop-carried variable; `total` is used for the angles and its
binary64 value `total64` for the printed percentage. -/
def drawPieChart.loop (M : JsMath K) (centerX centerY radius total total64 : K) :
    List (ChartDatum K) → K → Ctx K → Ctx K
  | [], _, c => c
  | d :: rest, startAngle, c =>
    let sliceAngle := sliceAngle M total d
    let midAngle := startAngle + sliceAngle / 2
    let labelRadius := radius * 0.7
    let labelX := centerX + M.cos midAngle * labelRadius
    let labelY := centerY + M.sin midAngle * labelRadius
    drawPieChart.loop M centerX centerY radius total total64 rest (startAngle + sliceAngle)
      (c |> setFillStyle (.color d.color)
         |> beginPath
         |> moveTo centerX centerY
         |> arc centerX centerY radius startAngle (startAngle + sliceAngle)
         |> closePath
         |> fill
         |> setStrokeStyle (.color "#ffffff")
         |> setLineWidth 2
         |> stroke
         |> setFillStyle (.color "#ffffff")
         |> setFont "bold 16px Arial"
         |> setTextAlign "center"
         |> fillText (percentage total64 d) labelX labelY)

/-- `drawPieChart(data)` on the 800 x 500 dashboard canvas. -/
def drawPieChart (M : JsMath K) (data : List (ChartDatum K)) (c : Ctx K) : Ctx K :=
  drawPieChart.loop M (800 / 2) 250 150 (total data) (total64 data) data 0 c

/-- The three marks of one pie slice that starts at `startAngle`, drawn while
the context has the given alpha, line dash and text baseline. -/
def slicePaints (M : JsMath K) (centerX centerY radius total total64 : K)
    (alpha : K) (dash : List K) (baseline : String) (startAngle : K)
    (d : ChartDatum K) : List (Paint K) :=
  let endAngle := startAngle + sliceAngle M total d
  let midAngle := startAngle + sliceAngle M total d / 2
  let path := [PathOp.moveTo centerX centerY,
    PathOp.arc centerX centerY radius startAngle endAngle, PathOp.closePath]
  [Paint.fill path (.color d.color) alpha,
   Paint.stroke path (.color "#ffffff") 2 dash alpha,
   Paint.fillText (percentage total64 d)
     (centerX + M.cos midAngle * (radius * 0.7)) (centerY + M.sin midAngle * (radius * 0.7))
     (.color "#ffffff") "bold 16px Arial" "center" baseline alpha]

/-- The marks of consecutive slices, the first starting at `startAngle`. -/
def piePaints (M : JsMath K) (centerX centerY radius total total64 : K)
    (alpha : K) (dash : List K) (baseline : String) :
    K → List (ChartDatum K) → List (Paint K)
  | _, [] => []
  | startAngle, d :: rest =>
    slicePaints M centerX centerY radius total total64 alpha dash baseline startAngle d ++
      piePaints M centerX centerY radius total total64 alpha dash baseline
        (startAngle + sliceAngle M total d) rest

/-- The dataset of `appointment_status_chart.png`. -/
def appointmentStatusData : List (ChartDatum K) :=
  [⟨"Completed", 74.9, "#3498db"⟩, ⟨"Cancelled", 10.2, "#e74c3c"⟩,
   ⟨"Rescheduled", 10.1, "#f39c12"⟩, ⟨"No-show", 4.9, "#95a5a6"⟩]

/-- `Math.max(...data.map(item => item.value))`; `none` stands for the
`-Infinity` of an empty argument list. -/
def maxValue (data : List (ChartDatum K)) : Option K :=
  data.foldl (fun m item => match m with
    | none => some item.value
    | some a => some (max a item.value)) none

/-- `(canvas.width - (barWidth * data.length + spacing * (data.length - 1))) / 2`. -/
def startX (data : List (ChartDatum K)) : K :=
  (800 - (80 * (data.length : K) + 30 * ((data.length : K) - 1))) / 2

/-- `(data[i].value / maxValue) * maxBarHeight`. -/
def barHeight (maxValue : K) (d : ChartDatum K) : K :=
  d.value / maxValue * 300

/-- The dataset as the script holds it: every value is the double nearest to
its literal. -/
def doubles (data : List (ChartDatum K)) : List (ChartDatum K) :=
  data.map (fun d => { d with value := fl d.value })

/-- The text `(maxValue * i / yAxisSteps).toFixed(1)` of the i-th y-axis label,
the product and the quotient rounded to binary64, `maxValue` being the largest
of the doubles; with `maxValue = -Infinity` the product is `NaN` at `i = 0`. -/
def yAxisLabel (maxValue : Option K) (i : Nat) : String :=
  match maxValue with
  | some m => toFixed1 (fl (fl (m * (i : K)) / 5))
  | none => if i = 0 then "NaN" else "-Infinity"

/-- The body of the y-axis loop of `drawBarChart` at step `i`; `maxValue` is
read by the label only. -/
def drawBarChart.gridLine (startX : K) (maxValue : Option K) (c : Ctx K) (i : Nat) : Ctx K :=
  let y : K := 400 - ((i : K) / 5) * 300
  c |> fillText (yAxisLabel maxValue i) (startX - 25) (y + 5)
    |> setStrokeStyle (.color "#dddddd")
    |> setLineWidth 1
    |> beginPath
    |> moveTo (startX - 20) y
    |> lineTo (800 - startX + 20) y
    |> stroke

/-- The bar loop of `drawBarChart` from index `i` over the entries not yet drawn. -/
def drawBarChart.bars (startX maxValue : K) : Nat → List (ChartDatum K) → Ctx K → Ctx K
  | _, [], c => c
  | i, d :: rest, c =>
    let barHeight := barHeight maxValue d
    let x := startX + (i : K) * (80 + 30)
    let y := 400 - barHeight
    drawBarChart.bars startX maxValue (i + 1) rest
      (c |> setFillStyle (.color d.color)
         |> fillRect x y 80 barHeight
         |> setStrokeStyle (.color "#333333")
         |> setLineWidth 1
         |> strokeRect x y 80 barHeight
         |> setFillStyle (.color "#333333")
         |> setFont "bold 14px Arial"
         |> setTextAlign "center"
         |> fillText (toFixed1 (fl d.value)) (x + 80 / 2) (y - 10)
         |> setFillStyle (.color "#333333")
         |> setFont "14px Arial"
         |> setTextAlign "center"
         |> fillText d.label (x + 80 / 2) (400 + 20))

/-- `drawBarChart(data)` on the 800 x 500 dashboard canvas.  The bar loop runs
only over a non-empty dataset, whose maximum is a number.  The axis labels are
printed from the largest of the doubles, the bars are measured against the
largest of the exact values. -/
def drawBarChart (data : List (ChartDatum K)) (c : Ctx K) : Ctx K :=
  let startX := startX data
  let maxValue := maxValue data
  let c := c |> setStrokeStyle (.color "#333333")
             |> setLineWidth 2
             |> beginPath
             |> moveTo (startX - 20) 100
             |> lineTo (startX - 20) 400
             |> lineTo (800 - startX + 20) 400
             |> stroke
             |> setFillStyle (.color "#333333")
             |> setFont "14px Arial"
             |> setTextAlign "right"
  let c := (List.range 6).foldl
    (drawBarChart.gridLine startX (Dashboard.maxValue (doubles data))) c
  drawBarChart.bars startX (maxValue.getD 0) 0 data c

/-- The loop of `drawLegend` from index `i` over the entries not yet drawn. -/
def drawLegend.loop : Nat → List (ChartDatum K) → Ctx K → Ctx K
  | _, [], c => c
  | i, d :: rest, c =>
    drawLegend.loop (i + 1) rest
      (c |> setFillStyle (.color d.color)
         |> fillRect 600 (120 + (i : K) * 30) 20 20
         |> setStrokeStyle (.color "#333333")
         |> setLineWidth 1
         |> strokeRect 600 (120 + (i : K) * 30) 20 20
         |> setFillStyle (.color "#333333")
         |> setFont "14px Arial"
         |> setTextAlign "left"
         |> fillText d.label (600 + 30) (120 + (i : K) * 30 + 15))

/-- `drawLegend(data)`. -/
def drawLegend (data : List (ChartDatum K)) (c : Ctx K) : Ctx K :=
  drawLegend.loop 0 data
    (c |> setFillStyle (.color "#f8f9fa")
       |> fillRect (600 - 20) (120 - 20) 200 ((data.length : K) * 30 + 30)
       |> setStrokeStyle (.color "#dddddd")
       |> setLineWidth 1
       |> strokeRect (600 - 20) (120 - 20) 200 ((data.length : K) * 30 + 30))

/-- `saveCanvasAsImage(filename)`: the canvas is exported with `toDataURL`, a
hidden `img` carrying it is appended to the body, and every `img` of the
document selected by `img[src="assets/" + filename]` gets that source. -/
def saveCanvasAsImage (toDataURL : List (Paint K) → String) (filename : String)
    (c : Ctx K) (doc : List Img) : List Img :=
  let img : Img :=
    { src := toDataURL c.out
      alt := jsReplace filename ".png" ""
      className := "dashboard-img"
      display := "none"
      id := jsReplace filename ".png" "" }
  (doc ++ [img]).map (fun image =>
    if image.src = "assets/" ++ filename then { image with src := img.src } else image)

/-- The drawing part of `createDashboardImage(filename, title, data, chartType)`. -/
def createDashboardImage.draw (M : JsMath K) (title : String) (data : List (ChartDatum K))
    (chartType : String) (c : Ctx K) : Ctx K :=
  let c := c |> setFillStyle (.color "#ffffff")
             |> fillRect 0 0 800 500
             |> setFillStyle (.color "#333333")
             |> setFont "bold 28px Arial"
             |> setTextAlign "center"
             |> fillText title (800 / 2) 50
             |> setStrokeStyle (.color "#dddddd")
             |> setLineWidth 2
             |> strokeRect 10 10 (800 - 20) (500 - 20)
  let c :=
    if chartType = "pie" then drawPieChart M data c
    else if chartType = "bar" then drawBarChart data c
    else c
  drawLegend data c

/-- `createDashboardImage(filename, title, data, chartType)` on the shared
context and the document. -/
def createDashboardImage (M : JsMath K) (toDataURL : List (Paint K) → String)
    (filename title : String) (data : List (ChartDatum K)) (chartType : String)
    (p : Ctx K × List Img) : Ctx K × List Img :=
  let c := createDashboardImage.draw M title data chartType p.1
  (c, saveCanvasAsImage toDataURL filename c p.2)

/-- The dataset of `wait_time_chart.png`. -/
def waitTimeData : List (ChartDatum K) :=
  [⟨"Tablet", 14.17, "#3498db"⟩, ⟨"Desktop", 14.04, "#2ecc71"⟩,
   ⟨"Laptop", 13.91, "#e74c3c"⟩, ⟨"Mobile Phone", 13.60, "#f39c12"⟩]

/-- The dataset of `provider_rating_chart.png`. -/
def providerRatingData : List (ChartDatum K) :=
  [⟨"Cardiology", 3.91, "#3498db"⟩, ⟨"Internal Medicine", 3.61, "#2ecc71"⟩,
   ⟨"Family Medicine", 3.77, "#e74c3c"⟩, ⟨"Pediatrics", 3.52, "#f39c12"⟩,
   ⟨"Dermatology", 3.48, "#9b59b6"⟩]

/-- The dataset of `technical_issues_chart.png`. -/
def technicalIssuesData : List (ChartDatum K) :=
  [⟨"Tablet", 17.04, "#3498db"⟩, ⟨"Mobile Phone", 16.90, "#2ecc71"⟩,
   ⟨"Desktop", 16.54, "#e74c3c"⟩, ⟨"Laptop", 16.33, "#f39c12"⟩]

/-- The dataset of `appointment_duration_chart.png`. -/
def appointmentDurationData : List (ChartDatum K) :=
  [⟨"Follow-up", 15.3, "#3498db"⟩, ⟨"Initial Consultation", 28.7, "#2ecc71"⟩,
   ⟨"Urgent Care", 22.1, "#e74c3c"⟩, ⟨"Specialist Referral", 25.4, "#f39c12"⟩]

/-- The dataset of `patient_age_chart.png`. -/
def patientAgeData : List (ChartDatum K) :=
  [⟨"0-18", 15, "#3498db"⟩, ⟨"19-35", 25, "#2ecc71"⟩, ⟨"36-50", 30, "#e74c3c"⟩,
   ⟨"51-65", 20, "#f39c12"⟩, ⟨"65+", 10, "#9b59b6"⟩]

/-- `generateDashboardImages()`: one canvas and context for the six images. -/
def generateDashboardImages (M : JsMath K) (toDataURL : List (Paint K) → String)
    (doc : List Img) : Ctx K × List Img :=
  (freshCtx, doc)
    |> createDashboardImage M toDataURL "appointment_status_chart.png"
        "Appointment Status Distribution" appointmentStatusData "pie"
    |> createDashboardImage M toDataURL "wait_time_chart.png"
        "Average Wait Time by Device Type" waitTimeData "bar"
    |> createDashboardImage M toDataURL "provider_rating_chart.png"
        "Provider Ratings by Specialty" providerRatingData "bar"
    |> createDashboardImage M toDataURL "technical_issues_chart.png"
        "Technical Issues by Device Type" technicalIssuesData "bar"
    |> createDashboardImage M toDataURL "appointment_duration_chart.png"
        "Average Appointment Duration by Type" appointmentDurationData "bar"
    |> createDashboardImage M toDataURL "patient_age_chart.png"
        "Patient Age Distribution" patientAgeData "pie"

/-- The four marks of bar `i`, drawn while the context has the given alpha,
line dash and text baseline. -/
def barPaints (startX maxValue : K) (alpha : K) (dash : List K) (baseline : String)
    (i : Nat) (d : ChartDatum K) : List (Paint K) :=
  let x := startX + (i : K) * (80 + 30)
  let y := 400 - barHeight maxValue d
  [Paint.fillRect x y 80 (barHeight maxValue d) (.color d.color) alpha,
   Paint.strokeRect x y 80 (barHeight maxValue d) (.color "#333333") 1 dash alpha,
   Paint.fillText (toFixed1 (fl d.value)) (x + 80 / 2) (y - 10) (.color "#333333")
     "bold 14px Arial" "center" baseline alpha,
   Paint.fillText d.label (x + 80 / 2) (400 + 20) (.color "#333333")
     "14px Arial" "center" baseline alpha]

/-- The marks of the bars from index `i` on. -/
def barsPaints (startX maxValue : K) (alpha : K) (dash : List K) (baseline : String) :
    Nat → List (ChartDatum K) → List (Paint K)
  | _, [] => []
  | i, d :: rest =>
    barPaints startX maxValue alpha dash baseline i d ++
      barsPaints startX maxValue alpha dash baseline (i + 1) rest

/-- The label and the grid line of y-axis step `i`. -/
def gridPaints (startX : K) (maxValue : Option K) (alpha : K) (dash : List K)
    (baseline : String) (i : Nat) : List (Paint K) :=
  let y : K := 400 - ((i : K) / 5) * 300
  [Paint.fillText (yAxisLabel maxValue i) (startX - 25) (y + 5) (.color "#333333")
     "14px Arial" "right" baseline alpha,
   Paint.stroke [PathOp.moveTo (startX - 20) y, PathOp.lineTo (800 - startX + 20) y]
     (.color "#dddddd") 1 dash alpha]

/-- The two axes, as stroked by `drawBarChart`. -/
def axesPaint (startX : K) (alpha : K) (dash : List K) : Paint K :=
  Paint.stroke [PathOp.moveTo (startX - 20) 100, PathOp.lineTo (startX - 20) 400,
    PathOp.lineTo (800 - startX + 20) 400] (.color "#333333") 2 dash alpha

/-- The three marks of legend entry `i`: the colour box, its border, the label. -/
def legendEntryPaints (alpha : K) (dash : List K) (baseline : String) (i : Nat)
    (d : ChartDatum K) : List (Paint K) :=
  [Paint.fillRect 600 (120 + 30 * (i : K)) 20 20 (.color d.color) alpha,
   Paint.strokeRect 600 (120 + 30 * (i : K)) 20 20 (.color "#333333") 1 dash alpha,
   Paint.fillText d.label 630 (135 + 30 * (i : K)) (.color "#333333") "14px Arial" "left"
     baseline alpha]

end Charts

end Dashboard

/-! ## generate-aws-diagram.js -/

namespace AwsDiagram

section Arrows

variable {K : Type} [LinearOrderedField K]

/-- `drawArrow(x1, y1, x2, y2)`. -/
def drawArrow (M : JsMath K) (x1 y1 x2 y2 : K) (c : Ctx K) : Ctx K :=
  let headLength : K := 10
  let angle := M.atan2 (y2 - y1) (x2 - x1)
  c |> setStrokeStyle (.color "#555555")
    |> setLineWidth 1.5
    |> beginPath
    |> moveTo x1 y1
    |> lineTo x2 y2
    |> stroke
    |> beginPath
    |> moveTo x2 y2
    |> lineTo (x2 - headLength * M.cos (angle - M.pi / 6))
        (y2 - headLength * M.sin (angle - M.pi / 6))
    |> lineTo (x2 - headLength * M.cos (angle + M.pi / 6))
        (y2 - headLength * M.sin (angle + M.pi / 6))
    |> closePath
    |> setFillStyle (.color "#555555")
    |> fill

/-- `drawDashedArrow(x1, y1, x2, y2)`. -/
def drawDashedArrow (M : JsMath K) (x1 y1 x2 y2 : K) (c : Ctx K) : Ctx K :=
  let headLength : K := 10
  let angle := M.atan2 (y2 - y1) (x2 - x1)
  c |> setStrokeStyle (.color "#555555")
    |> setLineWidth 1.5
    |> setLineDash [5, 3]
    |> beginPath
    |> moveTo x1 y1
    |> lineTo x2 y2
    |> stroke
    |> setLineDash []
    |> beginPath
    |> moveTo x2 y2
    |> lineTo (x2 - headLength * M.cos (angle - M.pi / 6))
        (y2 - headLength * M.sin (angle - M.pi / 6))
    |> lineTo (x2 - headLength * M.cos (angle + M.pi / 6))
        (y2 - headLength * M.sin (angle + M.pi / 6))
    |> closePath
    |> setFillStyle (.color "#555555")
    |> fill

/-- `drawLayer(name, y, color)`. -/
def drawLayer (name : String) (y : K) (color : String) (c : Ctx K) : Ctx K :=
  c |> setFillStyle (.color color)
    |> setGlobalAlpha 0.3
    |> fillRect 50 (y - 30) 900 100
    |> setGlobalAlpha 1.0
    |> setStrokeStyle (.color "#555555")
    |> setLineWidth 1
    |> strokeRect 50 (y - 30) 900 100
    |> setFillStyle (.color "#333333")
    |> setFont "bold 16px Arial"
    |> setTextAlign "left"
    |> fillText name 60 (y - 10)

/-- `drawComponent(name, x, y, color)`. -/
def drawComponent (name : String) (x y : K) (color : String) (c : Ctx K) : Ctx K :=
  c |> setFillStyle (.color color)
    |> setGlobalAlpha 0.7
    |> beginPath
    |> roundRect (x - 100) (y - 20) 200 40 5
    |> fill
    |> setGlobalAlpha 1.0
    |> setStrokeStyle (.color "#555555")
    |> setLineWidth 1
    |> beginPath
    |> roundRect (x - 100) (y - 20) 200 40 5
    |> stroke
    |> setFillStyle (.color "#333333")
    |> setFont "14px Arial"
    |> setTextAlign "center"
    |> fillText name x (y + 5)

/-- The `colors` table of `generateAwsArchitectureDiagram`. -/
structure Colors where
  dataSources : String
  ingestion : String
  processing : String
  storage : String
  analytics : String
  monitoring : String

/-- The values of the `colors` table. -/
def colors : Colors where
  dataSources := "#8dd3c7"
  ingestion := "#ffffb3"
  processing := "#bebada"
  storage := "#fb8072"
  analytics := "#80b1d3"
  monitoring := "#fdb462"

/-- Everything `generateAwsArchitectureDiagram()` draws on its 1000 x 600
canvas, from `// Clear canvas` to the last dashed arrow. -/
def generateAwsArchitectureDiagram.draw (M : JsMath K) (c : Ctx K) : Ctx K :=
  c |> setFillStyle (.color "#ffffff")
    |> fillRect 0 0 1000 600
    |> setFillStyle (.color "#333333")
    |> setFont "bold 24px Arial"
    |> setTextAlign "center"
    |> fillText "AWS Architecture - Telemedicine Appointment Data Pipeline" (1000 / 2) 40
    |> drawLayer "Data Sources" 80 colors.dataSources
    |> drawLayer "Ingestion Layer" 200 colors.ingestion
    |> drawLayer "Processing Layer" 320 colors.processing
    |> drawLayer "Storage Layer" 440 colors.storage
    |> drawLayer "Analytics Layer" 560 colors.analytics
    |> drawComponent "Appointment Logs (External API)" 100 110 colors.dataSources
    |> drawComponent "Patient Feedback (S3 JSON Files)" 350 110 colors.dataSources
    |> drawComponent "Provider Data (RDS)" 600 110 colors.dataSources
    |> drawComponent "Amazon MSK (Kafka)" 100 230 colors.ingestion
    |> drawComponent "Amazon MWAA (Airflow)" 350 230 colors.ingestion
    |> drawComponent "API Gateway / S3 Connector" 600 230 colors.ingestion
    |> drawComponent "AWS Glue (ETL)" 100 350 colors.processing
    |> drawComponent "Data Quality Checks" 350 350 colors.processing
    |> drawComponent "AWS Step Functions" 600 350 colors.processing
    |> drawComponent "S3 Raw Data" 100 470 colors.storage
    |> drawComponent "S3 Processed Data" 350 470 colors.storage
    |> drawComponent "Amazon Redshift" 600 470 colors.storage
    |> drawComponent "Amazon QuickSight" 350 590 colors.analytics
    |> drawArrow M 150 140 150 200
    |> drawArrow M 350 140 350 200
    |> drawArrow M 600 140 600 200
    |> drawArrow M 150 260 150 320
    |> drawArrow M 350 260 350 320
    |> drawArrow M 600 260 350 320
    |> drawArrow M 150 380 150 440
    |> drawArrow M 350 380 350 440
    |> drawArrow M 600 380 600 440
    |> drawArrow M 350 500 350 560
    |> drawArrow M 600 500 400 560
    |> drawComponent "Amazon CloudWatch" 800 230 colors.monitoring
    |> drawComponent "Amazon SNS (Alerts)" 800 350 colors.monitoring
    |> drawDashedArrow M 700 230 770 230
    |> drawDashedArrow M 700 350 770 350
    |> drawDashedArrow M 800 260 800 320

/-- `generateAwsArchitectureDiagram()`: a new canvas is drawn on and exported,
an `img` carrying the export is appended to the body, and every `img` selected
by `img[src="assets/aws_architecture_diagram.png"]` gets that source. -/
def generateAwsArchitectureDiagram (M : JsMath K) (toDataURL : List (Paint K) → String)
    (doc : List Img) : Ctx K × List Img :=
  let c := generateAwsArchitectureDiagram.draw M freshCtx
  let img : Img :=
    { src := toDataURL c.out
      alt := "AWS Architecture Diagram"
      id := "aws_architecture_diagram"
      className := "img-fluid rounded shadow"
      display := "" }
  (c, (doc ++ [img]).map (fun image =>
    if image.src = "assets/aws_architecture_diagram.png" then { image with src := img.src }
    else image))

end Arrows

end AwsDiagram

/-! ## generate-placeholder-images.js -/

namespace Placeholder

/-- The end of `createPlaceholderImage(id, title, description)` (from
`// Save the image` on): `url` is the `canvas.toDataURL('image/png')` of the
canvas the function has drawn; an `img` carrying it is appended to the body and
every `img` of the document selected by `img[src*=id + ".png"]` gets that
source. -/
def createPlaceholderImage.save (url id title : String) (doc : List Img) : List Img :=
  let img : Img :=
    { src := url
      alt := title
      id := id ++ "_img"
      className := "img-fluid rounded shadow"
      display := "" }
  (doc ++ [img]).map (fun image =>
    if jsIncludes image.src (id ++ ".png") then { image with src := img.src } else image)

section Arrows

variable {K : Type} [LinearOrderedField K]

/-- `drawArchitectureArrow(ctx, x1, y1, x2, y2)`. -/
def drawArchitectureArrow (M : JsMath K) (x1 y1 x2 y2 : K) (c : Ctx K) : Ctx K :=
  let headLength : K := 10
  let angle := M.atan2 (y2 - y1) (x2 - x1)
  c |> setStrokeStyle (.color "white")
    |> setLineWidth 1.5
    |> beginPath
    |> moveTo x1 y1
    |> lineTo x2 y2
    |> stroke
    |> beginPath
    |> moveTo x2 y2
    |> lineTo (x2 - headLength * M.cos (angle - M.pi / 6))
        (y2 - headLength * M.sin (angle - M.pi / 6))
    |> lineTo (x2 - headLength * M.cos (angle + M.pi / 6))
        (y2 - headLength * M.sin (angle + M.pi / 6))
    |> closePath
    |> setFillStyle (.color "white")
    |> fill

end Arrows

section Charts

variable {K : Type} [LinearOrderedField K] [FloorRing K]

/-- The loop of the placeholder `drawPieChart` over the slices not yet drawn:
`i` is the index, `startAngle` the variable the callback updates. -/
def drawPieChart.slices (M : JsMath K) (centerX centerY radius : K) (colors : List String) :
    Nat → List K → K → Ctx K → Ctx K
  | _, [], _, c => c
  | i, slice :: rest, startAngle, c =>
    let endAngle := startAngle + slice * M.pi * 2
    let midAngle := startAngle + (endAngle - startAngle) / 2
    let labelRadius := radius * 1.3
    let labelX := centerX + M.cos midAngle * labelRadius
    let labelY := centerY + M.sin midAngle * labelRadius
    drawPieChart.slices M centerX centerY radius colors (i + 1) rest endAngle
      (c |> setFillStyle (.color (colors.getD i "undefined"))
         |> beginPath
         |> moveTo centerX centerY
         |> arc centerX centerY radius startAngle endAngle
         |> closePath
         |> fill
         |> setFillStyle (.color "white")
         |> setFont "16px Arial"
         |> setTextAlign "center"
         |> fillText (toString (jsRound (slice * 100)) ++ "%") labelX labelY)

/-- The legend loop of the placeholder `drawPieChart`. -/
def drawPieChart.legend (centerX legendTop : K) (colors : List String) :
    Nat → List String → Ctx K → Ctx K
  | _, [], c => c
  | i, label :: rest, c =>
    let legendX := centerX - 150 + (i : K) * 100
    drawPieChart.legend centerX legendTop colors (i + 1) rest
      (c |> setFillStyle (.color (colors.getD i "undefined"))
         |> fillRect legendX legendTop 15 15
         |> setFillStyle (.color "white")
         |> setFont "12px Arial"
         |> setTextAlign "left"
         |> fillText label (legendX + 20) (legendTop + 12))

/-- The `slices` array of the placeholder `drawPieChart`. -/
def pieSlices : List K := [0.45, 0.25, 0.15, 0.15]

/-- `drawPieChart(ctx, centerX, centerY, radius)` of the placeholder script. -/
def drawPieChart (M : JsMath K) (centerX centerY radius : K) (c : Ctx K) : Ctx K :=
  let colors := ["#e74c3c", "#3498db", "#2ecc71", "#f1c40f"]
  let c := drawPieChart.slices M centerX centerY radius colors 0 pieSlices 0 c
  let labels := ["Completed", "Cancelled", "Rescheduled", "No-show"]
  let legendTop := centerY + radius + 30
  drawPieChart.legend centerX legendTop colors 0 labels c

/-- `Math.random() * height * 0.6 + height * 0.2`, for the sample `r`, in exact
arithmetic. -/
def randomHeight (r height : K) : K := r * height * 0.6 + height * 0.2

/-- `Math.random() * width * 0.6 + width * 0.1`, for the sample `r`, in exact
arithmetic. -/
def randomWidth (r width : K) : K := r * width * 0.6 + width * 0.1

/-- `Math.random() * height * 0.6 + height * 0.2` as the script computes it for
the sample `r`: the literals are doubles, and the two products on the left,
the product on the right and the sum are rounded to binary64.  This is the
`barHeight` that `drawBarChart` passes to `fillRect` and the `data[i]` of
`drawLineChart`. -/
def randomHeight64 (r height : K) : K :=
  fl (fl (fl (r * height) * fl 0.6) + fl (height * fl 0.2))

/-- `Math.random() * width * 0.6 + width * 0.1` as the script computes it for
the sample `r`, in binary64: the `barWidth` that `drawHorizontalBarChart`
passes to `fillRect`. -/
def randomWidth64 (r width : K) : K :=
  fl (fl (fl (r * width) * fl 0.6) + fl (width * fl 0.1))

/-- `top + height - data[i]` as the script computes it, in binary64, `data[i]`
being the random height for the sample `r`: the `y` that `drawLineChart`
passes to `moveTo`, `lineTo` and `arc`. -/
def pointY64 (r top height : K) : K :=
  fl (fl (top + height) - randomHeight64 r height)

/-- The body of the bar loop of the placeholder `drawBarChart` at index `i`;
`r` is what `Math.random()` returned. -/
def drawBarChart.bar (r left top width height : K) (bars : Nat) (c : Ctx K) (i : Nat) :
    Ctx K :=
  let barWidth := width / ((bars : K) * 2)
  let colors := ["#3498db", "#2ecc71", "#e74c3c", "#f1c40f"]
  let barHeight := randomHeight r height
  let barX := left + ((i : K) * barWidth * 2) + barWidth / 2
  let barY := top + height - barHeight
  let labels := ["Mobile", "Desktop", "Tablet", "Other"]
  c |> setFillStyle (.color (colors.getD (i % colors.length) "undefined"))
    |> fillRect barX barY barWidth barHeight
    |> setFillStyle (.color "white")
    |> setFont "14px Arial"
    |> setTextAlign "center"
    |> fillText (toString (jsRound (barHeight / height * 20)) ++ "m") (barX + barWidth / 2)
        (barY - 10)
    |> setFillStyle (.color "white")
    |> setFont "12px Arial"
    |> setTextAlign "center"
    |> fillText (labels.getD i "undefined") (barX + barWidth / 2) (top + height + 20)

/-- `drawBarChart(ctx, left, top, width, height, bars)` of the placeholder
script; `rnd i` is the value of the call of `Math.random()` in iteration `i`. -/
def drawBarChart (rnd : Nat → K) (left top width height : K) (bars : Nat) (c : Ctx K) :
    Ctx K :=
  let c := (List.range bars).foldl
    (fun c (i : Nat) => drawBarChart.bar (rnd i) left top width height bars c i) c
  let c := c |> setFillStyle (.color "white")
             |> setFont "12px Arial"
             |> setTextAlign "right"
  (List.range 6).foldl (fun c (i : Nat) =>
    let labelY := top + height - ((i : K) * height / 5)
    c |> fillText (toString (i * 5) ++ "m") (left - 10) (labelY + 5)) c

/-- `drawLineChart(ctx, left, top, width, height, points)` of the placeholder
script; `rnd i` is the value of the i-th call of `Math.random()`, which fills
`data[i]`. -/
def drawLineChart (M : JsMath K) (rnd : Nat → K) (left top width height : K) (points : Nat)
    (c : Ctx K) : Ctx K :=
  let pointWidth := width / ((points : K) - 1)
  let data : Nat → K := fun i => randomHeight (rnd i) height
  let c := c |> setStrokeStyle (.color "#3498db")
             |> setLineWidth 3
             |> beginPath
  let c := (List.range points).foldl (fun c (i : Nat) =>
    let x := left + ((i : K) * pointWidth)
    let y := top + height - data i
    if i = 0 then moveTo x y c else lineTo x y c) c
  let c := stroke c
  let labels := ["Cardio", "Neuro", "Ortho", "Pedia", "General"]
  let c := (List.range points).foldl (fun c (i : Nat) =>
    let x := left + ((i : K) * pointWidth)
    let y := top + height - data i
    c |> setFillStyle (.color "white")
      |> beginPath
      |> arc x y 5 0 (M.pi * 2)
      |> fill
      |> setFillStyle (.color "white")
      |> setFont "14px Arial"
      |> setTextAlign "center"
      |> fillText (toFixed1 (data i / height * 5)) x (y - 15)
      |> setFillStyle (.color "white")
      |> setFont "12px Arial"
      |> setTextAlign "center"
      |> fillText (labels.getD i "undefined") x (top + height + 20)) c
  let c := c |> setFillStyle (.color "white")
             |> setFont "12px Arial"
             |> setTextAlign "right"
  (List.range 6).foldl (fun c (i : Nat) =>
    let labelY := top + height - ((i : K) * height / 5)
    c |> fillText (toString i) (left - 10) (labelY + 5)) c

/-- The body of the bar loop of `drawHorizontalBarChart` at index `i`; `r` is
what `Math.random()` returned. -/
def drawHorizontalBarChart.bar (r left top width height : K) (bars : Nat) (c : Ctx K)
    (i : Nat) : Ctx K :=
  let barHeight := height / ((bars : K) * 2)
  let colors := ["#e74c3c", "#3498db", "#2ecc71"]
  let barWidth := randomWidth r width
  let barX := left
  let barY := top + ((i : K) * barHeight * 2) + barHeight / 2
  let labels := ["Tablet", "Mobile", "Desktop"]
  c |> setFillStyle (.color (colors.getD (i % colors.length) "undefined"))
    |> fillRect barX barY barWidth barHeight
    |> setFillStyle (.color "white")
    |> setFont "14px Arial"
    |> setTextAlign "left"
    |> fillText (toString (jsRound (barWidth / width * 30)) ++ "%") (barX + barWidth + 10)
        (barY + barHeight / 2 + 5)
    |> setFillStyle (.color "white")
    |> setFont "12px Arial"
    |> setTextAlign "right"
    |> fillText (labels.getD i "undefined") (left - 10) (barY + barHeight / 2 + 5)

/-- `drawHorizontalBarChart(ctx, left, top, width, height, bars)`; `rnd i` is
the value of the call of `Math.random()` in iteration `i`. -/
def drawHorizontalBarChart (rnd : Nat → K) (left top width height : K) (bars : Nat)
    (c : Ctx K) : Ctx K :=
  let c := (List.range bars).foldl
    (fun c (i : Nat) => drawHorizontalBarChart.bar (rnd i) left top width height bars c i) c
  let c := c |> setFillStyle (.color "white")
             |> setFont "12px Arial"
             |> setTextAlign "center"
  (List.range 6).foldl (fun c (i : Nat) =>
    let labelX := left + ((i : K) * width / 5)
    c |> fillText (toString (i * 6) ++ "%") labelX (top + height + 20)) c

end Charts

end Placeholder

namespace Dashboard

/-- The linear scale of the y axis of the dashboard bar chart: value 0 sits on
the base line `y = 400` and `maxValue` sits 300 higher, at `y = 100`. -/
def yOfValue {K : Type} [LinearOrderedField K] (maxValue v : K) : K :=
  400 - 300 * v / maxValue

end Dashboard

namespace Placeholder

section Architecture

variable {K : Type} [LinearOrderedField K]

/-- `drawDashedArchitectureArrow(ctx, x1, y1, x2, y2)`. -/
def drawDashedArchitectureArrow (M : JsMath K) (x1 y1 x2 y2 : K) (c : Ctx K) : Ctx K :=
  let headLength : K := 10
  let angle := M.atan2 (y2 - y1) (x2 - x1)
  c |> setStrokeStyle (.color "white")
    |> setLineWidth 1.5
    |> setLineDash [5, 3]
    |> beginPath
    |> moveTo x1 y1
    |> lineTo x2 y2
    |> stroke
    |> setLineDash []
    |> beginPath
    |> moveTo x2 y2
    |> lineTo (x2 - headLength * M.cos (angle - M.pi / 6))
        (y2 - headLength * M.sin (angle - M.pi / 6))
    |> lineTo (x2 - headLength * M.cos (angle + M.pi / 6))
        (y2 - headLength * M.sin (angle + M.pi / 6))
    |> closePath
    |> setFillStyle (.color "white")
    |> fill

/-- `drawArchitectureLayer(ctx, name, y, color)`. -/
def drawArchitectureLayer (name : String) (y : K) (color : String) (c : Ctx K) : Ctx K :=
  c |> setFillStyle (.color color)
    |> setGlobalAlpha 0.2
    |> fillRect 50 (y - 30) 900 100
    |> setGlobalAlpha 1.0
    |> setStrokeStyle (.color color)
    |> setLineWidth 2
    |> strokeRect 50 (y - 30) 900 100
    |> setFillStyle (.color "white")
    |> setFont "bold 16px Arial"
    |> setTextAlign "left"
    |> fillText name 60 (y - 10)

/-- `drawArchitectureComponent(ctx, name, x, y, color)`. -/
def drawArchitectureComponent (name : String) (x y : K) (color : String) (c : Ctx K) :
    Ctx K :=
  c |> setFillStyle (.color color)
    |> setGlobalAlpha 0.7
    |> beginPath
    |> roundRect (x - 100) (y - 20) 200 40 5
    |> fill
    |> setGlobalAlpha 1.0
    |> setStrokeStyle (.color "white")
    |> setLineWidth 1
    |> beginPath
    |> roundRect (x - 100) (y - 20) 200 40 5
    |> stroke
    |> setFillStyle (.color "white")
    |> setFont "14px Arial"
    |> setTextAlign "center"
    |> fillText name x (y + 5)

/-- Everything `createArchitectureDiagram()` draws on its 1000 x 600 canvas,
from `// Background` to the `Powered by AWS` mark. -/
def createArchitectureDiagram.draw (M : JsMath K) (c : Ctx K) : Ctx K :=
  c |> setFillStyle (.linearGradient 0 0 0 600 [(0, "#2c3e50"), (1, "#1a2530")])
    |> fillRect 0 0 1000 600
    |> setFillStyle (.color "white")
    |> setFont "bold 28px Arial"
    |> setTextAlign "center"
    |> fillText "Telemedicine Appointment Data Pipeline - Architecture" (1000 / 2) 40
    |> drawArchitectureLayer "Data Sources" 80 "#8dd3c7"
    |> drawArchitectureLayer "Ingestion Layer" 200 "#ffffb3"
    |> drawArchitectureLayer "Processing Layer" 320 "#bebada"
    |> drawArchitectureLayer "Storage Layer" 440 "#fb8072"
    |> drawArchitectureLayer "Analytics Layer" 560 "#80b1d3"
    |> drawArchitectureComponent "Appointment Logs (External API)" 150 110 "#8dd3c7"
    |> drawArchitectureComponent "Patient Feedback (S3 JSON Files)" 500 110 "#8dd3c7"
    |> drawArchitectureComponent "Provider Data (RDS)" 850 110 "#8dd3c7"
    |> drawArchitectureComponent "Kafka / Kinesis" 150 230 "#ffffb3"
    |> drawArchitectureComponent "Airflow" 500 230 "#ffffb3"
    |> drawArchitectureComponent "API Gateway" 850 230 "#ffffb3"
    |> drawArchitectureComponent "ETL Scripts" 150 350 "#bebada"
    |> drawArchitectureComponent "Data Quality Checks" 500 350 "#bebada"
    |> drawArchitectureComponent "Dimensional Modeling" 850 350 "#bebada"
    |> drawArchitectureComponent "S3 Raw Data" 150 470 "#fb8072"
    |> drawArchitectureComponent "S3 Processed Data" 500 470 "#fb8072"
    |> drawArchitectureComponent "Redshift" 850 470 "#fb8072"
    |> drawArchitectureComponent "QuickSight Dashboards" 500 590 "#80b1d3"
    |> drawArchitectureArrow M 150 140 150 200
    |> drawArchitectureArrow M 500 140 500 200
    |> drawArchitectureArrow M 850 140 850 200
    |> drawArchitectureArrow M 150 260 150 320
    |> drawArchitectureArrow M 500 260 500 320
    |> drawArchitectureArrow M 850 260 500 320
    |> drawArchitectureArrow M 150 380 150 440
    |> drawArchitectureArrow M 500 380 500 440
    |> drawArchitectureArrow M 850 380 850 440
    |> drawArchitectureArrow M 500 500 500 560
    |> drawArchitectureArrow M 850 500 550 560
    |> drawArchitectureComponent "CloudWatch" 325 290 "#fdb462"
    |> drawArchitectureComponent "SNS Alerts" 325 410 "#fdb462"
    |> drawDashedArchitectureArrow M 250 230 275 290
    |> drawDashedArchitectureArrow M 250 350 275 350
    |> drawDashedArchitectureArrow M 325 320 325 380
    |> setFont "16px Arial"
    |> setFillStyle (.color "rgba(255, 255, 255, 0.7)")
    |> setTextAlign "right"
    |> fillText "Powered by AWS" (1000 - 20) (600 - 20)

end Architecture

end Placeholder

namespace Placeholder

/-- An entry of the `images` list of `generatePlaceholderImages`. -/
structure ImageSpec where
  id : String
  title : String
  description : String

/-- The `images` list of `generatePlaceholderImages`. -/
def images : List ImageSpec :=
  [⟨"overview", "Project Overview", "Telemedicine Appointment Data Pipeline Overview"⟩,
   ⟨"appointment_status_chart", "Appointment Status Distribution",
     "Breakdown of appointments by status"⟩,
   ⟨"wait_time_chart", "Average Wait Time by Device Type",
     "Comparison of wait times across devices"⟩,
   ⟨"provider_rating_chart", "Provider Ratings by Specialty",
     "Average ratings across medical specialties"⟩,
   ⟨"technical_issues_chart", "Technical Issues by Device Type",
     "Percentage of technical issues by device"⟩,
   ⟨"architecture_diagram", "Pipeline Architecture", "System architecture diagram"⟩]

/-- The end of `createArchitectureDiagram()` (from `// Save the image` on):
`url` is the `canvas.toDataURL('image/png')` of the canvas the function has
drawn; an `img` carrying it is appended to the body and every `img` of the
document selected by `img[src*="architecture_diagram.png"]` gets that source. -/
def createArchitectureDiagram.save (url : String) (doc : List Img) : List Img :=
  let img : Img :=
    { src := url
      alt := "Architecture Diagram"
      id := "architecture_diagram_img"
      className := "img-fluid rounded shadow"
      display := "" }
  (doc ++ [img]).map (fun image =>
    if jsIncludes image.src "architecture_diagram.png" then { image with src := img.src }
    else image)

/-- The loop of `generatePlaceholderImages()` over `images`, on the document:
`urlOf id` is the export of the canvas `createPlaceholderImage` draws for `id`. -/
def generatePlaceholderImages.placeholders (urlOf : String → String) (doc : List Img) :
    List Img :=
  images.foldl (fun doc image =>
    createPlaceholderImage.save (urlOf image.id) image.id image.title doc) doc

/-- `generatePlaceholderImages()` on the document: the six placeholder images
in list order, then `createArchitectureDiagram()`, whose canvas export is
`archUrl`. -/
def generatePlaceholderImages (urlOf : String → String) (archUrl : String)
    (doc : List Img) : List Img :=
  createArchitectureDiagram.save archUrl (generatePlaceholderImages.placeholders urlOf doc)

end Placeholder

section Axis

variable {K : Type} [LinearOrderedField K]

/-- What an axis reads at `offset` from its origin when its tick number `i` sits
at offset `i * step` and is labelled `perTick * i`. -/
def axisReading (perTick step offset : K) : K := perTick * (offset / step)

end Axis

section Boxes

variable {K : Type}

/-- The rounded rectangles `(x, y, w, h)` of the filled paths, in paint order. -/
def filledRoundRects : List (Paint K) → List (K × K × K × K)
  | [] => []
  | Paint.fill path _ _ :: ps =>
      path.filterMap (fun op => match op with
        | PathOp.roundRect x y w h _ => some (x, y, w, h)
        | _ => none) ++ filledRoundRects ps
  | _ :: ps => filledRoundRects ps

/-- The box `(x, y, w, h)` lies between the left and the right edge of a canvas
of width `W`. -/
def withinWidth [LinearOrderedField K] (W : K) (r : K × K × K × K) : Prop :=
  0 ≤ r.1 ∧ r.1 + r.2.2.1 ≤ W

/-- The box `(x, y, w, h)` lies between the top and the bottom edge of a canvas
of height `H`. -/
def withinHeight [LinearOrderedField K] (H : K) (r : K × K × K × K) : Prop :=
  0 ≤ r.2.1 ∧ r.2.1 + r.2.2.2 ≤ H

end Boxes

/-! ## Theorems -/

section Projections

variable {K : Type}

theorem filledArcs_append (l₁ l₂ : List (Paint K)) :
    filledArcs (l₁ ++ l₂) = filledArcs l₁ ++ filledArcs l₂ := by
  induction l₁ with
  | nil => rfl
  | cons p ps ih => cases p <;> simp [filledArcs, ih]

theorem texts_append (l₁ l₂ : List (Paint K)) :
    texts (l₁ ++ l₂) = texts l₁ ++ texts l₂ := by
  induction l₁ with
  | nil => rfl
  | cons p ps ih => cases p <;> simp [texts, ih]

theorem filledRects_append (l₁ l₂ : List (Paint K)) :
    filledRects (l₁ ++ l₂) = filledRects l₁ ++ filledRects l₂ := by
  induction l₁ with
  | nil => rfl
  | cons p ps ih => cases p <;> simp [filledRects, ih]

@[simp] theorem filledRects_nil : filledRects ([] : List (Paint K)) = [] := rfl

@[simp] theorem filledRects_fillRect (x y w h : K) (st : Style K) (a : K) (ps : List (Paint K)) :
    filledRects (Paint.fillRect x y w h st a :: ps) = (x, y, w, h, st) :: filledRects ps := rfl

@[simp] theorem filledRects_strokeRect (x y w h : K) (st : Style K) (lw : K) (ld : List K)
    (a : K) (ps : List (Paint K)) :
    filledRects (Paint.strokeRect x y w h st lw ld a :: ps) = filledRects ps := rfl

@[simp] theorem filledRects_fillText (t : String) (x y : K) (st : Style K) (f ta tb : String)
    (a : K) (ps : List (Paint K)) :
    filledRects (Paint.fillText t x y st f ta tb a :: ps) = filledRects ps := rfl

@[simp] theorem filledRects_fill (path : List (PathOp K)) (st : Style K) (a : K)
    (ps : List (Paint K)) : filledRects (Paint.fill path st a :: ps) = filledRects ps := rfl

@[simp] theorem filledRects_stroke (path : List (PathOp K)) (st : Style K) (lw : K)
    (ld : List K) (a : K) (ps : List (Paint K)) :
    filledRects (Paint.stroke path st lw ld a :: ps) = filledRects ps := rfl

@[simp] theorem filledPaths_nil : filledPaths ([] : List (Paint K)) = [] := rfl

@[simp] theorem filledPaths_fillRect (x y w h : K) (st : Style K) (a : K) (ps : List (Paint K)) :
    filledPaths (Paint.fillRect x y w h st a :: ps) = filledPaths ps := rfl

@[simp] theorem filledPaths_strokeRect (x y w h : K) (st : Style K) (lw : K) (ld : List K)
    (a : K) (ps : List (Paint K)) :
    filledPaths (Paint.strokeRect x y w h st lw ld a :: ps) = filledPaths ps := rfl

@[simp] theorem filledPaths_fillText (t : String) (x y : K) (st : Style K) (f ta tb : String)
    (a : K) (ps : List (Paint K)) :
    filledPaths (Paint.fillText t x y st f ta tb a :: ps) = filledPaths ps := rfl

@[simp] theorem filledPaths_fill (path : List (PathOp K)) (st : Style K) (a : K)
    (ps : List (Paint K)) : filledPaths (Paint.fill path st a :: ps) = path :: filledPaths ps :=
  rfl

@[simp] theorem filledPaths_stroke (path : List (PathOp K)) (st : Style K) (lw : K)
    (ld : List K) (a : K) (ps : List (Paint K)) :
    filledPaths (Paint.stroke path st lw ld a :: ps) = filledPaths ps := rfl

@[simp] theorem filledArcs_nil : filledArcs ([] : List (Paint K)) = [] := rfl

@[simp] theorem filledArcs_fillRect (x y w h : K) (st : Style K) (a : K) (ps : List (Paint K)) :
    filledArcs (Paint.fillRect x y w h st a :: ps) = filledArcs ps := rfl

@[simp] theorem filledArcs_strokeRect (x y w h : K) (st : Style K) (lw : K) (ld : List K)
    (a : K) (ps : List (Paint K)) :
    filledArcs (Paint.strokeRect x y w h st lw ld a :: ps) = filledArcs ps := rfl

@[simp] theorem filledArcs_fillText (t : String) (x y : K) (st : Style K) (f ta tb : String)
    (a : K) (ps : List (Paint K)) :
    filledArcs (Paint.fillText t x y st f ta tb a :: ps) = filledArcs ps := rfl

@[simp] theorem filledArcs_fill (path : List (PathOp K)) (st : Style K) (a : K)
    (ps : List (Paint K)) :
    filledArcs (Paint.fill path st a :: ps) =
      path.filterMap (fun op => match op with
        | PathOp.arc _ _ _ a0 a1 => some (a0, a1)
        | _ => none) ++ filledArcs ps := rfl

@[simp] theorem filledArcs_stroke (path : List (PathOp K)) (st : Style K) (lw : K)
    (ld : List K) (a : K) (ps : List (Paint K)) :
    filledArcs (Paint.stroke path st lw ld a :: ps) = filledArcs ps := rfl

@[simp] theorem strokedPaths_nil : strokedPaths ([] : List (Paint K)) = [] := rfl

@[simp] theorem strokedPaths_fillRect (x y w h : K) (st : Style K) (a : K)
    (ps : List (Paint K)) :
    strokedPaths (Paint.fillRect x y w h st a :: ps) = strokedPaths ps := rfl

@[simp] theorem strokedPaths_strokeRect (x y w h : K) (st : Style K) (lw : K) (ld : List K)
    (a : K) (ps : List (Paint K)) :
    strokedPaths (Paint.strokeRect x y w h st lw ld a :: ps) = strokedPaths ps := rfl

@[simp] theorem strokedPaths_fillText (t : String) (x y : K) (st : Style K) (f ta tb : String)
    (a : K) (ps : List (Paint K)) :
    strokedPaths (Paint.fillText t x y st f ta tb a :: ps) = strokedPaths ps := rfl

@[simp] theorem strokedPaths_fill (path : List (PathOp K)) (st : Style K) (a : K)
    (ps : List (Paint K)) : strokedPaths (Paint.fill path st a :: ps) = strokedPaths ps := rfl

@[simp] theorem strokedPaths_stroke (path : List (PathOp K)) (st : Style K) (lw : K)
    (ld : List K) (a : K) (ps : List (Paint K)) :
    strokedPaths (Paint.stroke path st lw ld a :: ps) = path :: strokedPaths ps := rfl

theorem strokedPaths_append (l₁ l₂ : List (Paint K)) :
    strokedPaths (l₁ ++ l₂) = strokedPaths l₁ ++ strokedPaths l₂ := by
  induction l₁ with
  | nil => rfl
  | cons p ps ih => cases p <;> simp [ih]

/-- A loop whose body adds `g i` to a view `proj` of the canvas adds the `g i`
in iteration order. -/
theorem foldl_proj {β : Type} (proj : List (Paint K) → List β) (body : Ctx K → Nat → Ctx K)
    (g : Nat → β) (h : ∀ c i, proj (body c i).out = proj c.out ++ [g i]) :
    ∀ (l : List Nat) (c : Ctx K), proj (l.foldl body c).out = proj c.out ++ l.map g := by
  intro l
  induction l with
  | nil => intro c; simp
  | cons i rest ih =>
    intro c
    rw [List.foldl_cons, ih, h, List.map_cons, List.append_assoc, List.singleton_append]

/-- A loop whose body leaves a view `proj` of the canvas alone leaves it alone. -/
theorem foldl_proj_keep {β : Type} (proj : List (Paint K) → List β)
    (body : Ctx K → Nat → Ctx K) (h : ∀ c i, proj (body c i).out = proj c.out) :
    ∀ (l : List Nat) (c : Ctx K), proj (l.foldl body c).out = proj c.out := by
  intro l
  induction l with
  | nil => intro c; rfl
  | cons i rest ih =>
    intro c
    rw [List.foldl_cons, ih, h]

/-- A loop whose body appends the segment `op i` to the path builds the path
segment by segment and touches nothing else. -/
theorem foldl_path (body : Ctx K → Nat → Ctx K) (op : Nat → PathOp K)
    (h : ∀ c i, body c i = { c with path := c.path ++ [op i] }) :
    ∀ (l : List Nat) (c : Ctx K), l.foldl body c = { c with path := c.path ++ l.map op } := by
  intro l
  induction l with
  | nil => intro c; simp
  | cons i rest ih =>
    intro c
    rw [List.foldl_cons, ih, h]
    simp

@[simp] theorem texts_nil : texts ([] : List (Paint K)) = [] := rfl

@[simp] theorem texts_fillRect (x y w h : K) (st : Style K) (a : K) (ps : List (Paint K)) :
    texts (Paint.fillRect x y w h st a :: ps) = texts ps := rfl

@[simp] theorem texts_strokeRect (x y w h : K) (st : Style K) (lw : K) (ld : List K)
    (a : K) (ps : List (Paint K)) :
    texts (Paint.strokeRect x y w h st lw ld a :: ps) = texts ps := rfl

@[simp] theorem texts_fillText (t : String) (x y : K) (st : Style K) (f ta tb : String)
    (a : K) (ps : List (Paint K)) :
    texts (Paint.fillText t x y st f ta tb a :: ps) = (t, x, y) :: texts ps := rfl

@[simp] theorem texts_fill (path : List (PathOp K)) (st : Style K) (a : K)
    (ps : List (Paint K)) : texts (Paint.fill path st a :: ps) = texts ps := rfl

@[simp] theorem texts_stroke (path : List (PathOp K)) (st : Style K) (lw : K)
    (ld : List K) (a : K) (ps : List (Paint K)) :
    texts (Paint.stroke path st lw ld a :: ps) = texts ps := rfl

theorem emitted_of_out {f : Ctx K → Ctx K} {c : Ctx K} {ps : List (Paint K)}
    (h : (f c).out = c.out ++ ps) : emitted f c = ps := by
  simp [emitted, h]

end Projections

namespace Dashboard

section PieChart

variable {K : Type} [LinearOrderedField K] [FloorRing K]

omit [FloorRing K] in
theorem total_eq_sum (data : List (ChartDatum K)) :
    total data = (data.map (fun d => d.value)).sum := by
  unfold total
  have h : ∀ (l : List (ChartDatum K)) (a : K),
      l.foldl (fun sum item => sum + item.value) a = a + (l.map (fun d => d.value)).sum := by
    intro l
    induction l with
    | nil => intro a; simp
    | cons d ds ih => intro a; simp [ih, add_assoc]
  simpa using h data 0

/-- The pie loop appends the marks of its slices and nothing else. -/
theorem drawPieChart_loop_out (M : JsMath K) (cx cy r tot tot64 : K) (ds : List (ChartDatum K)) :
    ∀ (a : K) (c : Ctx K),
      (drawPieChart.loop M cx cy r tot tot64 ds a c).out =
        c.out ++ piePaints M cx cy r tot tot64 c.globalAlpha c.lineDash c.textBaseline a ds := by
  induction ds with
  | nil => intro a c; simp [drawPieChart.loop, piePaints]
  | cons d rest ih =>
    intro a c
    rw [drawPieChart.loop, ih]
    simp [piePaints, slicePaints, setFillStyle, setStrokeStyle, setFont, setTextAlign,
      setLineWidth, beginPath, moveTo, arc, closePath, fill, stroke, fillText]

theorem drawPieChart_emitted (M : JsMath K) (data : List (ChartDatum K)) (c : Ctx K) :
    emitted (drawPieChart M data) c =
      piePaints M (800 / 2) 250 150 (total data) (total64 data) c.globalAlpha c.lineDash
          c.textBaseline
        0 data :=
  emitted_of_out (drawPieChart_loop_out M _ _ _ _ _ data 0 c)

omit [FloorRing K] in
theorem sliceAngle_sum (M : JsMath K) (tot : K) (ds : List (ChartDatum K)) :
    (ds.map (sliceAngle M tot)).sum = (ds.map (fun d => d.value)).sum / tot * M.pi * 2 := by
  induction ds with
  | nil => simp
  | cons d rest ih => simp [ih, sliceAngle]; ring

theorem filledArcs_piePaints (M : JsMath K) (cx cy r tot tot64 alpha : K) (dash : List K)
    (baseline : String) (ds : List (ChartDatum K)) :
    ∀ a : K, (filledArcs (piePaints M cx cy r tot tot64 alpha dash baseline a ds)).map
      (fun p => p.2 - p.1) = ds.map (sliceAngle M tot) := by
  induction ds with
  | nil => intro a; simp [piePaints, filledArcs]
  | cons d rest ih =>
    intro a
    simp [piePaints, slicePaints, filledArcs, filledArcs_append, ih]

/-- C1. Whatever the non-zero total of the dataset is, the angular extents of
the slices that the dashboard `drawPieChart` draws are the
`sliceAngle_i = value_i / total * Math.PI * 2`, and they add up to exactly
`2 * Math.PI`. -/
theorem drawPieChart_angles_sum (M : JsMath K) (data : List (ChartDatum K)) (c : Ctx K)
    (h : total data ≠ 0) :
    (filledArcs (emitted (drawPieChart M data) c)).map (fun p => p.2 - p.1) =
        data.map (sliceAngle M (total data)) ∧
      ((filledArcs (emitted (drawPieChart M data) c)).map (fun p => p.2 - p.1)).sum =
        2 * M.pi := by
  have harcs := filledArcs_piePaints M (800 / 2) 250 150 (total data) (total64 data) c.globalAlpha
    c.lineDash c.textBaseline data 0
  rw [drawPieChart_emitted, harcs]
  refine ⟨rfl, ?_⟩
  rw [sliceAngle_sum, ← total_eq_sum, div_self h]
  ring

/-- C1 at the dataset `[74.9, 10.2, 10.1, 4.9]` over the reals: the total is
100.1 and the four slice angles sum to `2π`. -/
theorem drawPieChart_angles_sum_witness :
    total (appointmentStatusData : List (ChartDatum ℝ)) = 100.1 ∧
      ((filledArcs (emitted (drawPieChart
          ⟨Real.pi, Real.cos, Real.sin, fun y x => Complex.arg ⟨x, y⟩⟩
          appointmentStatusData) freshCtx)).map (fun p => p.2 - p.1)).sum = 2 * Real.pi := by
  have ht : total (appointmentStatusData : List (ChartDatum ℝ)) = 100.1 := by
    norm_num [total, appointmentStatusData]
  exact ⟨ht, (drawPieChart_angles_sum _ _ freshCtx (by rw [ht]; norm_num)).2⟩

end PieChart

section BarChart

variable {K : Type} [LinearOrderedField K] [FloorRing K]

/-- The bar loop appends the marks of its bars and nothing else. -/
theorem drawBarChart_bars_out (sx m : K) (ds : List (ChartDatum K)) :
    ∀ (i : Nat) (c : Ctx K),
      (drawBarChart.bars sx m i ds c).out =
        c.out ++ barsPaints sx m c.globalAlpha c.lineDash c.textBaseline i ds := by
  induction ds with
  | nil => intro i c; simp [drawBarChart.bars, barsPaints]
  | cons d rest ih =>
    intro i c
    rw [drawBarChart.bars, ih]
    simp [barsPaints, barPaints, setFillStyle, setStrokeStyle, setFont, setTextAlign,
      setLineWidth, fillRect, strokeRect, fillText]

theorem drawBarChart_out (data : List (ChartDatum K)) (c : Ctx K) :
    (drawBarChart data c).out = c.out ++
      axesPaint (startX data) c.globalAlpha c.lineDash ::
        ((List.range 6).flatMap
            (gridPaints (startX data) (maxValue (doubles data)) c.globalAlpha c.lineDash
                c.textBaseline) ++
          barsPaints (startX data) ((maxValue data).getD 0) c.globalAlpha c.lineDash
            c.textBaseline 0 data) := by
  rw [drawBarChart, drawBarChart_bars_out]
  simp [List.range, List.range.loop, drawBarChart.gridLine, gridPaints, axesPaint,
    setFillStyle, setStrokeStyle, setFont, setTextAlign,
    setLineWidth, beginPath, moveTo, lineTo, stroke, fillText]

/-- Everything `drawBarChart` paints: the axes, six labelled grid lines, the bars. -/
theorem drawBarChart_emitted (data : List (ChartDatum K)) (c : Ctx K) :
    emitted (drawBarChart data) c =
      axesPaint (startX data) c.globalAlpha c.lineDash ::
        ((List.range 6).flatMap
            (gridPaints (startX data) (maxValue (doubles data)) c.globalAlpha c.lineDash
                c.textBaseline) ++
          barsPaints (startX data) ((maxValue data).getD 0) c.globalAlpha c.lineDash
            c.textBaseline 0 data) :=
  emitted_of_out (drawBarChart_out data c)

omit [FloorRing K] in
theorem foldl_max_some (ds : List (ChartDatum K)) :
    ∀ a : K, ds.foldl (fun m item => match m with
        | none => some item.value
        | some a => some (max a item.value)) (some a) =
      some (ds.foldl (fun a item => max a item.value) a) := by
  induction ds with
  | nil => intro a; rfl
  | cons d rest ih => intro a; simp [ih]

omit [FloorRing K] in
theorem foldl_max_bounds (ds : List (ChartDatum K)) :
    ∀ a : K, a ≤ ds.foldl (fun a item => max a item.value) a ∧
      (∀ d ∈ ds, d.value ≤ ds.foldl (fun a item => max a item.value) a) ∧
      (ds.foldl (fun a item => max a item.value) a = a ∨
        ∃ d ∈ ds, d.value = ds.foldl (fun a item => max a item.value) a) := by
  induction ds with
  | nil => intro a; simp
  | cons d rest ih =>
    intro a
    obtain ⟨h1, h2, h3⟩ := ih (max a d.value)
    refine ⟨le_trans (le_max_left _ _) h1, ?_, ?_⟩
    · intro e he
      rcases List.mem_cons.1 he with rfl | he
      · exact le_trans (le_max_right _ _) h1
      · exact h2 e he
    · rcases h3 with h3 | ⟨e, he, hv⟩
      · rcases max_cases a d.value with ⟨hm, _⟩ | ⟨hm, _⟩
        · left; simp only [List.foldl_cons]; rw [h3, hm]
        · right; exact ⟨d, List.mem_cons_self _ _, by simp only [List.foldl_cons]; rw [h3, hm]⟩
      · right; exact ⟨e, List.mem_cons_of_mem _ he, hv⟩

omit [FloorRing K] in
/-- `Math.max` of the values is an upper bound of the values, and one of them. -/
theorem maxValue_spec (data : List (ChartDatum K)) (m : K) (h : maxValue data = some m) :
    (∀ d ∈ data, d.value ≤ m) ∧ ∃ d ∈ data, d.value = m := by
  cases data with
  | nil => simp [maxValue] at h
  | cons d rest =>
    simp only [maxValue, List.foldl_cons] at h
    rw [foldl_max_some] at h
    obtain rfl := Option.some.inj h
    obtain ⟨h1, h2, h3⟩ := foldl_max_bounds rest d.value
    refine ⟨?_, ?_⟩
    · intro e he
      rcases List.mem_cons.1 he with rfl | he
      · exact h1
      · exact h2 e he
    · rcases h3 with h3 | ⟨e, he, hv⟩
      · exact ⟨d, List.mem_cons_self _ _, h3.symm⟩
      · exact ⟨e, List.mem_cons_of_mem _ he, hv⟩

theorem filledRects_barsPaints (sx m alpha : K) (dash : List K) (baseline : String)
    (ds : List (ChartDatum K)) :
    ∀ i : Nat, filledRects (barsPaints sx m alpha dash baseline i ds) =
      ds.mapIdx (fun j d => (sx + ((i + j : Nat) : K) * (80 + 30), 400 - barHeight m d,
        (80 : K), barHeight m d, Style.color d.color)) := by
  induction ds with
  | nil => intro i; simp [barsPaints, filledRects]
  | cons d rest ih =>
    intro i
    simp only [barsPaints, barPaints, List.cons_append, List.nil_append, filledRects_fillRect,
      filledRects_strokeRect, filledRects_fillText, ih, List.mapIdx_cons, Nat.add_zero]
    congr 2
    funext j e
    rw [Nat.add_right_comm, Nat.add_assoc]

theorem filledRects_gridPaints (sx : K) (mv : Option K) (alpha : K) (dash : List K)
    (baseline : String) (l : List Nat) :
    filledRects (l.flatMap (gridPaints sx mv alpha dash baseline)) = [] := by
  induction l with
  | nil => rfl
  | cons i rest ih =>
    rw [List.flatMap_cons, filledRects_append, ih]
    simp [gridPaints]

/-- The rectangles `drawBarChart` fills are the bars, one per entry in array order. -/
theorem filledRects_drawBarChart (data : List (ChartDatum K)) (c : Ctx K) :
    filledRects (emitted (drawBarChart data) c) =
      data.mapIdx (fun i d => (startX data + (i : K) * (80 + 30),
        400 - barHeight ((maxValue data).getD 0) d, (80 : K),
        barHeight ((maxValue data).getD 0) d, Style.color d.color)) := by
  rw [drawBarChart_emitted]
  simp only [axesPaint, filledRects_stroke, filledRects_append, filledRects_gridPaints,
    filledRects_barsPaints, List.nil_append, Nat.zero_add]

/-- C2. For a dataset whose maximum `maxValue` is positive, the rectangles that
the dashboard `drawBarChart` fills are the bars in array order, bar `i` of
height `300 * value_i / maxValue` standing on `y = 400`; `maxValue` is the
largest value and is attained; a bar whose value is the maximum is exactly 300
high with its top at `y = 100`; a bar of non-negative value has its height in
`[0, 300]`. -/
theorem drawBarChart_bar_heights (data : List (ChartDatum K)) (c : Ctx K) (m : K)
    (hmax : maxValue data = some m) (hpos : 0 < m) :
    filledRects (emitted (drawBarChart data) c) =
        data.mapIdx (fun i d => (startX data + (i : K) * (80 + 30),
          400 - 300 * d.value / m, (80 : K), 300 * d.value / m, Style.color d.color)) ∧
      (∀ d ∈ data, d.value ≤ m) ∧ (∃ d ∈ data, d.value = m) ∧
      (∀ d ∈ data, d.value = m →
        300 * d.value / m = 300 ∧ 400 - 300 * d.value / m = 100) ∧
      (∀ d ∈ data, 0 ≤ d.value → 0 ≤ 300 * d.value / m ∧ 300 * d.value / m ≤ 300) := by
  obtain ⟨hle, hex⟩ := maxValue_spec data m hmax
  have hne : m ≠ 0 := ne_of_gt hpos
  refine ⟨?_, hle, hex, ?_, ?_⟩
  · rw [filledRects_drawBarChart, hmax]
    have hb : ∀ d : ChartDatum K, barHeight m d = 300 * d.value / m := by
      intro d; unfold barHeight; ring
    simp only [Option.getD_some, hb]
  · intro d _ hd
    rw [hd, mul_div_assoc, div_self hne]
    norm_num
  · intro d hd h0
    refine ⟨div_nonneg (mul_nonneg (by norm_num) h0) hpos.le, ?_⟩
    rw [div_le_iff₀ hpos]
    exact mul_le_mul_of_nonneg_left (hle d hd) (by norm_num)

/-- C2 at the wait-time dataset `[14.17, 14.04, 13.91, 13.60]`: the maximum is
14.17, the first bar is 300 high and the others are lower, in proportion. -/
theorem drawBarChart_bar_heights_witness :
    maxValue (waitTimeData : List (ChartDatum ℚ)) = some 14.17 ∧
      (filledRects (emitted (drawBarChart (waitTimeData : List (ChartDatum ℚ)))
          freshCtx)).map (fun r => (r.2.1, r.2.2.2.1)) =
        [(100, 300), (400 - 421200 / 1417, 421200 / 1417),
         (400 - 417300 / 1417, 417300 / 1417), (400 - 408000 / 1417, 408000 / 1417)] := by
  have hm : maxValue (waitTimeData : List (ChartDatum ℚ)) = some 14.17 := by
    norm_num [maxValue, waitTimeData]
  refine ⟨hm, ?_⟩
  rw [(drawBarChart_bar_heights waitTimeData freshCtx 14.17 hm (by norm_num)).1]
  norm_num [waitTimeData, List.mapIdx_cons]

end BarChart

section Legend

variable {K : Type} [LinearOrderedField K]

/-- The legend loop appends the marks of its entries and nothing else. -/
theorem drawLegend_loop_out (ds : List (ChartDatum K)) :
    ∀ (i : Nat) (c : Ctx K),
      (drawLegend.loop i ds c).out =
        c.out ++ (ds.mapIdx (fun j d =>
          legendEntryPaints c.globalAlpha c.lineDash c.textBaseline (i + j) d)).flatten := by
  induction ds with
  | nil => intro i c; simp [drawLegend.loop]
  | cons d rest ih =>
    intro i c
    rw [drawLegend.loop, ih, List.mapIdx_cons]
    have hidx : (fun j (e : ChartDatum K) =>
        legendEntryPaints c.globalAlpha c.lineDash c.textBaseline (i + 1 + j) e) =
        (fun j (e : ChartDatum K) =>
          legendEntryPaints c.globalAlpha c.lineDash c.textBaseline (i + (j + 1)) e) := by
      funext j e
      rw [Nat.add_right_comm, Nat.add_assoc]
    simp only [setFillStyle, setStrokeStyle, setFont, setTextAlign, setLineWidth, fillRect,
      strokeRect, fillText, List.append_assoc, List.flatten_cons, hidx]
    congr 1
    simp only [legendEntryPaints, Nat.add_zero, List.cons_append, List.nil_append,
      List.singleton_append, List.cons.injEq, true_and]
    refine ⟨?_, ?_, ?_, trivial⟩
    all_goals first | rfl | (congr 1 <;> first | rfl | ring)

theorem drawLegend_out (data : List (ChartDatum K)) (c : Ctx K) :
    (drawLegend data c).out = c.out ++
      Paint.fillRect 580 100 200 (30 * (data.length : K) + 30) (.color "#f8f9fa")
          c.globalAlpha ::
        Paint.strokeRect 580 100 200 (30 * (data.length : K) + 30) (.color "#dddddd") 1
          c.lineDash c.globalAlpha ::
        (data.mapIdx (fun i d =>
          legendEntryPaints c.globalAlpha c.lineDash c.textBaseline i d)).flatten := by
  rw [drawLegend, drawLegend_loop_out]
  simp only [setFillStyle, setStrokeStyle, setLineWidth, fillRect, strokeRect,
    List.append_assoc, List.cons_append, List.nil_append, Nat.zero_add]
  congr 2
  · congr 1
    · norm_num
    · norm_num
    · ring
  · congr 1
    congr 1
    · norm_num
    · norm_num
    · ring

theorem drawLegend_emitted (data : List (ChartDatum K)) (c : Ctx K) :
    emitted (drawLegend data) c =
      Paint.fillRect 580 100 200 (30 * (data.length : K) + 30) (.color "#f8f9fa")
          c.globalAlpha ::
        Paint.strokeRect 580 100 200 (30 * (data.length : K) + 30) (.color "#dddddd") 1
          c.lineDash c.globalAlpha ::
        (data.mapIdx (fun i d =>
          legendEntryPaints c.globalAlpha c.lineDash c.textBaseline i d)).flatten :=
  emitted_of_out (drawLegend_out data c)

theorem projections_legendEntries (alpha : K) (dash : List K) (baseline : String)
    (ds : List (ChartDatum K)) :
    ∀ f : Nat → Nat,
      filledRects (ds.mapIdx (fun i d => legendEntryPaints alpha dash baseline (f i) d)).flatten =
          ds.mapIdx (fun i d => ((600 : K), 120 + 30 * ((f i : Nat) : K), (20 : K), (20 : K),
            Style.color d.color)) ∧
        texts (ds.mapIdx (fun i d => legendEntryPaints alpha dash baseline (f i) d)).flatten =
          ds.mapIdx (fun i d => (d.label, (630 : K), 135 + 30 * ((f i : Nat) : K))) := by
  induction ds with
  | nil => intro f; simp
  | cons d rest ih =>
    intro f
    obtain ⟨h1, h2⟩ := ih (fun i => f (i + 1))
    simp only [List.mapIdx_cons, List.flatten_cons, filledRects_append, texts_append, h1, h2]
    simp [legendEntryPaints]

/-- C5. For a dataset of N entries `drawLegend` paints the legend box and then,
entry by entry in array order, a 20 x 20 colour box filled with
`data[i].color` at `(600, 120 + 30 i)`, its border, and the text `data[i].label`
at `(630, 135 + 30 i)`: exactly N colour boxes and exactly N labels, the i-th
box paired with the i-th label. -/
theorem drawLegend_entries (data : List (ChartDatum K)) (c : Ctx K) :
    emitted (drawLegend data) c =
        Paint.fillRect 580 100 200 (30 * (data.length : K) + 30) (.color "#f8f9fa")
            c.globalAlpha ::
          Paint.strokeRect 580 100 200 (30 * (data.length : K) + 30) (.color "#dddddd") 1
            c.lineDash c.globalAlpha ::
          (data.mapIdx (fun i d =>
            [Paint.fillRect 600 (120 + 30 * (i : K)) 20 20 (.color d.color) c.globalAlpha,
             Paint.strokeRect 600 (120 + 30 * (i : K)) 20 20 (.color "#333333") 1
               c.lineDash c.globalAlpha,
             Paint.fillText d.label 630 (135 + 30 * (i : K)) (.color "#333333") "14px Arial"
               "left" c.textBaseline c.globalAlpha])).flatten ∧
      (filledRects (emitted (drawLegend data) c)).tail =
        data.mapIdx (fun i d => ((600 : K), 120 + 30 * (i : K), (20 : K), (20 : K),
          Style.color d.color)) ∧
      texts (emitted (drawLegend data) c) =
        data.mapIdx (fun i d => (d.label, (630 : K), 135 + 30 * (i : K))) ∧
      (filledRects (emitted (drawLegend data) c)).tail.length = data.length ∧
      (texts (emitted (drawLegend data) c)).length = data.length := by
  obtain ⟨h1, h2⟩ := projections_legendEntries c.globalAlpha c.lineDash c.textBaseline data id
  have hr : (filledRects (emitted (drawLegend data) c)).tail =
      data.mapIdx (fun i d => ((600 : K), 120 + 30 * (i : K), (20 : K), (20 : K),
        Style.color d.color)) := by
    rw [drawLegend_emitted]
    simpa using h1
  have ht : texts (emitted (drawLegend data) c) =
      data.mapIdx (fun i d => (d.label, (630 : K), 135 + 30 * (i : K))) := by
    rw [drawLegend_emitted]
    simpa using h2
  refine ⟨?_, hr, ht, ?_, ?_⟩
  · rw [drawLegend_emitted]
    rfl
  · rw [hr, List.length_mapIdx]
  · rw [ht, List.length_mapIdx]

end Legend

end Dashboard

/-! ### Arrowheads -/

section Arrowheads

theorem mirror_wing (x1 y1 L c s C S : ℝ) (hL : L ≠ 0) (hcs : c ^ 2 + s ^ 2 = 1) :
    mirror (x1, y1) (x1 + L * c, y1 + L * s)
        (x1 + L * c - 10 * (c * C + s * S), y1 + L * s - 10 * (s * C - c * S)) =
      (x1 + L * c - 10 * (c * C - s * S), y1 + L * s - 10 * (s * C + c * S)) := by
  have hd : dot (x1 + L * c - x1, y1 + L * s - y1) (x1 + L * c - x1, y1 + L * s - y1) = L ^ 2 := by
    simp only [dot]
    linear_combination L ^ 2 * hcs
  have ht : dot (x1 + L * c - 10 * (c * C + s * S) - x1, y1 + L * s - 10 * (s * C - c * S) - y1)
      (x1 + L * c - x1, y1 + L * s - y1) / L ^ 2 = 1 - 10 * C / L := by
    rw [div_eq_iff (pow_ne_zero 2 hL)]
    simp only [dot]
    field_simp
    linear_combination (L ^ 2 * (L - 10 * C)) * hcs
  simp only [mirror, hd, ht]
  ext
  · simp only
    field_simp
    ring
  · simp only
    field_simp
    ring

/-- The wing `tip - 10 (cos (θ ± π/6), sin (θ ± π/6))` of an arrowhead, `θ`
being the direction of the shaft: its distance from the tip, its angle with
the shaft, and its mirror image. -/
theorem wing_geometry (x1 y1 x2 y2 : ℝ) (h : (x1, y1) ≠ (x2, y2)) :
    let θ := Complex.arg ⟨x2 - x1, y2 - y1⟩
    let w1 : ℝ × ℝ := (x2 - 10 * Real.cos (θ - Real.pi / 6), y2 - 10 * Real.sin (θ - Real.pi / 6))
    let w2 : ℝ × ℝ := (x2 - 10 * Real.cos (θ + Real.pi / 6), y2 - 10 * Real.sin (θ + Real.pi / 6))
    Real.sqrt (sqDist w1 (x2, y2)) = 10 ∧ Real.sqrt (sqDist w2 (x2, y2)) = 10 ∧
    Real.arccos (dot (w1.1 - x2, w1.2 - y2) (x1 - x2, y1 - y2) /
      (Real.sqrt (sqDist w1 (x2, y2)) * Real.sqrt (sqDist (x1, y1) (x2, y2)))) = Real.pi / 6 ∧
    Real.arccos (dot (w2.1 - x2, w2.2 - y2) (x1 - x2, y1 - y2) /
      (Real.sqrt (sqDist w2 (x2, y2)) * Real.sqrt (sqDist (x1, y1) (x2, y2)))) = Real.pi / 6 ∧
    mirror (x1, y1) (x2, y2) w1 = w2 := by
  intro θ w1 w2
  set z : ℂ := ⟨x2 - x1, y2 - y1⟩ with hz
  have hz0 : z ≠ 0 := by
    intro h0
    apply h
    have hre := congrArg Complex.re h0
    have him := congrArg Complex.im h0
    simp [hz] at hre him
    ext <;> simp <;> linarith
  have hL : 0 < Complex.abs z := Complex.abs.pos hz0
  set L := Complex.abs z with hLdef
  have hc : Real.cos θ = (x2 - x1) / L := by
    have := Complex.cos_arg hz0
    simpa [hz] using this
  have hs : Real.sin θ = (y2 - y1) / L := by
    have := Complex.sin_arg z
    simpa [hz] using this
  have hdx : x2 - x1 = L * Real.cos θ := by rw [hc]; field_simp
  have hdy : y2 - y1 = L * Real.sin θ := by rw [hs]; field_simp
  have hcs : Real.cos θ ^ 2 + Real.sin θ ^ 2 = 1 := Real.cos_sq_add_sin_sq θ
  have hCS : Real.cos (Real.pi / 6) ^ 2 + Real.sin (Real.pi / 6) ^ 2 = 1 :=
    Real.cos_sq_add_sin_sq _
  have e1 : x1 - x2 = -(L * Real.cos θ) := by linarith
  have e2 : y1 - y2 = -(L * Real.sin θ) := by linarith
  have hd1 : sqDist w1 (x2, y2) = 10 ^ 2 := by
    simp only [sqDist, w1]
    have := Real.cos_sq_add_sin_sq (θ - Real.pi / 6)
    linear_combination 100 * this
  have hd2 : sqDist w2 (x2, y2) = 10 ^ 2 := by
    simp only [sqDist, w2]
    have := Real.cos_sq_add_sin_sq (θ + Real.pi / 6)
    linear_combination 100 * this
  have hs1 : Real.sqrt (sqDist w1 (x2, y2)) = 10 := by
    rw [hd1]; exact Real.sqrt_sq (by norm_num)
  have hs2 : Real.sqrt (sqDist w2 (x2, y2)) = 10 := by
    rw [hd2]; exact Real.sqrt_sq (by norm_num)
  have hsL : Real.sqrt (sqDist (x1, y1) (x2, y2)) = L := by
    have : sqDist (x1, y1) (x2, y2) = L ^ 2 := by
      simp only [sqDist]
      rw [e1, e2]
      linear_combination L ^ 2 * hcs
    rw [this]; exact Real.sqrt_sq hL.le
  have hpi : Real.arccos (Real.cos (Real.pi / 6)) = Real.pi / 6 :=
    Real.arccos_cos (by positivity) (by linarith [Real.pi_pos])
  refine ⟨hs1, hs2, ?_, ?_, ?_⟩
  · rw [hs1, hsL]
    have : dot (w1.1 - x2, w1.2 - y2) (x1 - x2, y1 - y2) / (10 * L) = Real.cos (Real.pi / 6) := by
      simp only [dot, w1]
      rw [e1, e2, div_eq_iff (by positivity), Real.cos_sub, Real.sin_sub]
      linear_combination (10 * L * Real.cos (Real.pi / 6)) * hcs
    rw [this, hpi]
  · rw [hs2, hsL]
    have : dot (w2.1 - x2, w2.2 - y2) (x1 - x2, y1 - y2) / (10 * L) = Real.cos (Real.pi / 6) := by
      simp only [dot, w2]
      rw [e1, e2, div_eq_iff (by positivity), Real.cos_add, Real.sin_add]
      linear_combination (10 * L * Real.cos (Real.pi / 6)) * hcs
    rw [this, hpi]
  · have hx2 : x2 = x1 + L * Real.cos θ := by linarith
    have hy2 : y2 = y1 + L * Real.sin θ := by linarith
    have := mirror_wing x1 y1 L (Real.cos θ) (Real.sin θ) (Real.cos (Real.pi / 6))
      (Real.sin (Real.pi / 6)) hL.ne' hcs
    simp only [w1, w2]
    rw [Real.cos_sub, Real.sin_sub, Real.cos_add, Real.sin_add, hx2, hy2]
    exact this

theorem drawArrow_emitted (M : JsMath ℝ) (x1 y1 x2 y2 : ℝ) (c : Ctx ℝ) :
    emitted (AwsDiagram.drawArrow M x1 y1 x2 y2) c =
      [Paint.stroke [PathOp.moveTo x1 y1, PathOp.lineTo x2 y2] (.color "#555555") 1.5
          c.lineDash c.globalAlpha,
       Paint.fill [PathOp.moveTo x2 y2,
          PathOp.lineTo (x2 - 10 * M.cos (M.atan2 (y2 - y1) (x2 - x1) - M.pi / 6))
            (y2 - 10 * M.sin (M.atan2 (y2 - y1) (x2 - x1) - M.pi / 6)),
          PathOp.lineTo (x2 - 10 * M.cos (M.atan2 (y2 - y1) (x2 - x1) + M.pi / 6))
            (y2 - 10 * M.sin (M.atan2 (y2 - y1) (x2 - x1) + M.pi / 6)),
          PathOp.closePath] (.color "#555555") c.globalAlpha] := by
  apply emitted_of_out
  simp [AwsDiagram.drawArrow, setFillStyle, setStrokeStyle, setLineWidth, beginPath, moveTo,
    lineTo, closePath, stroke, fill]

theorem drawArchitectureArrow_emitted (M : JsMath ℝ) (x1 y1 x2 y2 : ℝ) (c : Ctx ℝ) :
    emitted (Placeholder.drawArchitectureArrow M x1 y1 x2 y2) c =
      [Paint.stroke [PathOp.moveTo x1 y1, PathOp.lineTo x2 y2] (.color "white") 1.5
          c.lineDash c.globalAlpha,
       Paint.fill [PathOp.moveTo x2 y2,
          PathOp.lineTo (x2 - 10 * M.cos (M.atan2 (y2 - y1) (x2 - x1) - M.pi / 6))
            (y2 - 10 * M.sin (M.atan2 (y2 - y1) (x2 - x1) - M.pi / 6)),
          PathOp.lineTo (x2 - 10 * M.cos (M.atan2 (y2 - y1) (x2 - x1) + M.pi / 6))
            (y2 - 10 * M.sin (M.atan2 (y2 - y1) (x2 - x1) + M.pi / 6)),
          PathOp.closePath] (.color "white") c.globalAlpha] := by
  apply emitted_of_out
  simp [Placeholder.drawArchitectureArrow, setFillStyle, setStrokeStyle, setLineWidth,
    beginPath, moveTo, lineTo, closePath, stroke, fill]

/-- C3. For an arrow with distinct endpoints, `drawArrow` and
`drawArchitectureArrow` fill the same triangle tip, `w1`, `w2`; each wing is at
Euclidean distance exactly 10 from the tip, the angle at the tip between each
wing and the shaft is `π / 6`, and `w2` is the mirror image of `w1` in the line
through the two endpoints. -/
theorem arrowhead_wings (M : JsMath ℝ) (hM : M.Exact) (x1 y1 x2 y2 : ℝ)
    (h : (x1, y1) ≠ (x2, y2)) (c : Ctx ℝ) :
    ∃ w1 w2 : ℝ × ℝ,
      filledPaths (emitted (AwsDiagram.drawArrow M x1 y1 x2 y2) c) =
          [[PathOp.moveTo x2 y2, PathOp.lineTo w1.1 w1.2, PathOp.lineTo w2.1 w2.2,
            PathOp.closePath]] ∧
        filledPaths (emitted (Placeholder.drawArchitectureArrow M x1 y1 x2 y2) c) =
          [[PathOp.moveTo x2 y2, PathOp.lineTo w1.1 w1.2, PathOp.lineTo w2.1 w2.2,
            PathOp.closePath]] ∧
        Real.sqrt (sqDist w1 (x2, y2)) = 10 ∧ Real.sqrt (sqDist w2 (x2, y2)) = 10 ∧
        Real.arccos (dot (w1.1 - x2, w1.2 - y2) (x1 - x2, y1 - y2) /
          (Real.sqrt (sqDist w1 (x2, y2)) * Real.sqrt (sqDist (x1, y1) (x2, y2)))) =
            Real.pi / 6 ∧
        Real.arccos (dot (w2.1 - x2, w2.2 - y2) (x1 - x2, y1 - y2) /
          (Real.sqrt (sqDist w2 (x2, y2)) * Real.sqrt (sqDist (x1, y1) (x2, y2)))) =
            Real.pi / 6 ∧
        mirror (x1, y1) (x2, y2) w1 = w2 := by
  obtain ⟨hpi, hcos, hsin, hatan⟩ := hM
  refine ⟨_, _, ?_, ?_, wing_geometry x1 y1 x2 y2 h⟩
  · rw [drawArrow_emitted, hpi, hcos, hsin, hatan]
    rfl
  · rw [drawArchitectureArrow_emitted, hpi, hcos, hsin, hatan]
    rfl

/-- C3 at `drawArrow(0, 0, 100, 0)`: the wings are `(100 - 5√3, 5)` and
`(100 - 5√3, -5)`. -/
theorem arrowhead_wings_witness :
    ((0 : ℝ), (0 : ℝ)) ≠ (100, 0) ∧
      filledPaths (emitted (AwsDiagram.drawArrow
          ⟨Real.pi, Real.cos, Real.sin, fun y x => Complex.arg ⟨x, y⟩⟩ 0 0 100 0)
          freshCtx) =
        [[PathOp.moveTo 100 0, PathOp.lineTo (100 - 5 * Real.sqrt 3) 5,
          PathOp.lineTo (100 - 5 * Real.sqrt 3) (-5), PathOp.closePath]] ∧
      Real.sqrt (sqDist ((100 : ℝ) - 5 * Real.sqrt 3, (5 : ℝ)) (100, 0)) = 10 ∧
      mirror ((0 : ℝ), (0 : ℝ)) (100, 0) (100 - 5 * Real.sqrt 3, 5) =
        (100 - 5 * Real.sqrt 3, -5) := by
  have hne : ((0 : ℝ), (0 : ℝ)) ≠ (100, 0) := fun h0 => by
    have := congrArg Prod.fst h0
    norm_num at this
  obtain ⟨w1, w2, hp, -, hd1, -, -, -, hm⟩ :=
    arrowhead_wings ⟨Real.pi, Real.cos, Real.sin, fun y x => Complex.arg ⟨x, y⟩⟩
      ⟨rfl, rfl, rfl, rfl⟩ 0 0 100 0 hne freshCtx
  have harg : Complex.arg ⟨100, 0⟩ = 0 := by
    have : (⟨100, 0⟩ : ℂ) = ((100 : ℝ) : ℂ) := by
      apply Complex.ext <;> simp
    rw [this, Complex.arg_ofReal_of_nonneg (by norm_num)]
  have hpath : filledPaths (emitted (AwsDiagram.drawArrow
      ⟨Real.pi, Real.cos, Real.sin, fun y x => Complex.arg ⟨x, y⟩⟩ 0 0 100 0) freshCtx) =
      [[PathOp.moveTo 100 0, PathOp.lineTo (100 - 5 * Real.sqrt 3) 5,
        PathOp.lineTo (100 - 5 * Real.sqrt 3) (-5), PathOp.closePath]] := by
    rw [drawArrow_emitted]
    simp only [filledPaths_stroke, filledPaths_fill, filledPaths_nil, sub_zero, harg, zero_sub,
      zero_add, Real.cos_neg, Real.sin_neg, Real.cos_pi_div_six, Real.sin_pi_div_six]
    norm_num
    ring
  rw [hpath] at hp
  simp only [List.cons.injEq, PathOp.lineTo.injEq, and_true, true_and, PathOp.moveTo.injEq] at hp
  obtain ⟨⟨h11, h12⟩, h21, h22⟩ := hp
  have e1 : w1 = (100 - 5 * Real.sqrt 3, 5) := Prod.ext h11.symm h12.symm
  have e2 : w2 = (100 - 5 * Real.sqrt 3, -5) := Prod.ext h21.symm h22.symm
  rw [e1] at hd1 hm
  rw [e2] at hm
  exact ⟨hne, hpath, hd1, hm⟩

end Arrowheads

/-! ### Substitution of image sources -/

section Substitution

theorem dataUrl_ne_assets (u f : String) (h : isPngDataUrl u = true) : u ≠ "assets/" ++ f := by
  intro he
  simp only [isPngDataUrl, Bool.and_eq_true, decide_eq_true_eq] at h
  obtain ⟨⟨t, ht⟩, -⟩ := h
  rw [he] at ht
  simp [String.data_append] at ht

variable {K : Type}

/-- What `saveCanvasAsImage` does to the image at a position of the old document. -/
theorem saveCanvasAsImage_getElem? (toDataURL : List (Paint K) → String) (filename : String)
    (c : Ctx K) (doc : List Img) (i : Nat) (im : Img) (h : doc[i]? = some im) :
    (Dashboard.saveCanvasAsImage toDataURL filename c doc)[i]? =
      some (if im.src = "assets/" ++ filename then { im with src := toDataURL c.out }
        else im) := by
  have hi : i < doc.length := (List.getElem?_eq_some_iff.1 h).1
  simp only [Dashboard.saveCanvasAsImage, List.getElem?_map, List.getElem?_append_left hi, h,
    Option.map_some']

/-- What `createDashboardImage` does to the image at a position of the old document. -/
theorem createDashboardImage_getElem? [LinearOrderedField K] [FloorRing K] (M : JsMath K)
    (toDataURL : List (Paint K) → String) (filename title : String)
    (data : List (ChartDatum K)) (chartType : String) (p : Ctx K × List Img) (i : Nat)
    (im : Img) (h : p.2[i]? = some im) :
    (Dashboard.createDashboardImage M toDataURL filename title data chartType p).2[i]? =
      some (if im.src = "assets/" ++ filename then
        { im with
          src := (toDataURL (Dashboard.createDashboardImage.draw M title data chartType p.1).out) }
        else im) := by
  simp only [Dashboard.createDashboardImage]
  exact saveCanvasAsImage_getElem? _ _ _ _ _ _ h

/-- An image that already carries a data URL is not selected by
`createDashboardImage`. -/
theorem createDashboardImage_keeps_dataUrl [LinearOrderedField K] [FloorRing K] (M : JsMath K)
    (toDataURL : List (Paint K) → String) (filename title : String)
    (data : List (ChartDatum K)) (chartType : String) (p : Ctx K × List Img) (i : Nat)
    (im : Img) (h : p.2[i]? = some im) (hu : isPngDataUrl im.src = true) :
    (Dashboard.createDashboardImage M toDataURL filename title data chartType p).2[i]? =
      some im := by
  rw [createDashboardImage_getElem? M toDataURL filename title data chartType p i im h,
    if_neg (dataUrl_ne_assets _ _ hu)]

/-- C4. `saveCanvasAsImage(filename)` keeps every image of the document at its
place; an image whose `src` was exactly `"assets/" + filename` now has the
exported data URL as `src`, which differs from the path it had; an image with
any other `src` is unchanged.  In particular an image with `src`
`"assets/wait_time_chart.png"` leaves `generateDashboardImages` with the data
URL of the canvas as it was when the wait-time chart had been drawn. -/
theorem saveCanvasAsImage_substitutes [LinearOrderedField K] [FloorRing K]
    (toDataURL : List (Paint K) → String)
    (hurl : ∀ ps, isPngDataUrl (toDataURL ps) = true)
    (doc : List Img) (i : Nat) (im : Img) (h : doc[i]? = some im) :
    (∀ (filename : String) (c : Ctx K),
      (im.src = "assets/" ++ filename →
          (Dashboard.saveCanvasAsImage toDataURL filename c doc)[i]? =
              some { im with src := toDataURL c.out } ∧
            isPngDataUrl (toDataURL c.out) = true ∧ toDataURL c.out ≠ im.src) ∧
        (im.src ≠ "assets/" ++ filename →
          (Dashboard.saveCanvasAsImage toDataURL filename c doc)[i]? = some im)) ∧
      (∀ M : JsMath K, im.src = "assets/wait_time_chart.png" →
        (Dashboard.generateDashboardImages M toDataURL doc).2[i]? =
          some { im with
            src := (toDataURL
              (Dashboard.createDashboardImage.draw M "Average Wait Time by Device Type"
                Dashboard.waitTimeData "bar"
                (Dashboard.createDashboardImage.draw M "Appointment Status Distribution"
                  Dashboard.appointmentStatusData "pie" freshCtx)).out) }) := by
  constructor
  · intro filename c
    rw [saveCanvasAsImage_getElem? toDataURL filename c doc i im h]
    constructor
    · intro hs
      refine ⟨by rw [if_pos hs], hurl _, ?_⟩
      rw [hs]
      exact dataUrl_ne_assets _ _ (hurl _)
    · intro hs
      rw [if_neg hs]
  · intro M hs
    have h1 := createDashboardImage_getElem? M toDataURL "appointment_status_chart.png"
      "Appointment Status Distribution" Dashboard.appointmentStatusData "pie"
      (freshCtx, doc) i im h
    rw [if_neg (by rw [hs]; decide)] at h1
    have h2 := createDashboardImage_getElem? M toDataURL "wait_time_chart.png"
      "Average Wait Time by Device Type" Dashboard.waitTimeData "bar" _ i im h1
    rw [if_pos (by rw [hs]; decide)] at h2
    simp only [Dashboard.generateDashboardImages]
    refine createDashboardImage_keeps_dataUrl M toDataURL _ _ _ _ _ i _ ?_ (hurl _)
    refine createDashboardImage_keeps_dataUrl M toDataURL _ _ _ _ _ i _ ?_ (hurl _)
    refine createDashboardImage_keeps_dataUrl M toDataURL _ _ _ _ _ i _ ?_ (hurl _)
    refine createDashboardImage_keeps_dataUrl M toDataURL _ _ _ _ _ i _ ?_ (hurl _)
    exact h2

/-- C4 on a two-image page: the image that referenced `assets/wait_time_chart.png`
carries the data URL, the other one is as it was. -/
theorem saveCanvasAsImage_substitutes_witness :
    (Dashboard.saveCanvasAsImage (fun _ : List (Paint ℚ) => "data:image/png;base64,iVBORw0KGgo=")
        "wait_time_chart.png" freshCtx
        [⟨"assets/wait_time_chart.png", "Wait time", "", "img-fluid", ""⟩,
         ⟨"assets/overview.png", "Overview", "", "img-fluid", ""⟩])[0]? =
      some ⟨"data:image/png;base64,iVBORw0KGgo=", "Wait time", "", "img-fluid", ""⟩ ∧
    (Dashboard.saveCanvasAsImage (fun _ : List (Paint ℚ) => "data:image/png;base64,iVBORw0KGgo=")
        "wait_time_chart.png" freshCtx
        [⟨"assets/wait_time_chart.png", "Wait time", "", "img-fluid", ""⟩,
         ⟨"assets/overview.png", "Overview", "", "img-fluid", ""⟩])[1]? =
      some ⟨"assets/overview.png", "Overview", "", "img-fluid", ""⟩ :=
  ⟨(((saveCanvasAsImage_substitutes
      (fun _ : List (Paint ℚ) => "data:image/png;base64,iVBORw0KGgo=") (fun _ => by
        show isPngDataUrl "data:image/png;base64,iVBORw0KGgo=" = true
        decide)
      [⟨"assets/wait_time_chart.png", "Wait time", "", "img-fluid", ""⟩,
       ⟨"assets/overview.png", "Overview", "", "img-fluid", ""⟩] 0 _ rfl).1
      "wait_time_chart.png" freshCtx).1 (by decide)).1,
   ((saveCanvasAsImage_substitutes
      (fun _ : List (Paint ℚ) => "data:image/png;base64,iVBORw0KGgo=") (fun _ => by
        show isPngDataUrl "data:image/png;base64,iVBORw0KGgo=" = true
        decide)
      [⟨"assets/wait_time_chart.png", "Wait time", "", "img-fluid", ""⟩,
       ⟨"assets/overview.png", "Overview", "", "img-fluid", ""⟩] 1 _ rfl).1
      "wait_time_chart.png" freshCtx).2 (by decide)⟩

end Substitution

/-! ### Independence of the style left behind by earlier draws -/

section Stability

variable {K : Type}

theorem Agree.refl (c : Ctx K) : Agree c c := ⟨rfl, rfl, rfl⟩

theorem Agree.symm {c₁ c₂ : Ctx K} (h : Agree c₁ c₂) : Agree c₂ c₁ :=
  ⟨h.1.symm, h.2.1.symm, h.2.2.symm⟩

theorem Agree.trans {c₁ c₂ c₃ : Ctx K} (h : Agree c₁ c₂) (h2 : Agree c₂ c₃) : Agree c₁ c₃ :=
  ⟨h.1.trans h2.1, h.2.1.trans h2.2.1, h.2.2.trans h2.2.2⟩

/-- A routine that leaves alpha, dash and baseline alone maps agreeing contexts
to agreeing contexts. -/
theorem Agree.of_frame {f : Ctx K → Ctx K} (hf : ∀ c, Agree (f c) c) (c₁ c₂ : Ctx K)
    (h : Agree c₁ c₂) : Agree (f c₁) (f c₂) :=
  ((hf c₁).trans h).trans (hf c₂).symm

theorem emitted_comp {f g : Ctx K → Ctx K} (hf : ∀ c, (f c).out = c.out ++ emitted f c)
    (hg : ∀ c, (g c).out = c.out ++ emitted g c) (c : Ctx K) :
    emitted (fun c => g (f c)) c = emitted f c ++ emitted g (f c) := by
  have h : (g (f c)).out = c.out ++ (emitted f c ++ emitted g (f c)) := by
    rw [hg, hf, List.append_assoc]
  exact emitted_of_out h

/-- Stable routines compose. -/
theorem Stable.comp {f g : Ctx K → Ctx K} (hf : Stable f) (hg : Stable g) :
    Stable (fun c => g (f c)) := by
  refine ⟨fun c => ?_, fun c₁ c₂ h => ?_⟩
  · rw [emitted_comp hf.1 hg.1, hg.1, hf.1, List.append_assoc]
  · obtain ⟨ha, he⟩ := hf.2 c₁ c₂ h
    obtain ⟨ha2, he2⟩ := hg.2 _ _ ha
    refine ⟨ha2, ?_⟩
    rw [emitted_comp hf.1 hg.1, emitted_comp hf.1 hg.1, he, he2]

theorem Stable.id : Stable (fun c : Ctx K => c) :=
  ⟨fun c => by simp [emitted], fun _ _ h => ⟨h, by simp [emitted]⟩⟩

/-- A routine whose marks and final alpha, dash and baseline are functions of
the initial alpha, dash and baseline is stable. -/
theorem Stable.of_out {f : Ctx K → Ctx K} (ps : K → List K → String → List (Paint K))
    (hout : ∀ c, (f c).out = c.out ++ ps c.globalAlpha c.lineDash c.textBaseline)
    (hagree : ∀ c₁ c₂, Agree c₁ c₂ → Agree (f c₁) (f c₂)) : Stable f := by
  have hem : ∀ c, emitted f c = ps c.globalAlpha c.lineDash c.textBaseline :=
    fun c => emitted_of_out (hout c)
  refine ⟨fun c => by rw [hem, hout], fun c₁ c₂ h => ⟨hagree c₁ c₂ h, ?_⟩⟩
  rw [hem, hem, h.1, h.2.1, h.2.2]

end Stability

section StableRoutines

variable {K : Type} [LinearOrderedField K]

theorem drawLayer_stable (name : String) (y : K) (color : String) :
    Stable (AwsDiagram.drawLayer name y color) := by
  refine ⟨fun c => ?_, fun c₁ c₂ h => ?_⟩
  · simp [emitted, AwsDiagram.drawLayer, setFillStyle, setStrokeStyle, setFont, setTextAlign,
      setLineWidth, setGlobalAlpha, fillRect, strokeRect, fillText]
  · obtain ⟨h1, h2, h3⟩ := h
    simp [Agree, emitted, AwsDiagram.drawLayer, setFillStyle, setStrokeStyle, setFont,
      setTextAlign, setLineWidth, setGlobalAlpha, fillRect, strokeRect, fillText, h2, h3]

theorem drawComponent_stable (name : String) (x y : K) (color : String) :
    Stable (AwsDiagram.drawComponent name x y color) := by
  refine ⟨fun c => ?_, fun c₁ c₂ h => ?_⟩
  · simp [emitted, AwsDiagram.drawComponent, setFillStyle, setStrokeStyle, setFont,
      setTextAlign, setLineWidth, setGlobalAlpha, beginPath, roundRect, fill, stroke, fillText]
  · obtain ⟨h1, h2, h3⟩ := h
    simp [Agree, emitted, AwsDiagram.drawComponent, setFillStyle, setStrokeStyle, setFont,
      setTextAlign, setLineWidth, setGlobalAlpha, beginPath, roundRect, fill, stroke, fillText,
      h2, h3]

theorem drawArrow_stable (M : JsMath K) (x1 y1 x2 y2 : K) :
    Stable (AwsDiagram.drawArrow M x1 y1 x2 y2) := by
  refine ⟨fun c => ?_, fun c₁ c₂ h => ?_⟩
  · simp [emitted, AwsDiagram.drawArrow, setFillStyle, setStrokeStyle, setLineWidth,
      beginPath, moveTo, lineTo, closePath, fill, stroke]
  · obtain ⟨h1, h2, h3⟩ := h
    simp [Agree, emitted, AwsDiagram.drawArrow, setFillStyle, setStrokeStyle, setLineWidth,
      beginPath, moveTo, lineTo, closePath, fill, stroke, h1, h2, h3]

theorem drawDashedArrow_stable (M : JsMath K) (x1 y1 x2 y2 : K) :
    Stable (AwsDiagram.drawDashedArrow M x1 y1 x2 y2) := by
  refine ⟨fun c => ?_, fun c₁ c₂ h => ?_⟩
  · simp [emitted, AwsDiagram.drawDashedArrow, setFillStyle, setStrokeStyle, setLineWidth,
      setLineDash, beginPath, moveTo, lineTo, closePath, fill, stroke]
  · obtain ⟨h1, h2, h3⟩ := h
    simp [Agree, emitted, AwsDiagram.drawDashedArrow, setFillStyle, setStrokeStyle,
      setLineWidth, setLineDash, beginPath, moveTo, lineTo, closePath, fill, stroke, h1, h3]

/-- The title block of the AWS diagram. -/
theorem awsTitle_stable :
    Stable (fun c : Ctx K =>
      c |> setFillStyle (.color "#ffffff")
        |> fillRect 0 0 1000 600
        |> setFillStyle (.color "#333333")
        |> setFont "bold 24px Arial"
        |> setTextAlign "center"
        |> fillText "AWS Architecture - Telemedicine Appointment Data Pipeline" (1000 / 2) 40) := by
  refine ⟨fun c => ?_, fun c₁ c₂ h => ?_⟩
  · simp [emitted, setFillStyle, setFont, setTextAlign, fillRect, fillText]
  · obtain ⟨h1, h2, h3⟩ := h
    simp [Agree, emitted, setFillStyle, setFont, setTextAlign, fillRect, fillText, h1, h2, h3]

theorem generateAwsArchitectureDiagram_draw_stable (M : JsMath K) :
    Stable (AwsDiagram.generateAwsArchitectureDiagram.draw M) := by
  unfold AwsDiagram.generateAwsArchitectureDiagram.draw
  refine Stable.comp ?_ (drawDashedArrow_stable _ _ _ _ _)
  refine Stable.comp ?_ (drawDashedArrow_stable _ _ _ _ _)
  refine Stable.comp ?_ (drawDashedArrow_stable _ _ _ _ _)
  refine Stable.comp ?_ (drawComponent_stable _ _ _ _)
  refine Stable.comp ?_ (drawComponent_stable _ _ _ _)
  refine Stable.comp ?_ (drawArrow_stable _ _ _ _ _)
  refine Stable.comp ?_ (drawArrow_stable _ _ _ _ _)
  refine Stable.comp ?_ (drawArrow_stable _ _ _ _ _)
  refine Stable.comp ?_ (drawArrow_stable _ _ _ _ _)
  refine Stable.comp ?_ (drawArrow_stable _ _ _ _ _)
  refine Stable.comp ?_ (drawArrow_stable _ _ _ _ _)
  refine Stable.comp ?_ (drawArrow_stable _ _ _ _ _)
  refine Stable.comp ?_ (drawArrow_stable _ _ _ _ _)
  refine Stable.comp ?_ (drawArrow_stable _ _ _ _ _)
  refine Stable.comp ?_ (drawArrow_stable _ _ _ _ _)
  refine Stable.comp ?_ (drawArrow_stable _ _ _ _ _)
  refine Stable.comp ?_ (drawComponent_stable _ _ _ _)
  refine Stable.comp ?_ (drawComponent_stable _ _ _ _)
  refine Stable.comp ?_ (drawComponent_stable _ _ _ _)
  refine Stable.comp ?_ (drawComponent_stable _ _ _ _)
  refine Stable.comp ?_ (drawComponent_stable _ _ _ _)
  refine Stable.comp ?_ (drawComponent_stable _ _ _ _)
  refine Stable.comp ?_ (drawComponent_stable _ _ _ _)
  refine Stable.comp ?_ (drawComponent_stable _ _ _ _)
  refine Stable.comp ?_ (drawComponent_stable _ _ _ _)
  refine Stable.comp ?_ (drawComponent_stable _ _ _ _)
  refine Stable.comp ?_ (drawComponent_stable _ _ _ _)
  refine Stable.comp ?_ (drawComponent_stable _ _ _ _)
  refine Stable.comp ?_ (drawComponent_stable _ _ _ _)
  refine Stable.comp ?_ (drawLayer_stable _ _ _)
  refine Stable.comp ?_ (drawLayer_stable _ _ _)
  refine Stable.comp ?_ (drawLayer_stable _ _ _)
  refine Stable.comp ?_ (drawLayer_stable _ _ _)
  refine Stable.comp ?_ (drawLayer_stable _ _ _)
  exact awsTitle_stable

end StableRoutines

section StableDashboard

variable {K : Type} [LinearOrderedField K] [FloorRing K]

theorem drawPieChart_loop_frame (M : JsMath K) (cx cy r tot tot64 : K) (ds : List (ChartDatum K)) :
    ∀ (a : K) (c : Ctx K), Agree (Dashboard.drawPieChart.loop M cx cy r tot tot64 ds a c) c := by
  induction ds with
  | nil => intro a c; exact Agree.refl c
  | cons d rest ih =>
    intro a c
    rw [Dashboard.drawPieChart.loop]
    exact (ih _ _).trans ⟨rfl, rfl, rfl⟩

theorem drawBarChart_bars_frame (sx m : K) (ds : List (ChartDatum K)) :
    ∀ (i : Nat) (c : Ctx K), Agree (Dashboard.drawBarChart.bars sx m i ds c) c := by
  induction ds with
  | nil => intro i c; exact Agree.refl c
  | cons d rest ih =>
    intro i c
    rw [Dashboard.drawBarChart.bars]
    exact (ih _ _).trans ⟨rfl, rfl, rfl⟩

omit [FloorRing K] in
theorem drawLegend_loop_frame (ds : List (ChartDatum K)) :
    ∀ (i : Nat) (c : Ctx K), Agree (Dashboard.drawLegend.loop i ds c) c := by
  induction ds with
  | nil => intro i c; exact Agree.refl c
  | cons d rest ih =>
    intro i c
    rw [Dashboard.drawLegend.loop]
    exact (ih _ _).trans ⟨rfl, rfl, rfl⟩

theorem drawPieChart_stable (M : JsMath K) (data : List (ChartDatum K)) :
    Stable (Dashboard.drawPieChart M data) :=
  Stable.of_out
    (fun alpha dash baseline =>
      Dashboard.piePaints M (800 / 2) 250 150 (Dashboard.total data) (Dashboard.total64 data)
          alpha dash baseline 0 data)
    (fun c => Dashboard.drawPieChart_loop_out M _ _ _ _ _ data 0 c)
    (Agree.of_frame (fun c => drawPieChart_loop_frame M _ _ _ _ _ data 0 c))

theorem drawBarChart_frame (data : List (ChartDatum K)) (c : Ctx K) :
    Agree (Dashboard.drawBarChart data c) c := by
  rw [Dashboard.drawBarChart]
  refine (drawBarChart_bars_frame _ _ data 0 _).trans ?_
  simp [Agree, List.range, List.range.loop, Dashboard.drawBarChart.gridLine, setFillStyle,
    setStrokeStyle, setFont, setTextAlign, setLineWidth, beginPath, moveTo, lineTo, stroke,
    fillText]

omit [FloorRing K] in
theorem drawLegend_frame (data : List (ChartDatum K)) (c : Ctx K) :
    Agree (Dashboard.drawLegend data c) c := by
  rw [Dashboard.drawLegend]
  exact (drawLegend_loop_frame data 0 _).trans ⟨rfl, rfl, rfl⟩

theorem createDashboardImage_draw_frame (M : JsMath K) (title : String)
    (data : List (ChartDatum K)) (chartType : String) (c : Ctx K) :
    Agree (Dashboard.createDashboardImage.draw M title data chartType c) c := by
  unfold Dashboard.createDashboardImage.draw
  refine (drawLegend_frame data _).trans ?_
  by_cases hp : chartType = "pie"
  · simp only [hp, if_true]
    exact (drawPieChart_loop_frame M _ _ _ _ _ data 0 _).trans ⟨rfl, rfl, rfl⟩
  · by_cases hb : chartType = "bar"
    · simp only [hp, hb, if_true, if_false]
      exact (drawBarChart_frame data _).trans ⟨rfl, rfl, rfl⟩
    · simp only [hp, hb, if_false]
      exact ⟨rfl, rfl, rfl⟩

theorem drawBarChart_stable (data : List (ChartDatum K)) :
    Stable (Dashboard.drawBarChart data) := by
  refine Stable.of_out
    (fun alpha dash baseline =>
      Dashboard.axesPaint (Dashboard.startX data) alpha dash ::
        ((List.range 6).flatMap
            (Dashboard.gridPaints (Dashboard.startX data) (Dashboard.maxValue (Dashboard.doubles
                data)) alpha dash
              baseline) ++
          Dashboard.barsPaints (Dashboard.startX data) ((Dashboard.maxValue data).getD 0) alpha
            dash baseline 0 data))
    (fun c => Dashboard.drawBarChart_out data c) (Agree.of_frame fun c => ?_)
  exact drawBarChart_frame data c

omit [FloorRing K] in
theorem drawLegend_stable (data : List (ChartDatum K)) :
    Stable (Dashboard.drawLegend data) := by
  refine Stable.of_out
    (fun alpha dash baseline =>
      Paint.fillRect 580 100 200 (30 * (data.length : K) + 30) (.color "#f8f9fa") alpha ::
        Paint.strokeRect 580 100 200 (30 * (data.length : K) + 30) (.color "#dddddd") 1
          dash alpha ::
        (data.mapIdx (fun i d => Dashboard.legendEntryPaints alpha dash baseline i d)).flatten)
    (fun c => Dashboard.drawLegend_out data c) (Agree.of_frame fun c => ?_)
  exact drawLegend_frame data c

omit [FloorRing K] in
/-- The clearing, title and border block of `createDashboardImage`. -/
theorem dashboardTitle_stable (title : String) :
    Stable (fun c : Ctx K =>
      c |> setFillStyle (.color "#ffffff")
        |> fillRect 0 0 800 500
        |> setFillStyle (.color "#333333")
        |> setFont "bold 28px Arial"
        |> setTextAlign "center"
        |> fillText title (800 / 2) 50
        |> setStrokeStyle (.color "#dddddd")
        |> setLineWidth 2
        |> strokeRect 10 10 (800 - 20) (500 - 20)) := by
  refine ⟨fun c => ?_, fun c₁ c₂ h => ?_⟩
  · simp [emitted, setFillStyle, setStrokeStyle, setLineWidth, setFont, setTextAlign, fillRect,
      strokeRect, fillText]
  · obtain ⟨h1, h2, h3⟩ := h
    simp [Agree, emitted, setFillStyle, setStrokeStyle, setLineWidth, setFont, setTextAlign,
      fillRect, strokeRect, fillText, h1, h2, h3]

theorem dashboardChart_stable (M : JsMath K) (data : List (ChartDatum K))
    (chartType : String) :
    Stable (fun c : Ctx K =>
      if chartType = "pie" then Dashboard.drawPieChart M data c
      else if chartType = "bar" then Dashboard.drawBarChart data c
      else c) := by
  by_cases hp : chartType = "pie"
  · simp only [hp, if_true]
    exact drawPieChart_stable M data
  · by_cases hb : chartType = "bar"
    · simp only [hp, hb, if_true, if_false]
      exact drawBarChart_stable data
    · simp only [hp, hb, if_false]
      exact Stable.id

theorem createDashboardImage_draw_stable (M : JsMath K) (title : String)
    (data : List (ChartDatum K)) (chartType : String) :
    Stable (Dashboard.createDashboardImage.draw M title data chartType) := by
  have h := Stable.comp
    (Stable.comp (dashboardTitle_stable title) (dashboardChart_stable M data chartType))
    (drawLegend_stable data)
  exact h

/-- C6. The marks emitted by a `createDashboardImage` call and by the drawing
of `generateAwsArchitectureDiagram` are the same in any two contexts that agree
on `globalAlpha`, line dash and `textBaseline`: fill style, stroke style, font,
alignment, line width, the current path and the canvas content left behind by
earlier draws have no influence.  No dashboard routine changes alpha, dash or
baseline, so a `createDashboardImage` call emits the same marks after any
earlier call as before it; and the canvas a generator ends with is the same
whatever document it is invoked on. -/
theorem fixed_generators_deterministic (M : JsMath K) :
    (∀ (title : String) (data : List (ChartDatum K)) (chartType : String) (c₁ c₂ : Ctx K),
      c₁.globalAlpha = c₂.globalAlpha → c₁.lineDash = c₂.lineDash →
      c₁.textBaseline = c₂.textBaseline →
        emitted (Dashboard.createDashboardImage.draw M title data chartType) c₁ =
          emitted (Dashboard.createDashboardImage.draw M title data chartType) c₂) ∧
      (∀ c₁ c₂ : Ctx K,
        c₁.globalAlpha = c₂.globalAlpha → c₁.lineDash = c₂.lineDash →
        c₁.textBaseline = c₂.textBaseline →
          emitted (AwsDiagram.generateAwsArchitectureDiagram.draw M) c₁ =
            emitted (AwsDiagram.generateAwsArchitectureDiagram.draw M) c₂) ∧
      (∀ (title title2 : String) (data data2 : List (ChartDatum K))
          (chartType chartType2 : String) (c : Ctx K),
        emitted (Dashboard.createDashboardImage.draw M title data chartType)
            (Dashboard.createDashboardImage.draw M title2 data2 chartType2 c) =
          emitted (Dashboard.createDashboardImage.draw M title data chartType) c) ∧
      (∀ (toDataURL : List (Paint K) → String) (doc₁ doc₂ : List Img),
        (Dashboard.generateDashboardImages M toDataURL doc₁).1 =
            (Dashboard.generateDashboardImages M toDataURL doc₂).1 ∧
          (AwsDiagram.generateAwsArchitectureDiagram M toDataURL doc₁).1 =
            (AwsDiagram.generateAwsArchitectureDiagram M toDataURL doc₂).1) := by
  refine ⟨?_, ?_, ?_, ?_⟩
  · intro title data chartType c₁ c₂ h1 h2 h3
    exact ((createDashboardImage_draw_stable M title data chartType).2 c₁ c₂ ⟨h1, h2, h3⟩).2
  · intro c₁ c₂ h1 h2 h3
    exact ((generateAwsArchitectureDiagram_draw_stable M).2 c₁ c₂ ⟨h1, h2, h3⟩).2
  · intro title title2 data data2 chartType chartType2 c
    exact ((createDashboardImage_draw_stable M title data chartType).2 _ _
      (createDashboardImage_draw_frame M title2 data2 chartType2 c)).2
  · intro toDataURL doc₁ doc₂
    exact ⟨rfl, rfl⟩

/-- C6 on the wait-time chart: a context full of leftovers gets the same marks
as a new one. -/
theorem fixed_generators_deterministic_witness :
    emitted (Dashboard.createDashboardImage.draw
        (⟨Real.pi, Real.cos, Real.sin, fun y x => Complex.arg ⟨x, y⟩⟩ : JsMath ℝ)
        "Average Wait Time by Device Type" Dashboard.waitTimeData "bar")
        { fillStyle := .color "red", strokeStyle := .color "blue", font := "80px Arial",
          textAlign := "right", textBaseline := "alphabetic", lineWidth := 7,
          globalAlpha := 1, lineDash := [], path := [PathOp.closePath],
          out := [Paint.fillRect 0 0 1 1 (.color "red") 1] } =
      emitted (Dashboard.createDashboardImage.draw
        (⟨Real.pi, Real.cos, Real.sin, fun y x => Complex.arg ⟨x, y⟩⟩ : JsMath ℝ)
        "Average Wait Time by Device Type" Dashboard.waitTimeData "bar") freshCtx :=
  (fixed_generators_deterministic _).1 _ _ _ _ _ rfl rfl rfl

end StableDashboard

/-! ### Rounding to binary64 -/

section Binary64

variable {K : Type} [LinearOrderedField K] [FloorRing K]

/-- A number less than one half away from the integer `m` rounds to `m`. -/
theorem roundHalfEven_eq (x : K) (m : Int) (h1 : (m : K) - 1 / 2 < x) (h2 : x < m + 1 / 2) :
    roundHalfEven x = m := by
  unfold roundHalfEven
  rcases le_or_lt (m : K) x with h | h
  · have hf : Int.floor x = m := by
      rw [Int.floor_eq_iff]; constructor <;> linarith
    simp only [hf]
    rw [if_pos (by linarith)]
  · have hf : Int.floor x = m - 1 := by
      rw [Int.floor_eq_iff]; push_cast; constructor <;> linarith
    simp only [hf]
    push_cast
    rw [if_neg (by linarith), if_pos (by linarith)]
    ring

/-- Rounding moves a number by at most one half. -/
theorem roundHalfEven_near (x : K) : |(roundHalfEven x : K) - x| ≤ 1 / 2 := by
  have h1 := Int.floor_le x
  have h2 := Int.lt_floor_add_one x
  unfold roundHalfEven
  simp only
  rw [abs_le]
  split_ifs with ha hb hc
  · constructor <;> linarith
  · push_cast; constructor <;> linarith
  · have hd : x - (Int.floor x : K) = 1 / 2 := le_antisymm (not_lt.1 hb) (not_lt.1 ha)
    constructor <;> linarith
  · have hd : x - (Int.floor x : K) = 1 / 2 := le_antisymm (not_lt.1 hb) (not_lt.1 ha)
    push_cast; constructor <;> linarith

omit [FloorRing K] in
theorem two_zpow_pos (e : Int) : (0 : K) < 2 ^ e := zpow_pos (by norm_num) e

theorem log_two_eq (x : K) (e : Int) (hlo : (2 : K) ^ e ≤ x) (hhi : x < (2 : K) ^ (e + 1)) :
    Int.log 2 x = e := by
  have hx : 0 < x := lt_of_lt_of_le (two_zpow_pos e) hlo
  have h1 : e ≤ Int.log 2 x := by
    rw [← Int.zpow_le_iff_le_log (by norm_num) hx]; exact_mod_cast hlo
  have h2 : Int.log 2 x < e + 1 := by
    rw [← Int.lt_zpow_iff_log_lt (by norm_num) hx]; exact_mod_cast hhi
  omega

/-- Evaluation of `fl` at a positive number: if `2 ^ e ≤ x < 2 ^ (e + 1)` and
`y` is a multiple of `2 ^ (e - 52)` less than half that step away from `x`,
then `y` is the double of `x`. -/
theorem fl_eq (x y : K) (e m : Int) (he : -1022 ≤ e) (hlo : (2 : K) ^ e ≤ x)
    (hhi : x < (2 : K) ^ (e + 1)) (hy : y = (m : K) * 2 ^ (e - 52))
    (h1 : y - 2 ^ (e - 53) < x) (h2 : x < y + 2 ^ (e - 53)) : fl x = y := by
  have hx : 0 < x := lt_of_lt_of_le (two_zpow_pos e) hlo
  have hq : (0 : K) < 2 ^ (e - 52) := two_zpow_pos _
  have hq2 : (2 : K) ^ (e - 53) = 2 ^ (e - 52) / 2 := by
    rw [show e - 52 = (e - 53) + 1 by ring, zpow_add_one₀ (by norm_num)]; ring
  unfold fl
  simp only [abs_of_pos hx, log_two_eq x e hlo hhi, max_eq_left he]
  rw [roundHalfEven_eq (x / 2 ^ (e - 52)) m, hy]
  · rw [lt_div_iff₀ hq]; rw [hy, hq2] at h1; linarith
  · rw [div_lt_iff₀ hq]; rw [hy, hq2] at h2; linarith

/-- A number half-way between two integers rounds to the even one. -/
theorem roundHalfEven_tie (x : K) (m : Int) (hm : m % 2 = 0)
    (h : x = (m : K) + 1 / 2 ∨ x = (m : K) - 1 / 2) : roundHalfEven x = m := by
  unfold roundHalfEven
  rcases h with h | h
  · have hf : Int.floor x = m := by
      rw [Int.floor_eq_iff]; constructor <;> linarith
    simp only [hf]
    rw [if_neg (by linarith), if_neg (by linarith), if_pos hm]
  · have hf : Int.floor x = m - 1 := by
      rw [Int.floor_eq_iff]; push_cast; constructor <;> linarith
    simp only [hf]
    push_cast
    rw [if_neg (by linarith), if_neg (by linarith), if_neg (by omega)]
    ring

/-- Evaluation of `fl` at a positive number half-way between two doubles of its
binade: the double with the even significand. -/
theorem fl_eq_tie (x y : K) (e m : Int) (he : -1022 ≤ e) (hlo : (2 : K) ^ e ≤ x)
    (hhi : x < (2 : K) ^ (e + 1)) (hy : y = (m : K) * 2 ^ (e - 52)) (hm : m % 2 = 0)
    (h : x = y + 2 ^ (e - 53) ∨ x = y - 2 ^ (e - 53)) : fl x = y := by
  have hx : 0 < x := lt_of_lt_of_le (two_zpow_pos e) hlo
  have hq : (0 : K) < 2 ^ (e - 52) := two_zpow_pos _
  have hq2 : (2 : K) ^ (e - 53) = 2 ^ (e - 52) / 2 := by
    rw [show e - 52 = (e - 53) + 1 by ring, zpow_add_one₀ (by norm_num)]; ring
  unfold fl
  simp only [abs_of_pos hx, log_two_eq x e hlo hhi, max_eq_left he]
  rw [roundHalfEven_tie (x / 2 ^ (e - 52)) m hm, hy]
  rcases h with h | h
  · left
    rw [h, hy, hq2]
    field_simp
    ring
  · right
    rw [h, hy, hq2]
    field_simp
    ring

theorem fl_zero : fl (0 : K) = 0 := by
  have h : roundHalfEven (0 : K) = 0 := roundHalfEven_eq 0 0 (by norm_num) (by norm_num)
  simp [fl, h]

/-- The rounding error of `fl` below `2 ^ k` is at most `2 ^ (k - 54)`, half the
step between the doubles of the binade below `2 ^ k`. -/
theorem fl_near (x : K) (k : Int) (hk : -1021 ≤ k) (hx : |x| < 2 ^ k) :
    |fl x - x| ≤ 2 ^ (k - 54) := by
  rcases eq_or_ne x 0 with rfl | hx0
  · rw [fl_zero, sub_zero, abs_zero]
    exact (two_zpow_pos _).le
  have hpos : 0 < |x| := abs_pos.2 hx0
  have hlog : Int.log 2 |x| < k := by
    rw [← Int.lt_zpow_iff_log_lt (by norm_num) hpos]; exact_mod_cast hx
  have he : max (Int.log 2 |x|) (-1022) ≤ k - 1 := max_le (by omega) (by omega)
  unfold fl
  simp only
  generalize max (Int.log 2 |x|) (-1022) = e at he
  have hq : (0 : K) < 2 ^ (e - 52) := two_zpow_pos _
  have hq2 : (1 / 2 : K) * 2 ^ (e - 52) = 2 ^ (e - 53) := by
    rw [show e - 52 = (e - 53) + 1 by ring, zpow_add_one₀ (by norm_num)]; ring
  have h := roundHalfEven_near (x / 2 ^ (e - 52))
  have hrw : (roundHalfEven (x / 2 ^ (e - 52)) : K) * 2 ^ (e - 52) - x =
      ((roundHalfEven (x / 2 ^ (e - 52)) : K) - x / 2 ^ (e - 52)) * 2 ^ (e - 52) := by
    field_simp
  rw [hrw, abs_mul, abs_of_pos hq]
  calc |(roundHalfEven (x / 2 ^ (e - 52)) : K) - x / 2 ^ (e - 52)| * 2 ^ (e - 52)
      ≤ 1 / 2 * 2 ^ (e - 52) := mul_le_mul_of_nonneg_right h hq.le
    _ = 2 ^ (e - 53) := hq2
    _ ≤ 2 ^ (k - 54) := zpow_le_zpow_right₀ (by norm_num) (by omega)

end Binary64

/-! ### The randomised placeholder charts -/

section RandomCharts

variable {K : Type} [LinearOrderedField K] [FloorRing K]

omit [FloorRing K] in
/-- In exact arithmetic the random bar height determines the sample. -/
theorem randomHeight_injective (height : K) (hh : height ≠ 0) (r r2 : K)
    (h : Placeholder.randomHeight r height = Placeholder.randomHeight r2 height) : r = r2 := by
  unfold Placeholder.randomHeight at h
  have h2 : r * height * 0.6 = r2 * height * 0.6 := add_right_cancel h
  have h3 : (height * 0.6 : K) ≠ 0 := mul_ne_zero hh (by norm_num)
  have h4 : r * (height * 0.6) = r2 * (height * 0.6) := by rw [← mul_assoc, ← mul_assoc]; exact h2
  exact mul_right_cancel₀ h3 h4

omit [FloorRing K] in
/-- In exact arithmetic the random bar width determines the sample. -/
theorem randomWidth_injective (width : K) (hw : width ≠ 0) (r r2 : K)
    (h : Placeholder.randomWidth r width = Placeholder.randomWidth r2 width) : r = r2 := by
  unfold Placeholder.randomWidth at h
  have h2 : r * width * 0.6 = r2 * width * 0.6 := add_right_cancel h
  have h3 : (width * 0.6 : K) ≠ 0 := mul_ne_zero hw (by norm_num)
  have h4 : r * (width * 0.6) = r2 * (width * 0.6) := by rw [← mul_assoc, ← mul_assoc]; exact h2
  exact mul_right_cancel₀ h3 h4

/-- The rectangles the placeholder `drawBarChart` fills: one bar per index, of
height `randomHeight (rnd i) height`, standing on the bottom of the chart. -/
theorem filledRects_placeholder_drawBarChart (rnd : Nat → K) (left top width height : K)
    (bars : Nat) (c : Ctx K) :
    filledRects (Placeholder.drawBarChart rnd left top width height bars c).out =
      filledRects c.out ++ (List.range bars).map (fun (i : Nat) =>
        (left + ((i : K) * (width / ((bars : K) * 2)) * 2) + width / ((bars : K) * 2) / 2,
         top + height - Placeholder.randomHeight (rnd i) height,
         width / ((bars : K) * 2), Placeholder.randomHeight (rnd i) height,
         Style.color (["#3498db", "#2ecc71", "#e74c3c", "#f1c40f"].getD (i % 4) "undefined"))) := by
  unfold Placeholder.drawBarChart
  simp only
  rw [foldl_proj_keep filledRects _ (fun c i => by simp [fillText, filledRects_append])]
  simp only [setFillStyle, setFont, setTextAlign]
  rw [foldl_proj filledRects _ (fun (i : Nat) =>
    (left + ((i : K) * (width / ((bars : K) * 2)) * 2) + width / ((bars : K) * 2) / 2,
      top + height - Placeholder.randomHeight (rnd i) height,
      width / ((bars : K) * 2), Placeholder.randomHeight (rnd i) height,
      Style.color (["#3498db", "#2ecc71", "#e74c3c", "#f1c40f"].getD (i % 4) "undefined")))
    (fun c i => by
      simp [Placeholder.drawBarChart.bar, setFillStyle, setFont, setTextAlign, fillRect,
        fillText, filledRects_append])]

/-- The rectangles `drawHorizontalBarChart` fills: one bar per index, of width
`randomWidth (rnd i) width`, starting at the left of the chart. -/
theorem filledRects_drawHorizontalBarChart (rnd : Nat → K) (left top width height : K)
    (bars : Nat) (c : Ctx K) :
    filledRects (Placeholder.drawHorizontalBarChart rnd left top width height bars c).out =
      filledRects c.out ++ (List.range bars).map (fun (i : Nat) =>
        (left, top + ((i : K) * (height / ((bars : K) * 2)) * 2) + height / ((bars : K) * 2) / 2,
         Placeholder.randomWidth (rnd i) width, height / ((bars : K) * 2),
         Style.color (["#e74c3c", "#3498db", "#2ecc71"].getD (i % 3) "undefined"))) := by
  unfold Placeholder.drawHorizontalBarChart
  simp only
  rw [foldl_proj_keep filledRects _ (fun c i => by simp [fillText, filledRects_append])]
  simp only [setFillStyle, setFont, setTextAlign]
  rw [foldl_proj filledRects _ (fun (i : Nat) =>
    (left, top + ((i : K) * (height / ((bars : K) * 2)) * 2) + height / ((bars : K) * 2) / 2,
      Placeholder.randomWidth (rnd i) width, height / ((bars : K) * 2),
      Style.color (["#e74c3c", "#3498db", "#2ecc71"].getD (i % 3) "undefined")))
    (fun c i => by
      simp [Placeholder.drawHorizontalBarChart.bar, setFillStyle, setFont, setTextAlign,
        fillRect, fillText, filledRects_append])]

/-- The one path `drawLineChart` strokes: the points in index order, point `i`
at height `randomHeight (rnd i) height` above the bottom of the chart. -/
theorem strokedPaths_drawLineChart (M : JsMath K) (rnd : Nat → K)
    (left top width height : K) (points : Nat) (c : Ctx K) :
    strokedPaths (Placeholder.drawLineChart M rnd left top width height points c).out =
      strokedPaths c.out ++ [(List.range points).map (fun (i : Nat) =>
        if i = 0 then
          PathOp.moveTo (left + (i : K) * (width / ((points : K) - 1)))
            (top + height - Placeholder.randomHeight (rnd i) height)
        else
          PathOp.lineTo (left + (i : K) * (width / ((points : K) - 1)))
            (top + height - Placeholder.randomHeight (rnd i) height))] := by
  unfold Placeholder.drawLineChart
  simp only
  rw [foldl_proj_keep strokedPaths _ (fun c i => by simp [fillText, strokedPaths_append])]
  simp only [setFillStyle, setFont, setTextAlign]
  rw [foldl_proj_keep strokedPaths _ (fun c i => by
    simp [setFillStyle, setFont, setTextAlign, beginPath, arc, fill, fillText,
      strokedPaths_append])]
  rw [foldl_path _ (fun (i : Nat) =>
        if i = 0 then
          PathOp.moveTo (left + (i : K) * (width / ((points : K) - 1)))
            (top + height - Placeholder.randomHeight (rnd i) height)
        else
          PathOp.lineTo (left + (i : K) * (width / ((points : K) - 1)))
            (top + height - Placeholder.randomHeight (rnd i) height))
      (fun c i => by by_cases h0 : i = 0 <;> simp [h0, moveTo, lineTo])]
  simp [stroke, beginPath, setLineWidth, setStrokeStyle, strokedPaths_append]

/-! #### The same charts in binary64 -/

/-- Below 1 the rounding error of `fl` is at most `2 ^ (-54)`. -/
theorem fl_near_one (x : K) (h1 : -1 < x) (h2 : x < 1) :
    fl x - x ≤ 1 / 18014398509481984 ∧ x - fl x ≤ 1 / 18014398509481984 := by
  have h := fl_near x 0 (by norm_num) (by rw [abs_lt]; constructor <;> norm_num <;> linarith)
  rw [abs_le] at h
  norm_num at h ⊢
  constructor <;> linarith

/-- Below 1024 the rounding error of `fl` is at most `2 ^ (-44)`. -/
theorem fl_near_1024 (x : K) (h1 : -1024 < x) (h2 : x < 1024) :
    fl x - x ≤ 1 / 17592186044416 ∧ x - fl x ≤ 1 / 17592186044416 := by
  have h := fl_near x 10 (by norm_num) (by rw [abs_lt]; constructor <;> norm_num <;> linarith)
  rw [abs_le] at h
  norm_num at h ⊢
  constructor <;> linarith

/-- Below 4096 the rounding error of `fl` is at most `2 ^ (-42)`. -/
theorem fl_near_4096 (x : K) (h1 : -4096 < x) (h2 : x < 4096) :
    fl x - x ≤ 1 / 4398046511104 ∧ x - fl x ≤ 1 / 4398046511104 := by
  have h := fl_near x 12 (by norm_num) (by rw [abs_lt]; constructor <;> norm_num <;> linarith)
  rw [abs_le] at h
  norm_num at h ⊢
  constructor <;> linarith

omit [FloorRing K] in
theorem sample_times_size (r size : K) (hr0 : 0 ≤ r) (hr1 : r < 1) (h0 : 0 < size)
    (h1 : size ≤ 1024) : 0 ≤ r * size ∧ r * size < 1024 := by
  have := mul_lt_mul_of_pos_right hr1 h0
  exact ⟨mul_nonneg hr0 h0.le, by linarith⟩

omit [FloorRing K] in
/-- How the rounding errors of the five operations of `r * size * 0.6 + size * t`
add up: `x`, `c`, `t2` stand for the rounded `a = r * size`, 0.6 and `t`, then
`p`, `g` and `f` for the rounded products and sum. -/
theorem scaled_sum_errors (a size t x c t2 p g f u v : K) (ha0 : 0 ≤ a) (ha1 : a ≤ 1024)
    (hs0 : 0 ≤ size) (hs1 : size ≤ 1024) (hc0 : 0 ≤ c) (hc1 : c ≤ 1)
    (hv : 1024 * v ≤ u)
    (hx : x - a ≤ u ∧ a - x ≤ u) (hc : c - 3 / 5 ≤ v ∧ 3 / 5 - c ≤ v)
    (ht : t2 - t ≤ v ∧ t - t2 ≤ v) (hp : p - x * c ≤ u ∧ x * c - p ≤ u)
    (hg : g - size * t2 ≤ u ∧ size * t2 - g ≤ u) (hf : f - (p + g) ≤ u ∧ p + g - f ≤ u) :
    f - (a * (3 / 5) + size * t) ≤ 6 * u ∧ a * (3 / 5) + size * t - f ≤ 6 * u := by
  have e1 := mul_nonneg (sub_nonneg.2 hx.1) hc0
  have e2 := mul_nonneg (sub_nonneg.2 hx.2) hc0
  have e3 := mul_nonneg ha0 (sub_nonneg.2 hc.1)
  have e4 := mul_nonneg ha0 (sub_nonneg.2 hc.2)
  have e5 := mul_nonneg hs0 (sub_nonneg.2 ht.1)
  have e6 := mul_nonneg hs0 (sub_nonneg.2 ht.2)
  have hu0 : 0 ≤ u := by linarith [hx.1, hx.2]
  have hv0 : 0 ≤ v := by linarith [hc.1, hc.2]
  have e7 := mul_nonneg hu0 (sub_nonneg.2 hc1)
  have e8 := mul_nonneg (sub_nonneg.2 ha1) hv0
  have e9 := mul_nonneg (sub_nonneg.2 hs1) hv0
  constructor <;> linarith [hp.1, hp.2, hg.1, hg.2, hf.1, hf.2]

/-- The error of `r * size * 0.6 + size * t` computed with a rounding whose
error is at most `v` below 1 and at most `u` below 1024. -/
theorem scaled_sum_near_aux (u v : K) (hu : u ≤ 1 / 1024) (hv : 1024 * v ≤ u)
    (hone : ∀ x : K, -1 < x → x < 1 → fl x - x ≤ v ∧ x - fl x ≤ v)
    (hfl : ∀ x : K, -1024 < x → x < 1024 → fl x - x ≤ u ∧ x - fl x ≤ u)
    (r size t : K) (hr0 : 0 ≤ r) (hr1 : r < 1) (h0 : 0 < size)
    (h1 : size ≤ 1024) (ht0 : 0 ≤ t) (ht1 : t ≤ 1 / 4) :
    fl (fl (fl (r * size) * fl (3 / 5)) + fl (size * fl t)) -
          (r * size * (3 / 5) + size * t) ≤ 6 * u ∧
      r * size * (3 / 5) + size * t -
          fl (fl (fl (r * size) * fl (3 / 5)) + fl (size * fl t)) ≤ 6 * u := by
  obtain ⟨a0, a1⟩ := sample_times_size r size hr0 hr1 h0 h1
  have hc := hone (3 / 5 : K) (by norm_num) (by norm_num)
  have ht := hone t (by linarith only [ht0]) (by linarith only [ht1])
  have hx := hfl (r * size) (by linarith only [a0]) a1
  generalize fl (3 / 5 : K) = c at hc ⊢
  generalize fl t = t2 at ht ⊢
  generalize fl (r * size) = x at hx ⊢
  generalize r * size = a at a0 a1 hx ⊢
  have hv0 : 0 ≤ v := by linarith only [hc.1, hc.2]
  have hv1 : v ≤ 1 / 1024 := by linarith only [hv, hu, hv0]
  have hc0 : 0 ≤ c := by linarith only [hc.2, hv1]
  have hq : x * c ≤ 626 ∧ -1 ≤ x * c := by
    have ha := mul_nonneg (show 0 ≤ 1025 - x by linarith only [hx.1, a1, hu]) hc0
    have hb := mul_nonneg (show 0 ≤ x + 1 by linarith only [hx.2, a0, hu]) hc0
    constructor <;> linarith only [ha, hb, hc.1, hc0, hv1]
  have hp := hfl (x * c) (by linarith only [hq.2]) (by linarith only [hq.1])
  have hg0 : 0 ≤ size * t2 + 1 ∧ size * t2 ≤ 257 := by
    have ha := mul_nonneg h0.le (show 0 ≤ t2 + v by linarith only [ht.2, ht0])
    have hb := mul_nonneg h0.le (show 0 ≤ 1 / 4 + v - t2 by linarith only [ht.1, ht1])
    have hc := mul_nonneg (show 0 ≤ 1024 - size by linarith only [h1]) hv0
    constructor <;> linarith only [ha, hb, hc, hv1, h1, h0]
  have hg := hfl (size * t2) (by linarith only [hg0.1]) (by linarith only [hg0.2])
  generalize fl (x * c) = p at hp ⊢
  generalize fl (size * t2) = g at hg ⊢
  have hf := hfl (p + g) (by linarith only [hp.2, hg.2, hq.2, hg0.1, hu])
    (by linarith only [hp.1, hg.1, hq.1, hg0.2, hu])
  generalize fl (p + g) = f at hf ⊢
  exact scaled_sum_errors a size t x c t2 p g f u v a0 a1.le h0.le h1 hc0
    (by linarith only [hc.1, hv1]) hv hx hc ht hp hg hf

/-- The binary64 value of `r * size * 0.6 + size * t` lies within `2 ^ (-41)` of
the exact value, for a sample `r` in `[0, 1)`, a size of at most 1024 and a
literal `t` between 0 and 0.25. -/
theorem scaled_sum_near (r size t : K) (hr0 : 0 ≤ r) (hr1 : r < 1) (h0 : 0 < size)
    (h1 : size ≤ 1024) (ht0 : 0 ≤ t) (ht1 : t ≤ 1 / 4) :
    |fl (fl (fl (r * size) * fl 0.6) + fl (size * fl t)) - (r * size * 0.6 + size * t)| ≤
      2 ^ (-41 : Int) := by
  have h06 : (0.6 : K) = 3 / 5 := by norm_num
  have e41 : (2 : K) ^ (-41 : Int) = 8 * (1 / 17592186044416) := by norm_num
  have h := scaled_sum_near_aux (1 / 17592186044416) (1 / 18014398509481984) (by norm_num)
    (by norm_num) fl_near_one fl_near_1024 r size t hr0 hr1 h0 h1 ht0 ht1
  rw [h06, e41, abs_le]
  generalize fl (fl (fl (r * size) * fl (3 / 5)) + fl (size * fl t)) = f at h ⊢
  generalize r * size * (3 / 5) + size * t = e at h ⊢
  constructor <;> linarith only [h.1, h.2]

/-- The bar height and the bar width the script computes lie within `2 ^ (-41)`
of the exact values that the charts of this file are drawn with. -/
theorem random_sizes_near (r size : K) (hr0 : 0 ≤ r) (hr1 : r < 1) (h0 : 0 < size)
    (h1 : size ≤ 1024) :
    |Placeholder.randomHeight64 r size - Placeholder.randomHeight r size| ≤ 2 ^ (-41 : Int) ∧
      |Placeholder.randomWidth64 r size - Placeholder.randomWidth r size| ≤ 2 ^ (-41 : Int) :=
  ⟨scaled_sum_near r size 0.2 hr0 hr1 h0 h1 (by norm_num) (by norm_num),
    scaled_sum_near r size 0.1 hr0 hr1 h0 h1 (by norm_num) (by norm_num)⟩

omit [FloorRing K] in
/-- Two exact sizes `r * size * 0.6 + q` that are approximated within `n` by
`f1` and `f2` come from samples no further apart than `2 |f1 - f2| + 4 n`. -/
theorem samples_from_sizes (r1 r2 size q f1 f2 n : K) (h0 : 0 < size)
    (h1 : |f1 - (r1 * size * 0.6 + q)| ≤ n) (h2 : |f2 - (r2 * size * 0.6 + q)| ≤ n) :
    |r1 - r2| * size ≤ 2 * |f1 - f2| + 4 * n := by
  have h06 : (0.6 : K) = 3 / 5 := by norm_num
  rw [h06, abs_le] at h1 h2
  have hd := abs_le.1 (le_refl |f1 - f2|)
  generalize |f1 - f2| = d at hd ⊢
  have hm : |r1 - r2| * size = |(r1 - r2) * size| := by rw [abs_mul, abs_of_pos h0]
  rw [hm, abs_le]
  constructor <;> linarith [h1.1, h1.2, h2.1, h2.2, hd.1, hd.2]

/-- In binary64 the bar height and the bar width determine the sample up to
rounding. -/
theorem random_sizes_separate (r1 r2 size : K) (h10 : 0 ≤ r1) (h11 : r1 < 1)
    (h20 : 0 ≤ r2) (h21 : r2 < 1) (h0 : 0 < size) (h1 : size ≤ 1024) :
    |r1 - r2| * size ≤
        2 * |Placeholder.randomHeight64 r1 size - Placeholder.randomHeight64 r2 size| +
          2 ^ (-39 : Int) ∧
      |r1 - r2| * size ≤
        2 * |Placeholder.randomWidth64 r1 size - Placeholder.randomWidth64 r2 size| +
          2 ^ (-39 : Int) := by
  have e : (2 : K) ^ (-39 : Int) = 4 * 2 ^ (-41 : Int) := by norm_num
  rw [e]
  exact ⟨samples_from_sizes r1 r2 size _ _ _ _ h0
      (random_sizes_near r1 size h10 h11 h0 h1).1 (random_sizes_near r2 size h20 h21 h0 h1).1,
    samples_from_sizes r1 r2 size _ _ _ _ h0
      (random_sizes_near r1 size h10 h11 h0 h1).2 (random_sizes_near r2 size h20 h21 h0 h1).2⟩

/-- In binary64 the height at which a point of the line chart is drawn
determines the sample up to rounding. -/
theorem pointY64_separates (r1 r2 top height : K) (h10 : 0 ≤ r1) (h11 : r1 < 1)
    (h20 : 0 ≤ r2) (h21 : r2 < 1) (hh : 0 < height) (hh2 : height ≤ 1024) (ht : 0 ≤ top)
    (ht2 : top ≤ 1024)
    (h : Placeholder.pointY64 r1 top height = Placeholder.pointY64 r2 top height) :
    |r1 - r2| * height ≤ 2 ^ (-38 : Int) := by
  have hsep := (random_sizes_separate r1 r2 height h10 h11 h20 h21 hh hh2).1
  have n1 := abs_le.1 (random_sizes_near r1 height h10 h11 hh hh2).1
  have n2 := abs_le.1 (random_sizes_near r2 height h20 h21 hh hh2).1
  obtain ⟨a10, a11⟩ := sample_times_size r1 height h10 h11 hh hh2
  obtain ⟨a20, a21⟩ := sample_times_size r2 height h20 h21 hh hh2
  have e38 : (2 : K) ^ (-38 : Int) = 1 / 274877906944 := by norm_num
  have e39 : (2 : K) ^ (-39 : Int) = 1 / 549755813888 := by norm_num
  have e41 : (2 : K) ^ (-41 : Int) = 1 / 2199023255552 := by norm_num
  rw [e39] at hsep
  rw [e41] at n1 n2
  rw [e38]
  clear e38 e39 e41
  unfold Placeholder.randomHeight at n1 n2
  unfold Placeholder.pointY64 at h
  generalize Placeholder.randomHeight64 r1 height = f1 at hsep n1 h
  generalize Placeholder.randomHeight64 r2 height = f2 at hsep n2 h
  have h06 : (0.6 : K) = 3 / 5 := by norm_num
  have h02 : (0.2 : K) = 1 / 5 := by norm_num
  rw [h06, h02] at n1 n2
  obtain ⟨t1, t2⟩ := fl_near_4096 (top + height) (by linarith) (by linarith)
  generalize fl (top + height) = b at t1 t2 h
  obtain ⟨y1, y2⟩ := fl_near_4096 (b - f1) (by linarith [n1.1, n1.2]) (by linarith [n1.1, n1.2])
  obtain ⟨z1, z2⟩ := fl_near_4096 (b - f2) (by linarith [n2.1, n2.2]) (by linarith [n2.1, n2.2])
  rw [h] at y1 y2
  have hd : |f1 - f2| ≤ 2 * (1 / 4398046511104) := by
    rw [abs_le]; constructor <;> linarith
  linarith

/-- The two doubles next to 0.9 among the possible samples, 0.8999999999999999
and 0.9000000000000001, give the same bar height 148 on a chart of height 200:
the exact sums `147.99999999999998...` and `148.00000000000001...` both lie
half-way between 148 and a neighbouring double and round to the even 148. -/
theorem randomHeight64_collision :
    Placeholder.randomHeight64 (2026619832316723 / 2251799813685248 : ℚ) 200 = 148 ∧
      Placeholder.randomHeight64 (4053239664633447 / 4503599627370496 : ℚ) 200 = 148 := by
  have a1 : fl (0.6 : ℚ) = 5404319552844595 / 9007199254740992 :=
    fl_eq _ _ (-1) 5404319552844595 (by norm_num) (by norm_num) (by norm_num) (by norm_num)
      (by norm_num) (by norm_num)
  have a2 : fl (0.2 : ℚ) = 3602879701896397 / 18014398509481984 :=
    fl_eq _ _ (-3) 7205759403792794 (by norm_num) (by norm_num) (by norm_num) (by norm_num)
      (by norm_num) (by norm_num)
  have a3 : fl (200 * (3602879701896397 / 18014398509481984) : ℚ) = 40 :=
    fl_eq _ _ (5) 5629499534213120 (by norm_num) (by norm_num) (by norm_num) (by norm_num)
      (by norm_num) (by norm_num)
  have a4 : fl ((2026619832316723 / 2251799813685248) * 200 : ℚ) = 6333186975989759 /
      35184372088832 :=
    fl_eq _ _ (7) 6333186975989759 (by norm_num) (by norm_num) (by norm_num) (by norm_num)
      (by norm_num) (by norm_num)
  have a5 : fl ((6333186975989759 / 35184372088832) * (5404319552844595 / 9007199254740992) : ℚ) =
      7599824371187711 / 70368744177664 :=
    fl_eq _ _ (6) 7599824371187711 (by norm_num) (by norm_num) (by norm_num) (by norm_num)
      (by norm_num) (by norm_num)
  have a6 : fl (7599824371187711 / 70368744177664 + 40 : ℚ) = 148 :=
    fl_eq_tie _ _ (7) 5207287069147136 (by norm_num) (by norm_num) (by norm_num) (by norm_num)
      (by norm_num) (Or.inr (by norm_num))
  have a7 : fl ((4053239664633447 / 4503599627370496) * 200 : ℚ) = 6333186975989761 /
      35184372088832 :=
    fl_eq _ _ (7) 6333186975989761 (by norm_num) (by norm_num) (by norm_num) (by norm_num)
      (by norm_num) (by norm_num)
  have a8 : fl ((6333186975989761 / 35184372088832) * (5404319552844595 / 9007199254740992) : ℚ) =
      7599824371187713 / 70368744177664 :=
    fl_eq _ _ (6) 7599824371187713 (by norm_num) (by norm_num) (by norm_num) (by norm_num)
      (by norm_num) (by norm_num)
  have a9 : fl (7599824371187713 / 70368744177664 + 40 : ℚ) = 148 :=
    fl_eq_tie _ _ (7) 5207287069147136 (by norm_num) (by norm_num) (by norm_num) (by norm_num)
      (by norm_num) (Or.inl (by norm_num))
  constructor <;>
    simp only [Placeholder.randomHeight64, a1, a2, a3, a4, a5, a6, a7, a8, a9]

theorem collision_samples_are_doubles :
    fl (2026619832316723 / 2251799813685248 : ℚ) = 2026619832316723 / 2251799813685248 ∧
      fl (4053239664633447 / 4503599627370496 : ℚ) = 4053239664633447 / 4503599627370496 := by
  have d1 : fl (2026619832316723 / 2251799813685248 : ℚ) = 2026619832316723 / 2251799813685248 :=
    fl_eq _ _ (-1) 8106479329266892 (by norm_num) (by norm_num) (by norm_num) (by norm_num)
      (by norm_num) (by norm_num)
  have d2 : fl (4053239664633447 / 4503599627370496 : ℚ) = 4053239664633447 / 4503599627370496 :=
    fl_eq _ _ (-1) 8106479329266894 (by norm_num) (by norm_num) (by norm_num) (by norm_num)
      (by norm_num) (by norm_num)
  exact ⟨d1, d2⟩

/-- C7 as stated fails: in binary64 two renders of the placeholder bar chart of
height 200 that draw the different samples 0.8999999999999999 and
0.9000000000000001, both doubles in `[0, 1)`, show the same bar height 148. -/
theorem equal_bars_distinct_samples_counterexample :
    (2026619832316723 / 2251799813685248 : ℚ) ≠ 4053239664633447 / 4503599627370496 ∧
      (0 ≤ (2026619832316723 / 2251799813685248 : ℚ) ∧
        (2026619832316723 / 2251799813685248 : ℚ) < 1 ∧
        fl (2026619832316723 / 2251799813685248 : ℚ) = 2026619832316723 / 2251799813685248) ∧
      (0 ≤ (4053239664633447 / 4503599627370496 : ℚ) ∧
        (4053239664633447 / 4503599627370496 : ℚ) < 1 ∧
        fl (4053239664633447 / 4503599627370496 : ℚ) = 4053239664633447 / 4503599627370496) ∧
      Placeholder.randomHeight64 (2026619832316723 / 2251799813685248 : ℚ) 200 =
        Placeholder.randomHeight64 (4053239664633447 / 4503599627370496 : ℚ) 200 :=
  ⟨by norm_num, ⟨by norm_num, by norm_num, collision_samples_are_doubles.1⟩,
    ⟨by norm_num, by norm_num, collision_samples_are_doubles.2⟩,
    randomHeight64_collision.1.trans randomHeight64_collision.2.symm⟩

/-- C7, as the code has it.  With the values of `Math.random()` as an input, the
bar height of the placeholder `drawBarChart`, the height of a point of
`drawLineChart` and the bar width of `drawHorizontalBarChart`, computed in
binary64 as the script computes them, determine the sample up to rounding: on
a chart at most 1024 wide and high, two renders that show the same bar height
or the same bar width drew samples whose distance times the chart height
(width) is at most `2 ^ (-39)`, two renders that show a point at the same
height drew samples whose distance times the chart height is at most
`2 ^ (-38)`; renders whose samples are further apart differ in what they
show.  The bar height and bar width in binary64 lie within `2 ^ (-41)` of the
exact values `randomHeight` and `randomWidth`, and those are injective in the
sample. -/
theorem placeholder_charts_injective (r1 r2 top width height : K)
    (h10 : 0 ≤ r1) (h11 : r1 < 1) (h20 : 0 ≤ r2) (h21 : r2 < 1)
    (hw : 0 < width) (hw2 : width ≤ 1024) (hh : 0 < height) (hh2 : height ≤ 1024)
    (ht : 0 ≤ top) (ht2 : top ≤ 1024) :
    (Placeholder.randomHeight64 r1 height = Placeholder.randomHeight64 r2 height →
        |r1 - r2| * height ≤ 2 ^ (-39 : Int)) ∧
      (Placeholder.pointY64 r1 top height = Placeholder.pointY64 r2 top height →
        |r1 - r2| * height ≤ 2 ^ (-38 : Int)) ∧
      (Placeholder.randomWidth64 r1 width = Placeholder.randomWidth64 r2 width →
        |r1 - r2| * width ≤ 2 ^ (-39 : Int)) ∧
      (2 ^ (-38 : Int) < |r1 - r2| * height →
        Placeholder.randomHeight64 r1 height ≠ Placeholder.randomHeight64 r2 height ∧
          Placeholder.pointY64 r1 top height ≠ Placeholder.pointY64 r2 top height) ∧
      (2 ^ (-39 : Int) < |r1 - r2| * width →
        Placeholder.randomWidth64 r1 width ≠ Placeholder.randomWidth64 r2 width) ∧
      |Placeholder.randomHeight64 r1 height - Placeholder.randomHeight r1 height| ≤
        2 ^ (-41 : Int) ∧
      |Placeholder.randomWidth64 r1 width - Placeholder.randomWidth r1 width| ≤
        2 ^ (-41 : Int) ∧
      (Placeholder.randomHeight r1 height = Placeholder.randomHeight r2 height → r1 = r2) ∧
      (Placeholder.randomWidth r1 width = Placeholder.randomWidth r2 width → r1 = r2) := by
  have hH : Placeholder.randomHeight64 r1 height = Placeholder.randomHeight64 r2 height →
      |r1 - r2| * height ≤ 2 ^ (-39 : Int) := by
    intro h
    have hs := (random_sizes_separate r1 r2 height h10 h11 h20 h21 hh hh2).1
    rw [h, sub_self, abs_zero, mul_zero, zero_add] at hs
    exact hs
  have hW : Placeholder.randomWidth64 r1 width = Placeholder.randomWidth64 r2 width →
      |r1 - r2| * width ≤ 2 ^ (-39 : Int) := by
    intro h
    have hs := (random_sizes_separate r1 r2 width h10 h11 h20 h21 hw hw2).2
    rw [h, sub_self, abs_zero, mul_zero, zero_add] at hs
    exact hs
  have hY := pointY64_separates r1 r2 top height h10 h11 h20 h21 hh hh2 ht ht2
  have h3839 : (2 : K) ^ (-39 : Int) ≤ 2 ^ (-38 : Int) := by norm_num
  exact ⟨hH, hY, hW,
    fun hlt => ⟨fun h => absurd (hH h) (not_le.2 (lt_of_le_of_lt h3839 hlt)),
      fun h => absurd (hY h) (not_le.2 hlt)⟩,
    fun hlt h => absurd (hW h) (not_le.2 hlt),
    (random_sizes_near r1 height h10 h11 hh hh2).1,
    (random_sizes_near r1 width h10 h11 hw hw2).2,
    randomHeight_injective height hh.ne' r1 r2, randomWidth_injective width hw.ne' r1 r2⟩

/-- The amended C7 on the 500 x 200 chart of the placeholder images: the samples
0.8999999999999999 and 0.9000000000000001 give the same bar height, and they
lie `2 ^ (-52)` apart, within the bound; the samples 0.25 and 0.75 are
further apart and give different bar heights. -/
theorem placeholder_charts_injective_witness :
    ((0 : ℚ) ≤ 2026619832316723 / 2251799813685248 ∧
        (2026619832316723 / 2251799813685248 : ℚ) < 1 ∧
        (0 : ℚ) ≤ 4053239664633447 / 4503599627370496 ∧
        (4053239664633447 / 4503599627370496 : ℚ) < 1 ∧
        (0 : ℚ) < 500 ∧ (500 : ℚ) ≤ 1024 ∧ (0 : ℚ) < 200 ∧ (200 : ℚ) ≤ 1024) ∧
      Placeholder.randomHeight64 (2026619832316723 / 2251799813685248 : ℚ) 200 =
        Placeholder.randomHeight64 (4053239664633447 / 4503599627370496 : ℚ) 200 ∧
      |(2026619832316723 / 2251799813685248 : ℚ) - 4053239664633447 / 4503599627370496| * 200 ≤
        2 ^ (-39 : Int) ∧
      Placeholder.randomHeight64 (1 / 4 : ℚ) 200 ≠ Placeholder.randomHeight64 (3 / 4 : ℚ) 200 :=
  ⟨⟨by norm_num, by norm_num, by norm_num, by norm_num, by norm_num, by norm_num, by norm_num,
      by norm_num⟩,
    randomHeight64_collision.1.trans randomHeight64_collision.2.symm,
    (placeholder_charts_injective _ _ 200 500 200 (by norm_num) (by norm_num) (by norm_num)
      (by norm_num) (by norm_num) (by norm_num) (by norm_num) (by norm_num) (by norm_num)
      (by norm_num)).1 (randomHeight64_collision.1.trans randomHeight64_collision.2.symm),
    ((placeholder_charts_injective (1 / 4 : ℚ) (3 / 4) 200 500 200 (by norm_num) (by norm_num)
      (by norm_num) (by norm_num) (by norm_num) (by norm_num) (by norm_num) (by norm_num)
      (by norm_num) (by norm_num)).2.2.2.1 (by norm_num [abs_div])).1⟩

end RandomCharts

/-! ### Percentage labels of the dashboard pie chart -/

section PieLabels

variable {K : Type} [LinearOrderedField K] [FloorRing K]

/-- `toFixed(1)` of a non-negative number whose tenfold lies within one half of
the natural number `n` prints `n` with its last digit behind the point. -/
theorem toFixed1_eq (x : K) (n : Nat) (h0 : 0 ≤ x) (h1 : (n : K) ≤ x * 10 + 1 / 2)
    (h2 : x * 10 + 1 / 2 < (n : K) + 1) :
    toFixed1 x = toString (n / 10) ++ "." ++ toString (n % 10) := by
  have hfl : Int.floor (|x| * 10 + 1 / 2) = (n : Int) := by
    rw [abs_of_nonneg h0, Int.floor_eq_iff]
    exact ⟨by exact_mod_cast h1, by exact_mod_cast h2⟩
  simp only [toFixed1, hfl, Int.toNat_ofNat, if_neg (not_lt.2 h0)]
  simp

/-- `toFixed(1)` prints the sign and then a multiple of one tenth that is
nearest to the magnitude. -/
theorem toFixed1_nearest (x : K) :
    ∃ n : Nat, toFixed1 x =
        (if x < 0 then "-" else "") ++ toString (n / 10) ++ "." ++ toString (n % 10) ∧
      |(|x|) - (n : K) / 10| ≤ 1 / 20 := by
  have hnn : (0 : K) ≤ |x| * 10 + 1 / 2 := by positivity
  have hfl0 : 0 ≤ Int.floor (|x| * 10 + 1 / 2) := Int.floor_nonneg.2 hnn
  refine ⟨(Int.floor (|x| * 10 + 1 / 2)).toNat, rfl, ?_⟩
  have hcast : (((Int.floor (|x| * 10 + 1 / 2)).toNat : Nat) : K) =
      ((Int.floor (|x| * 10 + 1 / 2) : Int) : K) := by
    have := Int.toNat_of_nonneg hfl0
    exact_mod_cast congrArg (fun z : Int => (z : K)) this
  rw [hcast, abs_le]
  have hle := Int.floor_le (|x| * 10 + 1 / 2)
  have hlt := Int.lt_floor_add_one (|x| * 10 + 1 / 2)
  constructor <;> linarith

theorem texts_piePaints (M : JsMath K) (cx cy r tot tot64 alpha : K) (dash : List K)
    (baseline : String) (ds : List (ChartDatum K)) :
    ∀ a : K, (texts (Dashboard.piePaints M cx cy r tot tot64 alpha dash baseline a ds)).map
      (fun t => t.1) = ds.map (Dashboard.percentage tot64) := by
  induction ds with
  | nil => intro a; simp [Dashboard.piePaints]
  | cons d rest ih =>
    intro a
    simp [Dashboard.piePaints, Dashboard.slicePaints, texts_append, ih]

omit [FloorRing K] in
theorem percentages_sum (tot : K) (ds : List (ChartDatum K)) :
    (ds.map (fun d => d.value / tot * 100)).sum =
      (ds.map (fun d => d.value)).sum / tot * 100 := by
  induction ds with
  | nil => simp
  | cons d rest ih => simp [ih]; ring

/-- C8. For a dataset with non-zero total the texts the dashboard `drawPieChart`
draws are, slice by slice, `((value_i / total) * 100).toFixed(1) + '%'` as the
script computes it: `total` is the sum of the values of the dataset (added
from the left, every sum a double), the quotient and the product are rounded
to binary64, and `toFixed(1)` prints the sign and a multiple of one tenth
nearest to the magnitude of that double.  In exact arithmetic the percentages
`value_i / total * 100` add up to exactly 100 before they are rounded. -/
theorem drawPieChart_labels (M : JsMath K) (data : List (ChartDatum K)) (c : Ctx K)
    (h : Dashboard.total data ≠ 0)
    (_h64 : data.foldl (fun sum item => fl (sum + fl item.value)) 0 ≠ 0) :
    (texts (emitted (Dashboard.drawPieChart M data) c)).map (fun t => t.1) =
        data.map (fun d =>
          toFixed1 (fl (fl (fl d.value /
            data.foldl (fun sum item => fl (sum + fl item.value)) 0) * 100)) ++ "%") ∧
      (data.map (fun d => d.value / (data.map (fun e => e.value)).sum * 100)).sum = 100 ∧
      ∀ x : K, ∃ n : Nat, toFixed1 x =
          (if x < 0 then "-" else "") ++ toString (n / 10) ++ "." ++ toString (n % 10) ∧
        |(|x|) - (n : K) / 10| ≤ 1 / 20 := by
  refine ⟨?_, ?_, toFixed1_nearest⟩
  · rw [Dashboard.drawPieChart_emitted, texts_piePaints]
    rfl
  · rw [percentages_sum, ← Dashboard.total_eq_sum, div_self h]
    norm_num

/-- C8 at the dataset `[74.9, 10.2, 10.1, 4.9]`: the exact total is 100.1, the
binary64 total is the double next above 100.1, the labels are 74.8%, 10.2%,
10.1% and 4.9%, and the four binary64 percentages, added in binary64, give
exactly 100 as well. -/
theorem drawPieChart_labels_witness :
    Dashboard.total (Dashboard.appointmentStatusData : List (ChartDatum ℝ)) = 100.1 ∧
      (Dashboard.appointmentStatusData : List (ChartDatum ℝ)).foldl
        (fun sum item => fl (sum + fl item.value)) 0 = 7043911292184167 / 70368744177664 ∧
      (texts (emitted (Dashboard.drawPieChart
          ⟨Real.pi, Real.cos, Real.sin, fun y x => Complex.arg ⟨x, y⟩⟩
          (Dashboard.appointmentStatusData : List (ChartDatum ℝ))) freshCtx)).map
        (fun t => t.1) = ["74.8%", "10.2%", "10.1%", "4.9%"] ∧
      ((Dashboard.appointmentStatusData : List (ChartDatum ℝ)).map (fun d =>
          fl (fl (fl d.value / (7043911292184167 / 70368744177664)) * 100))).foldl
        (fun sum p => fl (sum + p)) 0 = 100 := by
  have ht : Dashboard.total (Dashboard.appointmentStatusData : List (ChartDatum ℝ)) = 100.1 := by
    norm_num [Dashboard.total, Dashboard.appointmentStatusData]
  have e1 : fl (74.9 : ℝ) = 2635309469453517 / 35184372088832 :=
    fl_eq _ _ (6) 5270618938907034 (by norm_num) (by norm_num) (by norm_num) (by norm_num)
      (by norm_num) (by norm_num)
  have e2 : fl (10.2 : ℝ) = 2871044762448691 / 281474976710656 :=
    fl_eq _ _ (3) 5742089524897382 (by norm_num) (by norm_num) (by norm_num) (by norm_num)
      (by norm_num) (by norm_num)
  have e3 : fl (10.1 : ℝ) = 5685794529555251 / 562949953421312 :=
    fl_eq _ _ (3) 5685794529555251 (by norm_num) (by norm_num) (by norm_num) (by norm_num)
      (by norm_num) (by norm_num)
  have e4 : fl (4.9 : ℝ) = 2758454771764429 / 562949953421312 :=
    fl_eq _ _ (2) 5516909543528858 (by norm_num) (by norm_num) (by norm_num) (by norm_num)
      (by norm_num) (by norm_num)
  have e5 : fl (0 + 2635309469453517 / 35184372088832 : ℝ) = 2635309469453517 / 35184372088832 :=
    fl_eq _ _ (6) 5270618938907034 (by norm_num) (by norm_num) (by norm_num) (by norm_num)
      (by norm_num) (by norm_num)
  have e6 : fl (2635309469453517 / 35184372088832 + 2871044762448691 / 281474976710656 : ℝ) =
      5988380129519207 / 70368744177664 :=
    fl_eq _ _ (6) 5988380129519207 (by norm_num) (by norm_num) (by norm_num) (by norm_num)
      (by norm_num) (by norm_num)
  have e7 : fl (5988380129519207 / 70368744177664 + 5685794529555251 / 562949953421312 : ℝ) =
      6699104445713613 / 70368744177664 :=
    fl_eq _ _ (6) 6699104445713613 (by norm_num) (by norm_num) (by norm_num) (by norm_num)
      (by norm_num) (by norm_num)
  have e8 : fl (6699104445713613 / 70368744177664 + 2758454771764429 / 562949953421312 : ℝ) =
      7043911292184167 / 70368744177664 :=
    fl_eq _ _ (6) 7043911292184167 (by norm_num) (by norm_num) (by norm_num) (by norm_num)
      (by norm_num) (by norm_num)
  have e9 : fl ((2635309469453517 / 35184372088832) / (7043911292184167 / 70368744177664) : ℝ) =
      6739652589211791 / 9007199254740992 :=
    fl_eq _ _ (-1) 6739652589211791 (by norm_num) (by norm_num) (by norm_num) (by norm_num)
      (by norm_num) (by norm_num)
  have e10 : fl (6739652589211791 / 9007199254740992 * 100 : ℝ) = 329084599082607 / 4398046511104 :=
    fl_eq _ _ (6) 5265353585321712 (by norm_num) (by norm_num) (by norm_num) (by norm_num)
      (by norm_num) (by norm_num)
  have e11 : fl ((2871044762448691 / 281474976710656) / (7043911292184167 / 70368744177664) : ℝ) =
      7342532059808839 / 72057594037927936 :=
    fl_eq _ _ (-4) 7342532059808839 (by norm_num) (by norm_num) (by norm_num) (by norm_num)
      (by norm_num) (by norm_num)
  have e12 : fl (7342532059808839 / 72057594037927936 * 100 : ℝ) = 5736353171725655 /
      562949953421312 :=
    fl_eq _ _ (3) 5736353171725655 (by norm_num) (by norm_num) (by norm_num) (by norm_num)
      (by norm_num) (by norm_num)
  have e13 : fl ((5685794529555251 / 562949953421312) / (7043911292184167 / 70368744177664) : ℝ) =
      7270546451379341 / 72057594037927936 :=
    fl_eq _ _ (-4) 7270546451379341 (by norm_num) (by norm_num) (by norm_num) (by norm_num)
      (by norm_num) (by norm_num)
  have e14 : fl (7270546451379341 / 72057594037927936 * 100 : ℝ) = 2840057207570055 /
      281474976710656 :=
    fl_eq _ _ (3) 5680114415140110 (by norm_num) (by norm_num) (by norm_num) (by norm_num)
      (by norm_num) (by norm_num)
  have e15 : fl ((2758454771764429 / 562949953421312) / (7043911292184167 / 70368744177664) : ℝ) =
      7054589626090847 / 144115188075855872 :=
    fl_eq _ _ (-5) 7054589626090847 (by norm_num) (by norm_num) (by norm_num) (by norm_num)
      (by norm_num) (by norm_num)
  have e16 : fl (7054589626090847 / 144115188075855872 * 100 : ℝ) = 2755699072691737 /
      562949953421312 :=
    fl_eq _ _ (2) 5511398145383474 (by norm_num) (by norm_num) (by norm_num) (by norm_num)
      (by norm_num) (by norm_num)
  have e17 : fl (0 + 329084599082607 / 4398046511104 : ℝ) = 329084599082607 / 4398046511104 :=
    fl_eq _ _ (6) 5265353585321712 (by norm_num) (by norm_num) (by norm_num) (by norm_num)
      (by norm_num) (by norm_num)
  have e18 : fl (329084599082607 / 4398046511104 + 5736353171725655 / 562949953421312 : ℝ) =
      5982397731787419 / 70368744177664 :=
    fl_eq _ _ (6) 5982397731787419 (by norm_num) (by norm_num) (by norm_num) (by norm_num)
      (by norm_num) (by norm_num)
  have e19 : fl (5982397731787419 / 70368744177664 + 2840057207570055 / 281474976710656 : ℝ) =
      6692412033679933 / 70368744177664 :=
    fl_eq _ _ (6) 6692412033679933 (by norm_num) (by norm_num) (by norm_num) (by norm_num)
      (by norm_num) (by norm_num)
  have e20 : fl (6692412033679933 / 70368744177664 + 2755699072691737 / 562949953421312 : ℝ) = 100
      :=
    fl_eq _ _ (6) 7036874417766400 (by norm_num) (by norm_num) (by norm_num) (by norm_num)
      (by norm_num) (by norm_num)
  have hf : (Dashboard.appointmentStatusData : List (ChartDatum ℝ)).foldl
      (fun sum item => fl (sum + fl item.value)) 0 = 7043911292184167 / 70368744177664 := by
    simp only [Dashboard.appointmentStatusData, List.foldl_cons, List.foldl_nil, e1, e2, e3, e4,
        e5, e6, e7, e8, e9, e10, e11, e12, e13, e14, e15, e16]
  refine ⟨ht, hf, ?_, ?_⟩
  · rw [(drawPieChart_labels _ _ freshCtx (by rw [ht]; norm_num) (by rw [hf]; norm_num)).1, hf]
    simp only [Dashboard.appointmentStatusData, List.map_cons, List.map_nil, e1, e2, e3, e4, e5,
        e6, e7, e8, e9, e10, e11, e12, e13, e14, e15, e16]
    rw [toFixed1_eq (329084599082607 / 4398046511104 : ℝ) 748 (by norm_num) (by norm_num) (by
        norm_num),
    toFixed1_eq (5736353171725655 / 562949953421312 : ℝ) 102 (by norm_num) (by norm_num) (by
        norm_num),
    toFixed1_eq (2840057207570055 / 281474976710656 : ℝ) 101 (by norm_num) (by norm_num) (by
        norm_num),
    toFixed1_eq (2755699072691737 / 562949953421312 : ℝ) 49 (by norm_num) (by norm_num) (by
        norm_num)]
    decide
  · simp only [Dashboard.appointmentStatusData, List.map_cons, List.map_nil, List.foldl_cons,
      List.foldl_nil, e1, e2, e3, e4, e5, e6, e7, e8, e9, e10, e11, e12, e13, e14, e15, e16, e17,
          e18, e19, e20]

/-- The labels of the two-slice dataset `[23, 57]`: the first percentage is
28.75 in exact arithmetic, the double of `23 / 80` times 100 rounds to the
double next below 28.75, and the label is 28.7%; the second percentage is the
double 71.25, printed as 71.3%. -/
theorem drawPieChart_labels_tie :
    (texts (emitted (Dashboard.drawPieChart
        ⟨Real.pi, Real.cos, Real.sin, fun y x => Complex.arg ⟨x, y⟩⟩
        [⟨"A", 23, "#3498db"⟩, ⟨"B", 57, "#e74c3c"⟩]) freshCtx)).map
      (fun t => t.1) = ["28.7%", "71.3%"] := by
  have e1 : fl (23 : ℝ) = 23 :=
    fl_eq _ _ (4) 6473924464345088 (by norm_num) (by norm_num) (by norm_num) (by norm_num)
      (by norm_num) (by norm_num)
  have e2 : fl (57 : ℝ) = 57 :=
    fl_eq _ _ (5) 8022036836253696 (by norm_num) (by norm_num) (by norm_num) (by norm_num)
      (by norm_num) (by norm_num)
  have e3 : fl (0 + 23 : ℝ) = 23 :=
    fl_eq _ _ (4) 6473924464345088 (by norm_num) (by norm_num) (by norm_num) (by norm_num)
      (by norm_num) (by norm_num)
  have e4 : fl (23 + 57 : ℝ) = 80 :=
    fl_eq _ _ (6) 5629499534213120 (by norm_num) (by norm_num) (by norm_num) (by norm_num)
      (by norm_num) (by norm_num)
  have e5 : fl (23 / 80 : ℝ) = 2589569785738035 / 9007199254740992 :=
    fl_eq _ _ (-2) 5179139571476070 (by norm_num) (by norm_num) (by norm_num) (by norm_num)
      (by norm_num) (by norm_num)
  have e6 : fl (2589569785738035 / 9007199254740992 * 100 : ℝ) = 8092405580431359 /
      281474976710656 :=
    fl_eq _ _ (4) 8092405580431359 (by norm_num) (by norm_num) (by norm_num) (by norm_num)
      (by norm_num) (by norm_num)
  have e7 : fl (57 / 80 : ℝ) = 6417629469002957 / 9007199254740992 :=
    fl_eq _ _ (-1) 6417629469002957 (by norm_num) (by norm_num) (by norm_num) (by norm_num)
      (by norm_num) (by norm_num)
  have e8 : fl (6417629469002957 / 9007199254740992 * 100 : ℝ) = 285 / 4 :=
    fl_eq _ _ (6) 5013773022658560 (by norm_num) (by norm_num) (by norm_num) (by norm_num)
      (by norm_num) (by norm_num)
  rw [Dashboard.drawPieChart_emitted, texts_piePaints]
  simp only [Dashboard.total64, Dashboard.percentage, List.foldl_cons, List.foldl_nil,
    List.map_cons, List.map_nil, e1, e2, e3, e4, e5, e6, e7, e8]
  rw [toFixed1_eq (8092405580431359 / 281474976710656 : ℝ) 287 (by norm_num) (by norm_num) (by
      norm_num),
    toFixed1_eq (285 / 4 : ℝ) 713 (by norm_num) (by norm_num) (by norm_num)]
  decide

end PieLabels

/-! ### Two generators aiming at the same file name -/

section FirstWriteWins

/-- No full stop occurs in a PNG data URL. -/
theorem dot_not_mem_dataUrl (u : String) (h : isPngDataUrl u = true) : '.' ∉ u.data := by
  simp only [isPngDataUrl, Bool.and_eq_true, decide_eq_true_eq, List.all_eq_true] at h
  obtain ⟨⟨t, ht⟩, hall⟩ := h
  intro hmem
  have hdrop : u.data.drop 22 = t := by
    rw [← ht]
    exact List.drop_left' (by decide)
  rw [← ht] at hmem
  rcases List.mem_append.1 hmem with hp | hp
  · revert hp
    decide
  · have := hall '.' (by rw [hdrop]; exact hp)
    revert this
    decide

/-- A PNG data URL contains no file name ending in `.png`. -/
theorem dataUrl_not_includes (u id : String) (h : isPngDataUrl u = true) :
    jsIncludes u (id ++ ".png") = false := by
  simp only [jsIncludes, decide_eq_false_iff_not]
  intro hin
  apply dot_not_mem_dataUrl u h
  apply hin.subset
  simp [String.data_append]

theorem assets_includes (id : String) :
    jsIncludes ("assets/" ++ (id ++ ".png")) (id ++ ".png") = true := by
  simp only [jsIncludes, decide_eq_true_eq, String.data_append]
  exact (List.suffix_append _ _).isInfix

/-- What the end of `createPlaceholderImage` does to the image at a position of
the old document. -/
theorem createPlaceholderImage_save_getElem? (url id title : String) (doc : List Img)
    (i : Nat) (im : Img) (h : doc[i]? = some im) :
    (Placeholder.createPlaceholderImage.save url id title doc)[i]? =
      some (if jsIncludes im.src (id ++ ".png") then { im with src := url } else im) := by
  have hi : i < doc.length := (List.getElem?_eq_some_iff.1 h).1
  simp only [Placeholder.createPlaceholderImage.save, List.getElem?_map,
    List.getElem?_append_left hi, h, Option.map_some']

variable {K : Type}

/-- C9, as the code has it: substitution is first-write-wins.  When the
dashboard generator (selector `src = "assets/" + id + ".png"`) and the
placeholder generator (selector `src` contains `id + ".png"`) both run, in
either order, an image of the document whose `src` was `"assets/" + id + ".png"`
ends with the data URL of the generator that ran first: the data URL it then
carries is selected by neither generator. -/
theorem substitution_first_write_wins (toDataURL : List (Paint K) → String)
    (hurl : ∀ ps, isPngDataUrl (toDataURL ps) = true) (urlP : String)
    (hP : isPngDataUrl urlP = true) (id title : String) (c : Ctx K) (doc : List Img)
    (i : Nat) (im : Img) (h : doc[i]? = some im) (hsrc : im.src = "assets/" ++ (id ++ ".png")) :
    (Placeholder.createPlaceholderImage.save urlP id title
        (Dashboard.saveCanvasAsImage toDataURL (id ++ ".png") c doc))[i]? =
        some { im with src := toDataURL c.out } ∧
      (Dashboard.saveCanvasAsImage toDataURL (id ++ ".png") c
        (Placeholder.createPlaceholderImage.save urlP id title doc))[i]? =
        some { im with src := urlP } := by
  constructor
  · have h1 := saveCanvasAsImage_getElem? toDataURL (id ++ ".png") c doc i im h
    rw [if_pos hsrc] at h1
    rw [createPlaceholderImage_save_getElem? urlP id title _ i _ h1]
    simp only [dataUrl_not_includes _ id (hurl c.out)]
    rfl
  · have h1 := createPlaceholderImage_save_getElem? urlP id title doc i im h
    rw [hsrc, assets_includes, if_pos rfl] at h1
    rw [saveCanvasAsImage_getElem? toDataURL (id ++ ".png") c _ i _ h1]
    rw [if_neg (dataUrl_ne_assets _ _ hP)]

/-- C9 as stated fails: on a page with one image `assets/wait_time_chart.png`,
whichever of the dashboard generator (data URL ending in `AAAA`) and the
placeholder generator (data URL ending in `BBBB`) runs last, the image keeps
the data URL of the one that ran first. -/
theorem last_write_wins_counterexample :
    ((Placeholder.createPlaceholderImage.save "data:image/png;base64,BBBB" "wait_time_chart"
        "Average Wait Time by Device Type"
        (Dashboard.saveCanvasAsImage (fun _ : List (Paint ℚ) => "data:image/png;base64,AAAA")
          "wait_time_chart.png" freshCtx
          [⟨"assets/wait_time_chart.png", "Wait time", "", "img-fluid", ""⟩]))[0]?).map
        (fun im => im.src) ≠ some "data:image/png;base64,BBBB" ∧
      ((Dashboard.saveCanvasAsImage (fun _ : List (Paint ℚ) => "data:image/png;base64,AAAA")
          "wait_time_chart.png" freshCtx
          (Placeholder.createPlaceholderImage.save "data:image/png;base64,BBBB"
            "wait_time_chart" "Average Wait Time by Device Type"
            [⟨"assets/wait_time_chart.png", "Wait time", "", "img-fluid", ""⟩]))[0]?).map
        (fun im => im.src) ≠ some "data:image/png;base64,AAAA" := by
  constructor <;> decide

/-- The amended C9 on the same page: the image ends with the data URL of the
generator that ran first, in both orders. -/
theorem substitution_first_write_wins_witness :
    (Placeholder.createPlaceholderImage.save "data:image/png;base64,BBBB" "wait_time_chart"
        "Average Wait Time by Device Type"
        (Dashboard.saveCanvasAsImage (fun _ : List (Paint ℚ) => "data:image/png;base64,AAAA")
          ("wait_time_chart" ++ ".png") freshCtx
          [⟨"assets/wait_time_chart.png", "Wait time", "", "img-fluid", ""⟩]))[0]? =
        some ⟨"data:image/png;base64,AAAA", "Wait time", "", "img-fluid", ""⟩ ∧
      (Dashboard.saveCanvasAsImage (fun _ : List (Paint ℚ) => "data:image/png;base64,AAAA")
          ("wait_time_chart" ++ ".png") freshCtx
          (Placeholder.createPlaceholderImage.save "data:image/png;base64,BBBB"
            "wait_time_chart" "Average Wait Time by Device Type"
            [⟨"assets/wait_time_chart.png", "Wait time", "", "img-fluid", ""⟩]))[0]? =
        some ⟨"data:image/png;base64,BBBB", "Wait time", "", "img-fluid", ""⟩ :=
  substitution_first_write_wins (fun _ : List (Paint ℚ) => "data:image/png;base64,AAAA")
    (fun _ => by
        show isPngDataUrl "data:image/png;base64,AAAA" = true
        decide)
    "data:image/png;base64,BBBB" (by decide) "wait_time_chart"
    "Average Wait Time by Device Type" freshCtx
    [⟨"assets/wait_time_chart.png", "Wait time", "", "img-fluid", ""⟩] 0 _ rfl (by decide)

end FirstWriteWins

/-! ### Consecutive pie slices -/

section PieSlices

variable {K : Type} [LinearOrderedField K] [FloorRing K]

theorem filledArcs_piePaints_eq (M : JsMath K) (cx cy r tot tot64 alpha : K) (dash : List K)
    (baseline : String) (ds : List (ChartDatum K)) :
    ∀ a : K, filledArcs (Dashboard.piePaints M cx cy r tot tot64 alpha dash baseline a ds) =
      (List.range ds.length).map (fun i =>
        (a + ((ds.take i).map (Dashboard.sliceAngle M tot)).sum,
         a + ((ds.take (i + 1)).map (Dashboard.sliceAngle M tot)).sum)) := by
  induction ds with
  | nil => intro a; simp [Dashboard.piePaints]
  | cons d rest ih =>
    intro a
    simp only [Dashboard.piePaints, Dashboard.slicePaints, List.cons_append, List.nil_append,
      filledArcs_fill, filledArcs_stroke, filledArcs_fillText, List.filterMap_cons,
      List.filterMap_nil, List.length_cons, List.range_succ_eq_map, List.map_cons, List.map_map,
      ih, List.take_zero, List.map_nil, List.sum_nil, add_zero, List.take_succ_cons,
      List.sum_cons, List.singleton_append]
    refine congrArg₂ _ rfl (List.map_congr_left fun i _ => ?_)
    simp only [Function.comp, Nat.succ_eq_add_one, List.take_succ_cons, List.map_cons,
      List.sum_cons, add_assoc]

theorem consecutive_piePaints (M : JsMath K) (cx cy r tot tot64 alpha : K) (dash : List K)
    (baseline : String) (ds : List (ChartDatum K)) :
    ∀ a : K, Consecutive
      (filledArcs (Dashboard.piePaints M cx cy r tot tot64 alpha dash baseline a ds)) a
      (a + (ds.map (Dashboard.sliceAngle M tot)).sum) := by
  induction ds with
  | nil => intro a; simp [Dashboard.piePaints, Consecutive]
  | cons d rest ih =>
    intro a
    have h := ih (a + Dashboard.sliceAngle M tot d)
    simp only [List.map_cons, List.sum_cons, ← add_assoc]
    simpa [Dashboard.piePaints, Dashboard.slicePaints, Consecutive] using h

/-- The four arcs of the placeholder pie chart. -/
theorem filledArcs_placeholder_drawPieChart (M : JsMath K) (cx cy r : K) (c : Ctx K) :
    filledArcs (emitted (Placeholder.drawPieChart M cx cy r) c) =
      [(0, 0 + 0.45 * M.pi * 2),
       (0 + 0.45 * M.pi * 2, 0 + 0.45 * M.pi * 2 + 0.25 * M.pi * 2),
       (0 + 0.45 * M.pi * 2 + 0.25 * M.pi * 2,
        0 + 0.45 * M.pi * 2 + 0.25 * M.pi * 2 + 0.15 * M.pi * 2),
       (0 + 0.45 * M.pi * 2 + 0.25 * M.pi * 2 + 0.15 * M.pi * 2,
        0 + 0.45 * M.pi * 2 + 0.25 * M.pi * 2 + 0.15 * M.pi * 2 + 0.15 * M.pi * 2)] := by
  simp [emitted, Placeholder.drawPieChart, Placeholder.drawPieChart.slices,
    Placeholder.drawPieChart.legend, Placeholder.pieSlices, setFillStyle, setFont,
    setTextAlign, beginPath, moveTo, arc, closePath, fill, fillRect, fillText]

/-- C10. The slices of both pie charts follow one another from angle 0 without
gap or overlap, in array order.  In the dashboard `drawPieChart` with non-zero
total, slice `i` runs from the sum of the angles of the slices before it to
the sum of the angles up to and including its own, which is where slice `i + 1`
starts, and the last slice ends at `2 * Math.PI`; in the
placeholder `drawPieChart` the four slices of `[0.45, 0.25, 0.15, 0.15]` do the
same. -/
theorem pie_slices_consecutive (M : JsMath K) (data : List (ChartDatum K)) (cx cy r : K)
    (c : Ctx K) (h : Dashboard.total data ≠ 0) :
    filledArcs (emitted (Dashboard.drawPieChart M data) c) =
        (List.range data.length).map (fun i =>
          (((data.take i).map (Dashboard.sliceAngle M (Dashboard.total data))).sum,
           ((data.take (i + 1)).map (Dashboard.sliceAngle M (Dashboard.total data))).sum)) ∧
      Consecutive (filledArcs (emitted (Dashboard.drawPieChart M data) c)) 0 (2 * M.pi) ∧
      filledArcs (emitted (Placeholder.drawPieChart M cx cy r) c) =
        [(0, 0.45 * M.pi * 2),
         (0.45 * M.pi * 2, (0.45 + 0.25) * M.pi * 2),
         ((0.45 + 0.25) * M.pi * 2, (0.45 + 0.25 + 0.15) * M.pi * 2),
         ((0.45 + 0.25 + 0.15) * M.pi * 2, (0.45 + 0.25 + 0.15 + 0.15) * M.pi * 2)] ∧
      Consecutive (filledArcs (emitted (Placeholder.drawPieChart M cx cy r) c)) 0 (2 * M.pi) := by
  refine ⟨?_, ?_, ?_, ?_⟩
  · rw [Dashboard.drawPieChart_emitted, filledArcs_piePaints_eq]
    simp only [zero_add]
  · have hc := consecutive_piePaints M (800 / 2) 250 150 (Dashboard.total data) (Dashboard.total64
      data) c.globalAlpha
      c.lineDash c.textBaseline data 0
    rw [Dashboard.sliceAngle_sum, ← Dashboard.total_eq_sum, div_self h] at hc
    rw [Dashboard.drawPieChart_emitted]
    have e : (0 : K) + 1 * M.pi * 2 = 2 * M.pi := by ring
    rw [e] at hc
    exact hc
  · rw [filledArcs_placeholder_drawPieChart]
    simp only [List.cons.injEq, Prod.mk.injEq, and_true]
    refine ⟨⟨trivial, ?_⟩, ⟨?_, ?_⟩, ⟨?_, ?_⟩, ⟨?_, ?_⟩⟩ <;> ring
  · rw [filledArcs_placeholder_drawPieChart]
    simp only [Consecutive, true_and]
    ring

/-- C10 at the dataset `[74.9, 10.2, 10.1, 4.9]` over the reals: the four
slices run consecutively from 0 to `2π`. -/
theorem pie_slices_consecutive_witness :
    Dashboard.total (Dashboard.appointmentStatusData : List (ChartDatum ℝ)) ≠ 0 ∧
      Consecutive (filledArcs (emitted (Dashboard.drawPieChart
          ⟨Real.pi, Real.cos, Real.sin, fun y x => Complex.arg ⟨x, y⟩⟩
          (Dashboard.appointmentStatusData : List (ChartDatum ℝ))) freshCtx)) 0
        (2 * Real.pi) := by
  have ht : Dashboard.total (Dashboard.appointmentStatusData : List (ChartDatum ℝ)) ≠ 0 := by
    norm_num [Dashboard.total, Dashboard.appointmentStatusData]
  exact ⟨ht, (pie_slices_consecutive _ _ 400 220 120 freshCtx ht).2.1⟩

end PieSlices

/-! ### Where the pie labels sit -/

section PieLabelPositions

theorem dist_on_ray (cx cy θ ρ : ℝ) (hρ : 0 ≤ ρ) :
    Real.sqrt (sqDist (cx + Real.cos θ * ρ, cy + Real.sin θ * ρ) (cx, cy)) = ρ := by
  have h : sqDist (cx + Real.cos θ * ρ, cy + Real.sin θ * ρ) (cx, cy) = ρ ^ 2 := by
    simp only [sqDist]
    linear_combination ρ ^ 2 * Real.cos_sq_add_sin_sq θ
  rw [h, Real.sqrt_sq hρ]

variable {K : Type} [LinearOrderedField K] [FloorRing K]

/-- Every label of the dashboard pie sits at `0.7 * radius` along the direction
of the middle of its slice. -/
theorem label_points_piePaints (M : JsMath K) (cx cy r tot tot64 alpha : K) (dash : List K)
    (baseline : String) (ds : List (ChartDatum K)) :
    ∀ a : K, (texts (Dashboard.piePaints M cx cy r tot tot64 alpha dash baseline a ds)).map
        (fun t => t.2) =
      (filledArcs (Dashboard.piePaints M cx cy r tot tot64 alpha dash baseline a ds)).map
        (fun p => (cx + M.cos (p.1 + (p.2 - p.1) / 2) * (r * 0.7),
          cy + M.sin (p.1 + (p.2 - p.1) / 2) * (r * 0.7))) := by
  induction ds with
  | nil => intro a; simp [Dashboard.piePaints]
  | cons d rest ih =>
    intro a
    simp only [Dashboard.piePaints, Dashboard.slicePaints, List.cons_append, List.nil_append,
      texts_fill, texts_stroke, texts_fillText, filledArcs_fill, filledArcs_stroke,
      filledArcs_fillText, List.filterMap_cons, List.filterMap_nil, List.map_cons, ih,
      List.singleton_append, add_sub_cancel_left]

/-- The label points of the placeholder pie, slice by slice. -/
theorem label_points_placeholder (M : JsMath K) (cx cy r : K) (c : Ctx K) :
    ((texts (emitted (Placeholder.drawPieChart M cx cy r) c)).take 4).map (fun t => t.2) =
      (filledArcs (emitted (Placeholder.drawPieChart M cx cy r) c)).map
        (fun p => (cx + M.cos (p.1 + (p.2 - p.1) / 2) * (r * 1.3),
          cy + M.sin (p.1 + (p.2 - p.1) / 2) * (r * 1.3))) := by
  simp [emitted, Placeholder.drawPieChart, Placeholder.drawPieChart.slices,
    Placeholder.drawPieChart.legend, Placeholder.pieSlices, setFillStyle, setFont,
    setTextAlign, beginPath, moveTo, arc, closePath, fill, fillRect, fillText]

theorem label_texts_placeholder (M : JsMath K) (cx cy r : K) (c : Ctx K) :
    ((texts (emitted (Placeholder.drawPieChart M cx cy r) c)).take 4).map (fun t => t.1) =
      Placeholder.pieSlices.map (fun s : K => toString (jsRound (s * 100)) ++ "%") := by
  simp [emitted, Placeholder.drawPieChart, Placeholder.drawPieChart.slices,
    Placeholder.drawPieChart.legend, Placeholder.pieSlices, setFillStyle, setFont,
    setTextAlign, beginPath, moveTo, arc, closePath, fill, fillRect, fillText]

/-- C11. Over the reals, the label of every slice is anchored on the ray from
the pie centre through the middle of the slice (at angle `start + (end -
start) / 2`), at distance `0.7 * 150 = 105` from the centre `(400, 250)` in the
dashboard `drawPieChart` and at distance `1.3 * radius` from the centre in the
placeholder `drawPieChart` (156 for the radius 120 it is called with).  The
dashboard chart draws one label per entry of the dataset; the placeholder
chart fills four slices and its first four texts are their labels, the
rounded percentages of the `slices` array. -/
theorem pie_labels_on_bisector (M : JsMath ℝ) (hM : M.Exact) (data : List (ChartDatum ℝ))
    (c : Ctx ℝ) (_htotal : Dashboard.total data ≠ 0) (cx cy r : ℝ) (hr : 0 ≤ r) :
    ((texts (emitted (Dashboard.drawPieChart M data) c)).map (fun t => t.2) =
        (filledArcs (emitted (Dashboard.drawPieChart M data) c)).map
          (fun p => (400 + Real.cos (p.1 + (p.2 - p.1) / 2) * 105,
            250 + Real.sin (p.1 + (p.2 - p.1) / 2) * 105)) ∧
      (texts (emitted (Dashboard.drawPieChart M data) c)).length = data.length ∧
      ∀ t ∈ texts (emitted (Dashboard.drawPieChart M data) c),
        Real.sqrt (sqDist t.2 (400, 250)) = 105) ∧
    (((texts (emitted (Placeholder.drawPieChart M cx cy r) c)).take 4).map (fun t => t.2) =
        (filledArcs (emitted (Placeholder.drawPieChart M cx cy r) c)).map
          (fun p => (cx + Real.cos (p.1 + (p.2 - p.1) / 2) * (1.3 * r),
            cy + Real.sin (p.1 + (p.2 - p.1) / 2) * (1.3 * r))) ∧
      (filledArcs (emitted (Placeholder.drawPieChart M cx cy r) c)).length = 4 ∧
      ((texts (emitted (Placeholder.drawPieChart M cx cy r) c)).take 4).length = 4 ∧
      ((texts (emitted (Placeholder.drawPieChart M cx cy r) c)).take 4).map (fun t => t.1) =
        Placeholder.pieSlices.map (fun s : ℝ => toString (jsRound (s * 100)) ++ "%") ∧
      ∀ t ∈ (texts (emitted (Placeholder.drawPieChart M cx cy r) c)).take 4,
        Real.sqrt (sqDist t.2 (cx, cy)) = 1.3 * r) := by
  obtain ⟨-, hcos, hsin, -⟩ := hM
  have hd : (texts (emitted (Dashboard.drawPieChart M data) c)).map (fun t => t.2) =
      (filledArcs (emitted (Dashboard.drawPieChart M data) c)).map
        (fun p => (400 + Real.cos (p.1 + (p.2 - p.1) / 2) * 105,
          250 + Real.sin (p.1 + (p.2 - p.1) / 2) * 105)) := by
    rw [Dashboard.drawPieChart_emitted, label_points_piePaints, hcos, hsin]
    refine List.map_congr_left fun p _ => ?_
    norm_num
  have hp : ((texts (emitted (Placeholder.drawPieChart M cx cy r) c)).take 4).map
      (fun t => t.2) =
      (filledArcs (emitted (Placeholder.drawPieChart M cx cy r) c)).map
        (fun p => (cx + Real.cos (p.1 + (p.2 - p.1) / 2) * (1.3 * r),
          cy + Real.sin (p.1 + (p.2 - p.1) / 2) * (1.3 * r))) := by
    rw [label_points_placeholder, hcos, hsin]
    refine List.map_congr_left fun p _ => ?_
    rw [mul_comm r 1.3]
  have hlen : ((texts (emitted (Placeholder.drawPieChart M cx cy r) c)).take 4).length = 4 := by
    have h := congrArg List.length hp
    rw [List.length_map, List.length_map, filledArcs_placeholder_drawPieChart] at h
    exact h
  refine ⟨⟨hd, ?_, ?_⟩, hp, ?_, hlen, label_texts_placeholder M cx cy r c, ?_⟩
  · have := congrArg List.length (texts_piePaints M (800 / 2) 250 150 (Dashboard.total data)
      (Dashboard.total64 data) c.globalAlpha c.lineDash c.textBaseline data 0)
    rw [Dashboard.drawPieChart_emitted]
    simpa using this
  · intro t ht
    have hmem : t.2 ∈ (texts (emitted (Dashboard.drawPieChart M data) c)).map (fun t => t.2) :=
      List.mem_map_of_mem _ ht
    rw [hd] at hmem
    obtain ⟨p, -, hp2⟩ := List.mem_map.1 hmem
    rw [← hp2]
    exact dist_on_ray 400 250 _ 105 (by norm_num)
  · rw [filledArcs_placeholder_drawPieChart]
    rfl
  · intro t ht
    have hmem : t.2 ∈ ((texts (emitted (Placeholder.drawPieChart M cx cy r) c)).take 4).map
        (fun t => t.2) := List.mem_map_of_mem _ ht
    rw [hp] at hmem
    obtain ⟨p, -, hp2⟩ := List.mem_map.1 hmem
    rw [← hp2]
    exact dist_on_ray cx cy _ (1.3 * r) (by positivity)

/-- C11 at the dataset `[74.9, 10.2, 10.1, 4.9]` and at the placeholder pie of
radius 120 around `(400, 220)`: four labels each, 105 and 156 away from the
centres, those of the placeholder pie reading 45%, 25%, 15% and 15%. -/
theorem pie_labels_on_bisector_witness :
    Dashboard.total (Dashboard.appointmentStatusData : List (ChartDatum ℝ)) ≠ 0 ∧
      (0 : ℝ) ≤ 120 ∧
      (texts (emitted (Dashboard.drawPieChart
          ⟨Real.pi, Real.cos, Real.sin, fun y x => Complex.arg ⟨x, y⟩⟩
          (Dashboard.appointmentStatusData : List (ChartDatum ℝ))) freshCtx)).length = 4 ∧
      (∀ t ∈ texts (emitted (Dashboard.drawPieChart
          ⟨Real.pi, Real.cos, Real.sin, fun y x => Complex.arg ⟨x, y⟩⟩
          (Dashboard.appointmentStatusData : List (ChartDatum ℝ))) freshCtx),
        Real.sqrt (sqDist t.2 (400, 250)) = 105) ∧
      ((texts (emitted (Placeholder.drawPieChart
          (⟨Real.pi, Real.cos, Real.sin, fun y x => Complex.arg ⟨x, y⟩⟩ : JsMath ℝ)
          400 220 120) freshCtx)).take 4).map (fun t => t.1) = ["45%", "25%", "15%", "15%"] ∧
      ∀ t ∈ (texts (emitted (Placeholder.drawPieChart
          (⟨Real.pi, Real.cos, Real.sin, fun y x => Complex.arg ⟨x, y⟩⟩ : JsMath ℝ)
          400 220 120) freshCtx)).take 4,
        Real.sqrt (sqDist t.2 (400, 220)) = 156 := by
  have ht : Dashboard.total (Dashboard.appointmentStatusData : List (ChartDatum ℝ)) ≠ 0 := by
    norm_num [Dashboard.total, Dashboard.appointmentStatusData]
  have h := pie_labels_on_bisector ⟨Real.pi, Real.cos, Real.sin, fun y x => Complex.arg ⟨x, y⟩⟩
    ⟨rfl, rfl, rfl, rfl⟩ Dashboard.appointmentStatusData freshCtx ht 400 220 120 (by norm_num)
  have hj : ∀ (x : ℝ) (n : Int), (n : ℝ) ≤ x + 1 / 2 → x + 1 / 2 < n + 1 → jsRound x = n :=
    fun x n h1 h2 => Int.floor_eq_iff.2 ⟨h1, h2⟩
  refine ⟨ht, by norm_num, h.1.2.1, h.1.2.2, ?_, fun t ht2 => ?_⟩
  · rw [h.2.2.2.2.1]
    simp only [Placeholder.pieSlices, List.map_cons, List.map_nil]
    rw [hj (0.45 * 100) 45 (by norm_num) (by norm_num),
      hj (0.25 * 100) 25 (by norm_num) (by norm_num),
      hj (0.15 * 100) 15 (by norm_num) (by norm_num)]
    decide
  · rw [h.2.2.2.2.2 t ht2]
    norm_num

end PieLabelPositions

/-! ### Grid lines of the dashboard bar chart -/

section GridLines

variable {K : Type} [LinearOrderedField K] [FloorRing K]

theorem strokedPaths_barsPaints (sx m alpha : K) (dash : List K) (baseline : String)
    (ds : List (ChartDatum K)) :
    ∀ i : Nat, strokedPaths (Dashboard.barsPaints sx m alpha dash baseline i ds) = [] := by
  induction ds with
  | nil => intro i; simp [Dashboard.barsPaints]
  | cons d rest ih =>
    intro i
    simp [Dashboard.barsPaints, Dashboard.barPaints, ih]

omit [FloorRing K] in
theorem map_mapIdx_forget {α β γ : Type} (g : β → γ) (h : α → γ) (l : List α) :
    ∀ f : Nat → α → β, (∀ i d, g (f i d) = h d) → (l.mapIdx f).map g = l.map h := by
  induction l with
  | nil => intro f _; simp
  | cons d rest ih =>
    intro f hf
    rw [List.mapIdx_cons, List.map_cons, List.map_cons, hf, ih _ (fun i e => hf (i + 1) e)]

theorem toFixed1_zero : toFixed1 (0 : K) = "0.0" := by
  rw [toFixed1_eq (0 : K) 0 le_rfl (by norm_num) (by norm_num)]
  decide

/-- C12. For a dataset with positive maximum `maxValue` the dashboard
`drawBarChart` strokes, after the axes, exactly six horizontal grid lines, at
`y = 400 - 60 i` for `i = 0..5`, and labels the i-th with
`(maxValue * i / 5).toFixed(1)` as the script computes it, the product and the
quotient rounded to binary64 and `maxValue` the largest of the doubles of the
values.  `maxValue` is the largest value of the dataset and is attained.  On
the linear scale that puts value 0 at `y = 400` and `maxValue` at `y = 100`,
grid line `i` lies at the position of `maxValue * i / 5` (the line labelled
`0.0` on the base line, the line of `maxValue` at `y = 100`) and the top of
every bar lies at the position of the bar's value: no bar top is above
`y = 100` and the bar of the maximum has its top at `y = 100`. -/
theorem drawBarChart_gridlines (data : List (ChartDatum K)) (c : Ctx K) (m m64 : K)
    (hmax : Dashboard.maxValue data = some m) (hpos : 0 < m)
    (hmax64 : Dashboard.maxValue (Dashboard.doubles data) = some m64) :
    strokedPaths (emitted (Dashboard.drawBarChart data) c) =
        [PathOp.moveTo (Dashboard.startX data - 20) 100,
          PathOp.lineTo (Dashboard.startX data - 20) 400,
          PathOp.lineTo (800 - Dashboard.startX data + 20) 400] ::
        (List.range 6).map (fun (i : Nat) =>
          [PathOp.moveTo (Dashboard.startX data - 20) (400 - 60 * (i : K)),
           PathOp.lineTo (800 - Dashboard.startX data + 20) (400 - 60 * (i : K))]) ∧
      (texts (emitted (Dashboard.drawBarChart data) c)).take 6 =
        (List.range 6).map (fun (i : Nat) =>
          (toFixed1 (fl (fl (m64 * (i : K)) / 5)), Dashboard.startX data - 25,
            400 - 60 * (i : K) + 5)) ∧
      ((∀ d ∈ data, fl d.value ≤ m64) ∧ ∃ d ∈ data, fl d.value = m64) ∧
      ((∀ d ∈ data, d.value ≤ m) ∧ ∃ d ∈ data, d.value = m) ∧
      (∀ i : Nat, Dashboard.yOfValue m (m * (i : K) / 5) = 400 - 60 * (i : K)) ∧
      toFixed1 (fl (fl (m64 * ((0 : Nat) : K)) / 5)) = "0.0" ∧ m * ((5 : Nat) : K) / 5 = m ∧
      Dashboard.yOfValue m 0 = 400 ∧ Dashboard.yOfValue m m = 100 ∧
      (filledRects (emitted (Dashboard.drawBarChart data) c)).map (fun r => r.2.1) =
        data.map (fun d => Dashboard.yOfValue m d.value) ∧
      (∀ y ∈ (filledRects (emitted (Dashboard.drawBarChart data) c)).map (fun r => r.2.1),
        100 ≤ y) ∧
      (100 : K) ∈ (filledRects (emitted (Dashboard.drawBarChart data) c)).map
        (fun r => r.2.1) := by
  have hne : m ≠ 0 := hpos.ne'
  have hspec := Dashboard.maxValue_spec data m hmax
  have hspec64 := Dashboard.maxValue_spec (Dashboard.doubles data) m64 hmax64
  have htop : Dashboard.yOfValue m m = 100 := by
    unfold Dashboard.yOfValue
    rw [mul_div_assoc, div_self hne]
    norm_num
  have hys : (filledRects (emitted (Dashboard.drawBarChart data) c)).map (fun r => r.2.1) =
      data.map (fun d => Dashboard.yOfValue m d.value) := by
    rw [Dashboard.filledRects_drawBarChart, hmax]
    refine map_mapIdx_forget _ _ data _ (fun i d => ?_)
    simp only [Option.getD_some, Dashboard.barHeight, Dashboard.yOfValue]
    ring
  refine ⟨?_, ?_, ⟨?_, ?_⟩, hspec, ?_, ?_, ?_, ?_, htop, hys, ?_, ?_⟩
  · rw [Dashboard.drawBarChart_emitted]
    simp only [Dashboard.axesPaint, strokedPaths_stroke, strokedPaths_append,
      strokedPaths_barsPaints, List.append_nil, List.cons.injEq, true_and]
    simp [List.range, List.range.loop, Dashboard.gridPaints]
    norm_num
  · rw [Dashboard.drawBarChart_emitted, hmax64]
    simp [List.range, List.range.loop, Dashboard.gridPaints, Dashboard.axesPaint,
      Dashboard.yAxisLabel]
    norm_num
  · intro d hd
    exact hspec64.1 { d with value := fl d.value } (List.mem_map.2 ⟨d, hd, rfl⟩)
  · obtain ⟨e, he, hv⟩ := hspec64.2
    obtain ⟨d, hd, rfl⟩ := List.mem_map.1 he
    exact ⟨d, hd, hv⟩
  · intro i
    unfold Dashboard.yOfValue
    field_simp
    ring
  · simp [fl_zero, toFixed1_zero]
  · simp
  · simp [Dashboard.yOfValue]
  · intro y hy
    rw [hys] at hy
    obtain ⟨d, hd, rfl⟩ := List.mem_map.1 hy
    have hle := hspec.1 d hd
    unfold Dashboard.yOfValue
    have : 300 * d.value / m ≤ 300 := by
      rw [div_le_iff₀ hpos]; linarith
    linarith
  · rw [hys]
    obtain ⟨d, hd, hv⟩ := hspec.2
    exact List.mem_map.2 ⟨d, hd, by rw [hv, htop]⟩

/-- C12 at the wait-time dataset, whose maximum is 14.17, stored as the double
next below it: the six grid lines are labelled 0.0, 2.8, 5.7, 8.5, 11.3 and
14.2 and lie at y = 400, 340, ..., 100. -/
theorem drawBarChart_gridlines_witness :
    Dashboard.maxValue (Dashboard.waitTimeData : List (ChartDatum ℚ)) = some 14.17 ∧
      (0 : ℚ) < 14.17 ∧
      Dashboard.maxValue (Dashboard.doubles (Dashboard.waitTimeData : List (ChartDatum ℚ))) =
        some (7977000839979991 / 562949953421312) ∧
      ((texts (emitted (Dashboard.drawBarChart (Dashboard.waitTimeData : List (ChartDatum ℚ)))
          freshCtx)).take 6).map (fun t => (t.1, t.2.2 - 5)) =
        [("0.0", 400), ("2.8", 340), ("5.7", 280), ("8.5", 220), ("11.3", 160),
         ("14.2", 100)] := by
  have hm : Dashboard.maxValue (Dashboard.waitTimeData : List (ChartDatum ℚ)) = some 14.17 := by
    norm_num [Dashboard.maxValue, Dashboard.waitTimeData]
  have e1 : fl (14.17 : ℚ) = 7977000839979991 / 562949953421312 :=
    fl_eq _ _ (3) 7977000839979991 (by norm_num) (by norm_num) (by norm_num) (by norm_num)
      (by norm_num) (by norm_num)
  have e2 : fl (14.04 : ℚ) = 1975954336508805 / 140737488355328 :=
    fl_eq _ _ (3) 7903817346035220 (by norm_num) (by norm_num) (by norm_num) (by norm_num)
      (by norm_num) (by norm_num)
  have e3 : fl (13.91 : ℚ) = 3915316926045225 / 281474976710656 :=
    fl_eq _ _ (3) 7830633852090450 (by norm_num) (by norm_num) (by norm_num) (by norm_num)
      (by norm_num) (by norm_num)
  have e4 : fl (13.60 : ℚ) = 7656119366529843 / 562949953421312 :=
    fl_eq _ _ (3) 7656119366529843 (by norm_num) (by norm_num) (by norm_num) (by norm_num)
      (by norm_num) (by norm_num)
  have e5 : fl (7977000839979991 / 562949953421312 * ((0 : Nat) : ℚ) : ℚ) = 0 := by
    rw [show (7977000839979991 / 562949953421312 * ((0 : Nat) : ℚ) : ℚ) = 0 by norm_num]; exact
        fl_zero
  have e6 : fl (0 / 5 : ℚ) = 0 := by
    rw [show (0 / 5 : ℚ) = 0 by norm_num]; exact fl_zero
  have e7 : fl (7977000839979991 / 562949953421312 * ((1 : Nat) : ℚ) : ℚ) = 7977000839979991 /
      562949953421312 :=
    fl_eq _ _ (3) 7977000839979991 (by norm_num) (by norm_num) (by norm_num) (by norm_num)
      (by norm_num) (by norm_num)
  have e8 : fl ((7977000839979991 / 562949953421312) / 5 : ℚ) = 6381600671983993 /
      2251799813685248 :=
    fl_eq _ _ (1) 6381600671983993 (by norm_num) (by norm_num) (by norm_num) (by norm_num)
      (by norm_num) (by norm_num)
  have e9 : fl (7977000839979991 / 562949953421312 * ((2 : Nat) : ℚ) : ℚ) = 7977000839979991 /
      281474976710656 :=
    fl_eq _ _ (4) 7977000839979991 (by norm_num) (by norm_num) (by norm_num) (by norm_num)
      (by norm_num) (by norm_num)
  have e10 : fl ((7977000839979991 / 281474976710656) / 5 : ℚ) = 6381600671983993 /
      1125899906842624 :=
    fl_eq _ _ (2) 6381600671983993 (by norm_num) (by norm_num) (by norm_num) (by norm_num)
      (by norm_num) (by norm_num)
  have e11 : fl (7977000839979991 / 562949953421312 * ((3 : Nat) : ℚ) : ℚ) = 5982750629984993 /
      140737488355328 :=
    fl_eq _ _ (5) 5982750629984993 (by norm_num) (by norm_num) (by norm_num) (by norm_num)
      (by norm_num) (by norm_num)
  have e12 : fl ((5982750629984993 / 140737488355328) / 5 : ℚ) = 2393100251993997 /
      281474976710656 :=
    fl_eq _ _ (3) 4786200503987994 (by norm_num) (by norm_num) (by norm_num) (by norm_num)
      (by norm_num) (by norm_num)
  have e13 : fl (7977000839979991 / 562949953421312 * ((4 : Nat) : ℚ) : ℚ) = 7977000839979991 /
      140737488355328 :=
    fl_eq _ _ (5) 7977000839979991 (by norm_num) (by norm_num) (by norm_num) (by norm_num)
      (by norm_num) (by norm_num)
  have e14 : fl ((7977000839979991 / 140737488355328) / 5 : ℚ) = 6381600671983993 /
      562949953421312 :=
    fl_eq _ _ (3) 6381600671983993 (by norm_num) (by norm_num) (by norm_num) (by norm_num)
      (by norm_num) (by norm_num)
  have e15 : fl (7977000839979991 / 562949953421312 * ((5 : Nat) : ℚ) : ℚ) = 2492812762493747 /
      35184372088832 :=
    fl_eq _ _ (6) 4985625524987494 (by norm_num) (by norm_num) (by norm_num) (by norm_num)
      (by norm_num) (by norm_num)
  have e16 : fl ((2492812762493747 / 35184372088832) / 5 : ℚ) = 3988500419989995 / 281474976710656
      :=
    fl_eq _ _ (3) 7977000839979990 (by norm_num) (by norm_num) (by norm_num) (by norm_num)
      (by norm_num) (by norm_num)
  have hm64 : Dashboard.maxValue
      (Dashboard.doubles (Dashboard.waitTimeData : List (ChartDatum ℚ))) =
        some (7977000839979991 / 562949953421312) := by
    simp only [Dashboard.doubles, Dashboard.waitTimeData, List.map_cons, List.map_nil,
      e1, e2, e3, e4]
    norm_num [Dashboard.maxValue]
  refine ⟨hm, by norm_num, hm64, ?_⟩
  rw [(drawBarChart_gridlines Dashboard.waitTimeData freshCtx 14.17 _ hm (by norm_num)
    hm64).2.1]
  simp only [List.range, List.range.loop, List.map_cons, List.map_nil, e5, e6, e7, e8, e9, e10,
      e11, e12, e13, e14, e15, e16]
  rw [toFixed1_eq (0 : ℚ) 0 (by norm_num) (by norm_num) (by norm_num),
    toFixed1_eq (6381600671983993 / 2251799813685248 : ℚ) 28 (by norm_num) (by norm_num) (by
        norm_num),
    toFixed1_eq (6381600671983993 / 1125899906842624 : ℚ) 57 (by norm_num) (by norm_num) (by
        norm_num),
    toFixed1_eq (2393100251993997 / 281474976710656 : ℚ) 85 (by norm_num) (by norm_num) (by
        norm_num),
    toFixed1_eq (6381600671983993 / 562949953421312 : ℚ) 113 (by norm_num) (by norm_num) (by
        norm_num),
    toFixed1_eq (3988500419989995 / 281474976710656 : ℚ) 142 (by norm_num) (by norm_num) (by
        norm_num)]
  norm_num
  decide

/-- The first grid line of a chart whose largest value is 0.75: the quotient
`0.75 * 1 / 5` is the double next below 0.15 and the label is 0.1. -/
theorem yAxisLabel_below_tie : Dashboard.yAxisLabel (some (0.75 : ℚ)) 1 = "0.1" := by
  have e1 : fl (0.75 * ((1 : Nat) : ℚ) : ℚ) = 3 / 4 :=
    fl_eq _ _ (-1) 6755399441055744 (by norm_num) (by norm_num) (by norm_num) (by norm_num)
      (by norm_num) (by norm_num)
  have e2 : fl ((3 / 4) / 5 : ℚ) = 5404319552844595 / 36028797018963968 :=
    fl_eq _ _ (-3) 5404319552844595 (by norm_num) (by norm_num) (by norm_num) (by norm_num)
      (by norm_num) (by norm_num)
  simp only [Dashboard.yAxisLabel, e1, e2]
  rw [toFixed1_eq (5404319552844595 / 36028797018963968 : ℚ) 1 (by norm_num) (by norm_num) (by
      norm_num)]
  decide

end GridLines

/-! ### Dashed arrows against solid arrows -/

section DashedArrows

variable {K : Type} [LinearOrderedField K]

/-- C13. For all coordinates, `drawDashedArrow` paints what `drawArrow` paints
in a context whose line dash is `[5, 3]`: the same shaft segment, stroked with
dash `[5, 3]`, and an arrowhead with the same three vertices; the arrowhead is
built and filled from a context in which the shaft has been stroked and the
dash is `[]` again, and apart from that dash the two routines leave the same
context.  The same holds for `drawDashedArchitectureArrow` against
`drawArchitectureArrow`. -/
theorem dashed_arrow_refines_arrow (M : JsMath K) (x1 y1 x2 y2 : K) (c : Ctx K) :
    (emitted (AwsDiagram.drawDashedArrow M x1 y1 x2 y2) c =
        emitted (AwsDiagram.drawArrow M x1 y1 x2 y2) { c with lineDash := [5, 3] } ∧
      strokedPaths (emitted (AwsDiagram.drawDashedArrow M x1 y1 x2 y2) c) =
        [[PathOp.moveTo x1 y1, PathOp.lineTo x2 y2]] ∧
      filledPaths (emitted (AwsDiagram.drawDashedArrow M x1 y1 x2 y2) c) =
        filledPaths (emitted (AwsDiagram.drawArrow M x1 y1 x2 y2) c) ∧
      AwsDiagram.drawDashedArrow M x1 y1 x2 y2 c =
        { AwsDiagram.drawArrow M x1 y1 x2 y2 { c with lineDash := [5, 3] } with
          lineDash := [] } ∧
      ∃ c₁ : Ctx K, c₁.lineDash = [] ∧
        c₁.out = c.out ++ [Paint.stroke [PathOp.moveTo x1 y1, PathOp.lineTo x2 y2]
          (.color "#555555") 1.5 [5, 3] c.globalAlpha] ∧
        AwsDiagram.drawDashedArrow M x1 y1 x2 y2 c =
          (c₁ |> beginPath
              |> moveTo x2 y2
              |> lineTo (x2 - 10 * M.cos (M.atan2 (y2 - y1) (x2 - x1) - M.pi / 6))
                  (y2 - 10 * M.sin (M.atan2 (y2 - y1) (x2 - x1) - M.pi / 6))
              |> lineTo (x2 - 10 * M.cos (M.atan2 (y2 - y1) (x2 - x1) + M.pi / 6))
                  (y2 - 10 * M.sin (M.atan2 (y2 - y1) (x2 - x1) + M.pi / 6))
              |> closePath
              |> setFillStyle (.color "#555555")
              |> fill)) ∧
    (emitted (Placeholder.drawDashedArchitectureArrow M x1 y1 x2 y2) c =
        emitted (Placeholder.drawArchitectureArrow M x1 y1 x2 y2) { c with lineDash := [5, 3] } ∧
      strokedPaths (emitted (Placeholder.drawDashedArchitectureArrow M x1 y1 x2 y2) c) =
        [[PathOp.moveTo x1 y1, PathOp.lineTo x2 y2]] ∧
      filledPaths (emitted (Placeholder.drawDashedArchitectureArrow M x1 y1 x2 y2) c) =
        filledPaths (emitted (Placeholder.drawArchitectureArrow M x1 y1 x2 y2) c) ∧
      Placeholder.drawDashedArchitectureArrow M x1 y1 x2 y2 c =
        { Placeholder.drawArchitectureArrow M x1 y1 x2 y2 { c with lineDash := [5, 3] } with
          lineDash := [] } ∧
      ∃ c₁ : Ctx K, c₁.lineDash = [] ∧
        c₁.out = c.out ++ [Paint.stroke [PathOp.moveTo x1 y1, PathOp.lineTo x2 y2]
          (.color "white") 1.5 [5, 3] c.globalAlpha] ∧
        Placeholder.drawDashedArchitectureArrow M x1 y1 x2 y2 c =
          (c₁ |> beginPath
              |> moveTo x2 y2
              |> lineTo (x2 - 10 * M.cos (M.atan2 (y2 - y1) (x2 - x1) - M.pi / 6))
                  (y2 - 10 * M.sin (M.atan2 (y2 - y1) (x2 - x1) - M.pi / 6))
              |> lineTo (x2 - 10 * M.cos (M.atan2 (y2 - y1) (x2 - x1) + M.pi / 6))
                  (y2 - 10 * M.sin (M.atan2 (y2 - y1) (x2 - x1) + M.pi / 6))
              |> closePath
              |> setFillStyle (.color "white")
              |> fill)) := by
  refine ⟨⟨?_, ?_, ?_, ?_, ?_⟩, ?_, ?_, ?_, ?_, ?_⟩
  · simp [emitted, AwsDiagram.drawDashedArrow, AwsDiagram.drawArrow, setFillStyle,
      setStrokeStyle, setLineWidth, setLineDash, beginPath, moveTo, lineTo, closePath, fill,
      stroke]
  · simp [emitted, AwsDiagram.drawDashedArrow, setFillStyle,
      setStrokeStyle, setLineWidth, setLineDash, beginPath, moveTo, lineTo, closePath, fill,
      stroke]
  · simp [emitted, AwsDiagram.drawDashedArrow, AwsDiagram.drawArrow, setFillStyle,
      setStrokeStyle, setLineWidth, setLineDash, beginPath, moveTo, lineTo, closePath, fill,
      stroke]
  · rfl
  · exact ⟨_, rfl, rfl, rfl⟩
  · simp [emitted, Placeholder.drawDashedArchitectureArrow, Placeholder.drawArchitectureArrow,
      setFillStyle, setStrokeStyle, setLineWidth, setLineDash, beginPath, moveTo, lineTo,
      closePath, fill, stroke]
  · simp [emitted, Placeholder.drawDashedArchitectureArrow, setFillStyle,
      setStrokeStyle, setLineWidth, setLineDash, beginPath, moveTo, lineTo, closePath, fill,
      stroke]
  · simp [emitted, Placeholder.drawDashedArchitectureArrow, Placeholder.drawArchitectureArrow,
      setFillStyle, setStrokeStyle, setLineWidth, setLineDash, beginPath, moveTo, lineTo,
      closePath, fill, stroke]
  · rfl
  · exact ⟨_, rfl, rfl, rfl⟩

end DashedArrows

/-! ### What the helpers leave in the context -/

section ContextOnReturn

variable {K : Type} [LinearOrderedField K]

/-- C14. Whatever the context was on entry: `drawLayer`, `drawComponent`,
`drawArchitectureLayer` and `drawArchitectureComponent` return with
`globalAlpha` equal to 1; `drawDashedArrow` and `drawDashedArchitectureArrow`
return with the line dash `[]`; font and alignment are left at the last value
the helper set (`bold 16px Arial` and `left` by the layer helpers, `14px Arial`
and `center` by the component helpers), and the dashed-arrow helpers, which set
neither, leave them as they were. -/
theorem helpers_context_on_return (M : JsMath K) (name color : String) (x y x1 y1 x2 y2 : K)
    (c : Ctx K) :
    ((AwsDiagram.drawLayer name y color c).globalAlpha = 1 ∧
      (AwsDiagram.drawComponent name x y color c).globalAlpha = 1 ∧
      (Placeholder.drawArchitectureLayer name y color c).globalAlpha = 1 ∧
      (Placeholder.drawArchitectureComponent name x y color c).globalAlpha = 1) ∧
    ((AwsDiagram.drawDashedArrow M x1 y1 x2 y2 c).lineDash = [] ∧
      (Placeholder.drawDashedArchitectureArrow M x1 y1 x2 y2 c).lineDash = []) ∧
    ((AwsDiagram.drawLayer name y color c).font = "bold 16px Arial" ∧
      (AwsDiagram.drawLayer name y color c).textAlign = "left" ∧
      (AwsDiagram.drawComponent name x y color c).font = "14px Arial" ∧
      (AwsDiagram.drawComponent name x y color c).textAlign = "center" ∧
      (Placeholder.drawArchitectureLayer name y color c).font = "bold 16px Arial" ∧
      (Placeholder.drawArchitectureLayer name y color c).textAlign = "left" ∧
      (Placeholder.drawArchitectureComponent name x y color c).font = "14px Arial" ∧
      (Placeholder.drawArchitectureComponent name x y color c).textAlign = "center") ∧
    ((AwsDiagram.drawDashedArrow M x1 y1 x2 y2 c).font = c.font ∧
      (AwsDiagram.drawDashedArrow M x1 y1 x2 y2 c).textAlign = c.textAlign ∧
      (Placeholder.drawDashedArchitectureArrow M x1 y1 x2 y2 c).font = c.font ∧
      (Placeholder.drawDashedArchitectureArrow M x1 y1 x2 y2 c).textAlign = c.textAlign) := by
  have h1 : (1.0 : K) = 1 := by norm_num
  refine ⟨⟨?_, ?_, ?_, ?_⟩, ⟨rfl, rfl⟩, ⟨rfl, rfl, rfl, rfl, rfl, rfl, rfl, rfl⟩,
    ⟨rfl, rfl, rfl, rfl⟩⟩
  · exact h1
  · exact h1
  · exact h1
  · exact h1

end ContextOnReturn

/-! ### The architecture diagram of the placeholder script -/

section ArchitectureSubstitution

/-- An image that carries a data URL is selected by no `createPlaceholderImage`. -/
theorem foldl_save_keeps_dataUrl (urlOf : String → String) (l : List Placeholder.ImageSpec) :
    ∀ (doc : List Img) (i : Nat) (im : Img), doc[i]? = some im →
      isPngDataUrl im.src = true →
      (l.foldl (fun doc image => Placeholder.createPlaceholderImage.save (urlOf image.id)
        image.id image.title doc) doc)[i]? = some im := by
  induction l with
  | nil => intro doc i im h _; exact h
  | cons s rest ih =>
    intro doc i im h hu
    rw [List.foldl_cons]
    refine ih _ i im ?_ hu
    rw [createPlaceholderImage_save_getElem? _ _ _ doc i im h, dataUrl_not_includes _ _ hu]
    rfl

/-- After a run of `createPlaceholderImage` calls an image of the old document
carries the data URL of the first call that selected it, or is as it was. -/
theorem foldl_save_getElem? (urlOf : String → String)
    (hurl : ∀ id, isPngDataUrl (urlOf id) = true) (l : List Placeholder.ImageSpec) :
    ∀ (doc : List Img) (i : Nat) (im : Img), doc[i]? = some im →
      (l.foldl (fun doc image => Placeholder.createPlaceholderImage.save (urlOf image.id)
        image.id image.title doc) doc)[i]? =
        some (match l.find? (fun s => jsIncludes im.src (s.id ++ ".png")) with
          | some s => { im with src := urlOf s.id }
          | none => im) := by
  induction l with
  | nil => intro doc i im h; exact h
  | cons s rest ih =>
    intro doc i im h
    rw [List.foldl_cons]
    have h1 := createPlaceholderImage_save_getElem? (urlOf s.id) s.id s.title doc i im h
    by_cases hs : jsIncludes im.src (s.id ++ ".png") = true
    · rw [if_pos hs] at h1
      rw [foldl_save_keeps_dataUrl urlOf rest _ i _ h1 (hurl _)]
      simp [List.find?, hs]
    · rw [if_neg hs] at h1
      rw [ih _ i im h1]
      simp [List.find?, hs]

/-- What the end of `createArchitectureDiagram` does to the image at a position
of the old document. -/
theorem createArchitectureDiagram_save_getElem? (url : String) (doc : List Img)
    (i : Nat) (im : Img) (h : doc[i]? = some im) :
    (Placeholder.createArchitectureDiagram.save url doc)[i]? =
      some (if jsIncludes im.src "architecture_diagram.png" then { im with src := url }
        else im) := by
  have hi : i < doc.length := (List.getElem?_eq_some_iff.1 h).1
  simp only [Placeholder.createArchitectureDiagram.save, List.getElem?_map,
    List.getElem?_append_left hi, h, Option.map_some']

/-- C15, as the code has it.  Within `generatePlaceholderImages`, whose canvas
exports are PNG data URLs, `createArchitectureDiagram` changes no image that
was in the document when the generator started.  An image whose `src`
contained `architecture_diagram.png` and none of the five file names the
earlier `createPlaceholderImage` calls look for ends with the data URL of the
generic placeholder drawn for `architecture_diagram`; so do in particular
`assets/aws_architecture_diagram.png` and `assets/architecture_diagram.png`. -/
theorem architecture_diagram_never_substituted (urlOf : String → String) (archUrl : String)
    (hurl : ∀ id, isPngDataUrl (urlOf id) = true) (doc : List Img) (i : Nat) (im : Img)
    (h : doc[i]? = some im) :
    (Placeholder.generatePlaceholderImages urlOf archUrl doc)[i]? =
        (Placeholder.generatePlaceholderImages.placeholders urlOf doc)[i]? ∧
      (jsIncludes im.src "architecture_diagram.png" = true →
        jsIncludes im.src "overview.png" = false →
        jsIncludes im.src "appointment_status_chart.png" = false →
        jsIncludes im.src "wait_time_chart.png" = false →
        jsIncludes im.src "provider_rating_chart.png" = false →
        jsIncludes im.src "technical_issues_chart.png" = false →
        (Placeholder.generatePlaceholderImages urlOf archUrl doc)[i]? =
          some { im with src := urlOf "architecture_diagram" }) ∧
      (im.src = "assets/aws_architecture_diagram.png" ∨
          im.src = "assets/architecture_diagram.png" →
        (Placeholder.generatePlaceholderImages urlOf archUrl doc)[i]? =
          some { im with src := urlOf "architecture_diagram" }) := by
  have h6 := foldl_save_getElem? urlOf hurl Placeholder.images doc i im h
  have hkeep : (Placeholder.generatePlaceholderImages urlOf archUrl doc)[i]? =
      (Placeholder.generatePlaceholderImages.placeholders urlOf doc)[i]? := by
    unfold Placeholder.generatePlaceholderImages Placeholder.generatePlaceholderImages.placeholders
    rw [createArchitectureDiagram_save_getElem? archUrl _ i _ h6, h6]
    congr 1
    apply if_neg
    cases hf : Placeholder.images.find? (fun s => jsIncludes im.src (s.id ++ ".png")) with
    | some s =>
      have := dataUrl_not_includes (urlOf s.id) "architecture_diagram" (hurl s.id)
      simpa using this
    | none =>
      have hall := List.find?_eq_none.1 hf ⟨"architecture_diagram", "Pipeline Architecture",
        "System architecture diagram"⟩ (by simp [Placeholder.images])
      simpa using hall
  have hgeneric : jsIncludes im.src "architecture_diagram.png" = true →
      jsIncludes im.src "overview.png" = false →
      jsIncludes im.src "appointment_status_chart.png" = false →
      jsIncludes im.src "wait_time_chart.png" = false →
      jsIncludes im.src "provider_rating_chart.png" = false →
      jsIncludes im.src "technical_issues_chart.png" = false →
      (Placeholder.generatePlaceholderImages urlOf archUrl doc)[i]? =
        some { im with src := urlOf "architecture_diagram" } := by
    intro ha h1 h2 h3 h4 h5
    have e1 : "overview" ++ ".png" = "overview.png" := by decide
    have e2 : "appointment_status_chart" ++ ".png" = "appointment_status_chart.png" := by decide
    have e3 : "wait_time_chart" ++ ".png" = "wait_time_chart.png" := by decide
    have e4 : "provider_rating_chart" ++ ".png" = "provider_rating_chart.png" := by decide
    have e5 : "technical_issues_chart" ++ ".png" = "technical_issues_chart.png" := by decide
    have e6 : "architecture_diagram" ++ ".png" = "architecture_diagram.png" := by decide
    rw [hkeep]
    unfold Placeholder.generatePlaceholderImages.placeholders
    rw [h6]
    simp [Placeholder.images, List.find?, e1, e2, e3, e4, e5, e6, ha, h1, h2, h3, h4, h5]
  refine ⟨hkeep, hgeneric, ?_⟩
  rintro (hs | hs)
  · exact hgeneric (by rw [hs]; decide) (by rw [hs]; decide) (by rw [hs]; decide)
      (by rw [hs]; decide) (by rw [hs]; decide) (by rw [hs]; decide)
  · exact hgeneric (by rw [hs]; decide) (by rw [hs]; decide) (by rw [hs]; decide)
      (by rw [hs]; decide) (by rw [hs]; decide) (by rw [hs]; decide)

/-- C15 as stated fails: an image whose `src` contains `architecture_diagram.png`
and also `overview.png` is taken by the first placeholder, drawn for `overview`
(data URL ending in `AAAA`), and does not end with the data URL of the generic
placeholder drawn for `architecture_diagram` (ending in `BBBB`). -/
theorem architecture_placeholder_counterexample :
    jsIncludes "assets/overview.png?v=architecture_diagram.png" "architecture_diagram.png" =
        true ∧
      ((Placeholder.generatePlaceholderImages
          (fun id => if id = "overview" then "data:image/png;base64,AAAA"
            else "data:image/png;base64,BBBB")
          "data:image/png;base64,CCCC"
          [⟨"assets/overview.png?v=architecture_diagram.png", "Architecture", "", "img-fluid",
            ""⟩])[0]?).map (fun im => im.src) = some "data:image/png;base64,AAAA" ∧
      ((Placeholder.generatePlaceholderImages
          (fun id => if id = "overview" then "data:image/png;base64,AAAA"
            else "data:image/png;base64,BBBB")
          "data:image/png;base64,CCCC"
          [⟨"assets/overview.png?v=architecture_diagram.png", "Architecture", "", "img-fluid",
            ""⟩])[0]?).map (fun im => im.src) ≠ some "data:image/png;base64,BBBB" := by
  refine ⟨by decide, by decide, by decide⟩

/-- The amended C15 on a page with the image `assets/aws_architecture_diagram.png`:
it ends with the data URL of the generic placeholder (ending in `BBBB`), not
with that of the architecture diagram (ending in `CCCC`). -/
theorem architecture_diagram_never_substituted_witness :
    (Placeholder.generatePlaceholderImages
        (fun id => if id = "overview" then "data:image/png;base64,AAAA"
          else "data:image/png;base64,BBBB")
        "data:image/png;base64,CCCC"
        [⟨"assets/aws_architecture_diagram.png", "Architecture", "", "img-fluid", ""⟩])[0]? =
      some ⟨"data:image/png;base64,BBBB", "Architecture", "", "img-fluid", ""⟩ :=
  (architecture_diagram_never_substituted
    (fun id => if id = "overview" then "data:image/png;base64,AAAA"
      else "data:image/png;base64,BBBB")
    "data:image/png;base64,CCCC"
    (fun id => by
      by_cases hid : id = "overview"
      · simp only [hid, if_true]
        decide
      · simp only [hid, if_false]
        decide)
    [⟨"assets/aws_architecture_diagram.png", "Architecture", "", "img-fluid", ""⟩] 0 _ rfl).2.2
    (Or.inl rfl)

end ArchitectureSubstitution

/-! ### The random marks stay inside the chart -/

section RandomBounds

variable {K : Type} [LinearOrderedField K] [FloorRing K]

omit [FloorRing K] in
theorem randomHeight_bounds (r height : K) (h0 : 0 ≤ r) (h1 : r < 1) (hh : 0 < height) :
    0.2 * height ≤ Placeholder.randomHeight r height ∧
      Placeholder.randomHeight r height < 0.8 * height := by
  unfold Placeholder.randomHeight
  have hp : 0 ≤ r * height := mul_nonneg h0 hh.le
  have hq : r * height < height := by
    have := mul_lt_mul_of_pos_right h1 hh
    simpa using this
  constructor
  · norm_num
    linarith
  · norm_num
    linarith

omit [FloorRing K] in
theorem randomWidth_bounds (r width : K) (h0 : 0 ≤ r) (h1 : r < 1) (hw : 0 < width) :
    0.1 * width ≤ Placeholder.randomWidth r width ∧
      Placeholder.randomWidth r width < 0.7 * width := by
  unfold Placeholder.randomWidth
  have hp : 0 ≤ r * width := mul_nonneg h0 hw.le
  have hq : r * width < width := by
    have := mul_lt_mul_of_pos_right h1 hw
    simpa using this
  constructor
  · norm_num
    linarith
  · norm_num
    linarith

omit [FloorRing K] in
/-- Slot `i` of `n` equal slots of total length `len`: the mark that starts half
a mark after the start of the slot and is half a slot long stays inside. -/
theorem slot_bounds (len : K) (hlen : 0 < len) (n i : Nat) (hi : i < n) :
    0 ≤ (i : K) * (len / ((n : K) * 2)) * 2 + len / ((n : K) * 2) / 2 ∧
      (i : K) * (len / ((n : K) * 2)) * 2 + len / ((n : K) * 2) / 2 + len / ((n : K) * 2) ≤
        len := by
  have hn : (0 : K) < (n : K) := by
    have : 0 < n := Nat.lt_of_le_of_lt (Nat.zero_le i) hi
    exact_mod_cast this
  have hin : (i : K) + 1 ≤ (n : K) := by exact_mod_cast hi
  have hi0 : (0 : K) ≤ (i : K) := by exact_mod_cast Nat.zero_le i
  set b : K := len / ((n : K) * 2) with hb
  have hbpos : 0 < b := div_pos hlen (by positivity)
  have hlen2 : len = b * ((n : K) * 2) := by
    rw [hb]; field_simp
  constructor
  · positivity
  · have hp : 0 ≤ ((n : K) - (i : K) - 1) * b := mul_nonneg (by linarith) hbpos.le
    nlinarith [hp, hbpos]

/-- C16. For samples in `[0, 1)` and a chart of positive width `w` and height
`h`: every `randomHeight` (bar height of `drawBarChart`, point offset of
`drawLineChart`) lies in `[0.2 h, 0.8 h)` and every `randomWidth` (bar width of
`drawHorizontalBarChart`) in `[0.1 w, 0.7 w)`; every bar that `drawBarChart` and
`drawHorizontalBarChart` fill lies within `[left, left + w] x [top, top + h]`;
and every point of the line `drawLineChart` strokes is between `0.2 h` and
`0.8 h` above the bottom of the chart. -/
theorem placeholder_marks_inside (M : JsMath K) (rnd : Nat → K)
    (hrnd : ∀ i, 0 ≤ rnd i ∧ rnd i < 1) (left top w h : K) (hw : 0 < w) (hh : 0 < h)
    (n : Nat) (c : Ctx K) :
    (∀ i, 0.2 * h ≤ Placeholder.randomHeight (rnd i) h ∧
        Placeholder.randomHeight (rnd i) h < 0.8 * h) ∧
      (∀ i, 0.1 * w ≤ Placeholder.randomWidth (rnd i) w ∧
        Placeholder.randomWidth (rnd i) w < 0.7 * w) ∧
      (∃ rects, filledRects (Placeholder.drawBarChart rnd left top w h n c).out =
          filledRects c.out ++ rects ∧ rects.length = n ∧
        ∀ r ∈ rects, (0.2 * h ≤ r.2.2.2.1 ∧ r.2.2.2.1 < 0.8 * h) ∧
          left ≤ r.1 ∧ r.1 + r.2.2.1 ≤ left + w ∧ top ≤ r.2.1 ∧ r.2.1 + r.2.2.2.1 ≤ top + h) ∧
      (∃ rects, filledRects (Placeholder.drawHorizontalBarChart rnd left top w h n c).out =
          filledRects c.out ++ rects ∧ rects.length = n ∧
        ∀ r ∈ rects, (0.1 * w ≤ r.2.2.1 ∧ r.2.2.1 < 0.7 * w) ∧
          left ≤ r.1 ∧ r.1 + r.2.2.1 ≤ left + w ∧ top ≤ r.2.1 ∧ r.2.1 + r.2.2.2.1 ≤ top + h) ∧
      (∃ path, strokedPaths (Placeholder.drawLineChart M rnd left top w h n c).out =
          strokedPaths c.out ++ [path] ∧ path.length = n ∧
        ∀ op ∈ path, ∃ x y, (op = PathOp.moveTo x y ∨ op = PathOp.lineTo x y) ∧
          0.2 * h ≤ top + h - y ∧ top + h - y < 0.8 * h) := by
  have hH : ∀ i, 0.2 * h ≤ Placeholder.randomHeight (rnd i) h ∧
      Placeholder.randomHeight (rnd i) h < 0.8 * h :=
    fun i => randomHeight_bounds (rnd i) h (hrnd i).1 (hrnd i).2 hh
  have hW : ∀ i, 0.1 * w ≤ Placeholder.randomWidth (rnd i) w ∧
      Placeholder.randomWidth (rnd i) w < 0.7 * w :=
    fun i => randomWidth_bounds (rnd i) w (hrnd i).1 (hrnd i).2 hw
  refine ⟨hH, hW, ⟨_, filledRects_placeholder_drawBarChart rnd left top w h n c, by simp, ?_⟩,
    ⟨_, filledRects_drawHorizontalBarChart rnd left top w h n c, by simp, ?_⟩,
    ⟨_, strokedPaths_drawLineChart M rnd left top w h n c, by simp, ?_⟩⟩
  · intro r hr
    obtain ⟨i, hi, rfl⟩ := List.mem_map.1 hr
    have hin : i < n := List.mem_range.1 hi
    obtain ⟨s1, s2⟩ := slot_bounds w hw n i hin
    obtain ⟨b1, b2⟩ := hH i
    have hh8 : (0.8 : K) * h ≤ h := by
      have : (0.8 : K) * h = h - 0.2 * h := by ring
      rw [this]
      have : (0 : K) ≤ 0.2 * h := by positivity
      linarith
    refine ⟨⟨b1, b2⟩, ?_, ?_, ?_, ?_⟩
    · simp only; linarith
    · simp only; linarith
    · simp only; linarith
    · simp only; linarith
  · intro r hr
    obtain ⟨i, hi, rfl⟩ := List.mem_map.1 hr
    have hin : i < n := List.mem_range.1 hi
    obtain ⟨s1, s2⟩ := slot_bounds h hh n i hin
    obtain ⟨b1, b2⟩ := hW i
    have hw1 : (0 : K) ≤ 0.1 * w := by positivity
    have hw7 : (0.7 : K) * w ≤ w := by
      have : (0.7 : K) * w = w - 0.3 * w := by ring
      rw [this]
      have : (0 : K) ≤ 0.3 * w := by positivity
      linarith
    refine ⟨⟨b1, b2⟩, ?_, ?_, ?_, ?_⟩
    · simp only; linarith
    · simp only; linarith
    · simp only; linarith
    · simp only; linarith
  · intro op hop
    obtain ⟨i, -, rfl⟩ := List.mem_map.1 hop
    obtain ⟨b1, b2⟩ := hH i
    by_cases h0 : i = 0
    · refine ⟨_, _, Or.inl (by rw [if_pos h0]), ?_, ?_⟩
      · linarith
      · linarith
    · refine ⟨_, _, Or.inr (by rw [if_neg h0]), ?_, ?_⟩
      · linarith
      · linarith

/-- C16 on the 500 x 200 chart of the placeholder images with every sample one
half: the four bars are inside the chart. -/
theorem placeholder_marks_inside_witness :
    (0 : ℝ) < 500 ∧ (0 : ℝ) < 200 ∧
      ∃ rects, filledRects (Placeholder.drawBarChart (fun _ => (1 / 2 : ℝ)) 150 200 500 200 4
          freshCtx).out = filledRects (freshCtx : Ctx ℝ).out ++ rects ∧ rects.length = 4 ∧
        ∀ r ∈ rects, (0.2 * 200 ≤ r.2.2.2.1 ∧ r.2.2.2.1 < 0.8 * 200) ∧
          150 ≤ r.1 ∧ r.1 + r.2.2.1 ≤ 150 + 500 ∧ 200 ≤ r.2.1 ∧
          r.2.1 + r.2.2.2.1 ≤ 200 + 200 :=
  ⟨by norm_num, by norm_num,
    (placeholder_marks_inside ⟨Real.pi, Real.cos, Real.sin, fun y x => Complex.arg ⟨x, y⟩⟩
      (fun _ => (1 / 2 : ℝ)) (fun _ => ⟨by norm_num, by norm_num⟩) 150 200 500 200
      (by norm_num) (by norm_num) 4 freshCtx).2.2.1⟩

end RandomBounds

/-! ### Printed values against the axes of the placeholder charts -/

section PrintedValues

variable {K : Type} [LinearOrderedField K] [FloorRing K]

omit [LinearOrderedField K] [FloorRing K] in
/-- A loop whose body adds the list `g i` to a view `proj` of the canvas adds
the `g i` in iteration order. -/
theorem foldl_proj_flat {β : Type} (proj : List (Paint K) → List β)
    (body : Ctx K → Nat → Ctx K) (g : Nat → List β)
    (h : ∀ c i, proj (body c i).out = proj c.out ++ g i) :
    ∀ (l : List Nat) (c : Ctx K), proj (l.foldl body c).out = proj c.out ++ l.flatMap g := by
  intro l
  induction l with
  | nil => intro c; simp
  | cons i rest ih =>
    intro c
    rw [List.foldl_cons, ih, h, List.flatMap_cons, List.append_assoc]

/-- The texts of the placeholder `drawBarChart`: per bar the value and the
name, then the six tick labels. -/
theorem texts_placeholder_drawBarChart (rnd : Nat → K) (left top width height : K)
    (bars : Nat) (c : Ctx K) :
    texts (Placeholder.drawBarChart rnd left top width height bars c).out =
      texts c.out ++ (List.range bars).flatMap (fun (i : Nat) =>
        [(toString (jsRound (Placeholder.randomHeight (rnd i) height / height * 20)) ++ "m",
          left + ((i : K) * (width / ((bars : K) * 2)) * 2) + width / ((bars : K) * 2) / 2 +
            width / ((bars : K) * 2) / 2,
          top + height - Placeholder.randomHeight (rnd i) height - 10),
         (["Mobile", "Desktop", "Tablet", "Other"].getD i "undefined",
          left + ((i : K) * (width / ((bars : K) * 2)) * 2) + width / ((bars : K) * 2) / 2 +
            width / ((bars : K) * 2) / 2,
          top + height + 20)]) ++
      (List.range 6).map (fun (i : Nat) =>
        (toString (i * 5) ++ "m", left - 10, top + height - ((i : K) * height / 5) + 5)) := by
  unfold Placeholder.drawBarChart
  simp only
  rw [foldl_proj texts _ (fun (i : Nat) =>
    (toString (i * 5) ++ "m", left - 10, top + height - ((i : K) * height / 5) + 5))
    (fun c i => by simp [fillText, texts_append])]
  simp only [setFillStyle, setFont, setTextAlign]
  rw [foldl_proj_flat texts _ (fun (i : Nat) =>
        [(toString (jsRound (Placeholder.randomHeight (rnd i) height / height * 20)) ++ "m",
          left + ((i : K) * (width / ((bars : K) * 2)) * 2) + width / ((bars : K) * 2) / 2 +
            width / ((bars : K) * 2) / 2,
          top + height - Placeholder.randomHeight (rnd i) height - 10),
         (["Mobile", "Desktop", "Tablet", "Other"].getD i "undefined",
          left + ((i : K) * (width / ((bars : K) * 2)) * 2) + width / ((bars : K) * 2) / 2 +
            width / ((bars : K) * 2) / 2,
          top + height + 20)])
    (fun c i => by
      simp [Placeholder.drawBarChart.bar, setFillStyle, setFont, setTextAlign, fillRect,
        fillText, texts_append])]

/-- The texts of `drawHorizontalBarChart`: per bar the value and the name, then
the six tick labels. -/
theorem texts_drawHorizontalBarChart (rnd : Nat → K) (left top width height : K)
    (bars : Nat) (c : Ctx K) :
    texts (Placeholder.drawHorizontalBarChart rnd left top width height bars c).out =
      texts c.out ++ (List.range bars).flatMap (fun (i : Nat) =>
        [(toString (jsRound (Placeholder.randomWidth (rnd i) width / width * 30)) ++ "%",
          left + Placeholder.randomWidth (rnd i) width + 10,
          top + ((i : K) * (height / ((bars : K) * 2)) * 2) + height / ((bars : K) * 2) / 2 +
            height / ((bars : K) * 2) / 2 + 5),
         (["Tablet", "Mobile", "Desktop"].getD i "undefined", left - 10,
          top + ((i : K) * (height / ((bars : K) * 2)) * 2) + height / ((bars : K) * 2) / 2 +
            height / ((bars : K) * 2) / 2 + 5)]) ++
      (List.range 6).map (fun (i : Nat) =>
        (toString (i * 6) ++ "%", left + ((i : K) * width / 5), top + height + 20)) := by
  unfold Placeholder.drawHorizontalBarChart
  simp only
  rw [foldl_proj texts _ (fun (i : Nat) =>
    (toString (i * 6) ++ "%", left + ((i : K) * width / 5), top + height + 20))
    (fun c i => by simp [fillText, texts_append])]
  simp only [setFillStyle, setFont, setTextAlign]
  rw [foldl_proj_flat texts _ (fun (i : Nat) =>
        [(toString (jsRound (Placeholder.randomWidth (rnd i) width / width * 30)) ++ "%",
          left + Placeholder.randomWidth (rnd i) width + 10,
          top + ((i : K) * (height / ((bars : K) * 2)) * 2) + height / ((bars : K) * 2) / 2 +
            height / ((bars : K) * 2) / 2 + 5),
         (["Tablet", "Mobile", "Desktop"].getD i "undefined", left - 10,
          top + ((i : K) * (height / ((bars : K) * 2)) * 2) + height / ((bars : K) * 2) / 2 +
            height / ((bars : K) * 2) / 2 + 5)])
    (fun c i => by
      simp [Placeholder.drawHorizontalBarChart.bar, setFillStyle, setFont, setTextAlign,
        fillRect, fillText, texts_append])]

/-- The texts of `drawLineChart`: per point the value and the name, then the six
tick labels. -/
theorem texts_drawLineChart (M : JsMath K) (rnd : Nat → K) (left top width height : K)
    (points : Nat) (c : Ctx K) :
    texts (Placeholder.drawLineChart M rnd left top width height points c).out =
      texts c.out ++ (List.range points).flatMap (fun (i : Nat) =>
        [(toFixed1 (Placeholder.randomHeight (rnd i) height / height * 5),
          left + (i : K) * (width / ((points : K) - 1)),
          top + height - Placeholder.randomHeight (rnd i) height - 15),
         (["Cardio", "Neuro", "Ortho", "Pedia", "General"].getD i "undefined",
          left + (i : K) * (width / ((points : K) - 1)), top + height + 20)]) ++
      (List.range 6).map (fun (i : Nat) =>
        (toString i, left - 10, top + height - ((i : K) * height / 5) + 5)) := by
  unfold Placeholder.drawLineChart
  simp only
  rw [foldl_proj texts _ (fun (i : Nat) =>
    (toString i, left - 10, top + height - ((i : K) * height / 5) + 5))
    (fun c i => by simp [fillText, texts_append])]
  simp only [setFillStyle, setFont, setTextAlign]
  rw [foldl_proj_flat texts _ (fun (i : Nat) =>
        [(toFixed1 (Placeholder.randomHeight (rnd i) height / height * 5),
          left + (i : K) * (width / ((points : K) - 1)),
          top + height - Placeholder.randomHeight (rnd i) height - 15),
         (["Cardio", "Neuro", "Ortho", "Pedia", "General"].getD i "undefined",
          left + (i : K) * (width / ((points : K) - 1)), top + height + 20)])
    (fun c i => by
      simp [setFillStyle, setFont, setTextAlign, beginPath, arc, fill, fillText,
        texts_append])]
  rw [foldl_path _ (fun (i : Nat) =>
        if i = 0 then
          PathOp.moveTo (left + (i : K) * (width / ((points : K) - 1)))
            (top + height - Placeholder.randomHeight (rnd i) height)
        else
          PathOp.lineTo (left + (i : K) * (width / ((points : K) - 1)))
            (top + height - Placeholder.randomHeight (rnd i) height))
      (fun c i => by by_cases h0 : i = 0 <;> simp [h0, moveTo, lineTo])]
  simp [stroke, beginPath, setLineWidth, setStrokeStyle, texts_append]

omit [FloorRing K] in
theorem axisReading_tick (perTick step : K) (hstep : step ≠ 0) (i : K) :
    axisReading perTick step (i * step) = perTick * i := by
  unfold axisReading
  rw [mul_div_assoc, div_self hstep, mul_one]

theorem jsRound_near (x : K) : |((jsRound x : Int) : K) - x| ≤ 1 / 2 := by
  unfold jsRound
  have h1 := Int.floor_le (x + 1 / 2)
  have h2 := Int.lt_floor_add_one (x + 1 / 2)
  rw [abs_le]
  constructor <;> linarith

/-- C17. On a chart of positive width and height, with `axisReading` the value
an axis shows at an offset from its origin: the y axis of `drawLineChart` has
tick `i` at offset `i * height / 5`, where it reads `i`, and the value printed
at a point is `toFixed(1)` of the reading at the point's offset; the x axis of
`drawHorizontalBarChart` has the tick labelled `6 i` at offset `i * width / 5`,
where it reads `6 i`, and the value printed at a bar is the rounded reading at
the bar's end; the y axis of the placeholder `drawBarChart` has the tick
labelled `5 i` at offset `i * height / 5`, where it reads `5 i` (25 at the full
height), and the value printed on a bar is the rounded 0.8-fold of the reading
at the bar's top.  `Math.round` is within one half of its argument. -/
theorem printed_values_against_axes (M : JsMath K) (rnd : Nat → K) (left top w h : K)
    (hw : 0 < w) (hh : 0 < h) (n : Nat) (c : Ctx K) :
    (texts (Placeholder.drawLineChart M rnd left top w h n c).out =
        texts c.out ++ (List.range n).flatMap (fun (i : Nat) =>
          [(toFixed1 (axisReading 1 (h / 5) (Placeholder.randomHeight (rnd i) h)),
            left + (i : K) * (w / ((n : K) - 1)),
            top + h - Placeholder.randomHeight (rnd i) h - 15),
           (["Cardio", "Neuro", "Ortho", "Pedia", "General"].getD i "undefined",
            left + (i : K) * (w / ((n : K) - 1)), top + h + 20)]) ++
        (List.range 6).map (fun (i : Nat) =>
          (toString i, left - 10, top + h - ((i : K) * h / 5) + 5)) ∧
      ∀ i : Nat, axisReading 1 (h / 5) ((i : K) * h / 5) = (i : K)) ∧
    (texts (Placeholder.drawHorizontalBarChart rnd left top w h n c).out =
        texts c.out ++ (List.range n).flatMap (fun (i : Nat) =>
          [(toString (jsRound (axisReading 6 (w / 5) (Placeholder.randomWidth (rnd i) w))) ++ "%",
            left + Placeholder.randomWidth (rnd i) w + 10,
            top + ((i : K) * (h / ((n : K) * 2)) * 2) + h / ((n : K) * 2) / 2 +
              h / ((n : K) * 2) / 2 + 5),
           (["Tablet", "Mobile", "Desktop"].getD i "undefined", left - 10,
            top + ((i : K) * (h / ((n : K) * 2)) * 2) + h / ((n : K) * 2) / 2 +
              h / ((n : K) * 2) / 2 + 5)]) ++
        (List.range 6).map (fun (i : Nat) =>
          (toString (i * 6) ++ "%", left + ((i : K) * w / 5), top + h + 20)) ∧
      ∀ i : Nat, axisReading 6 (w / 5) ((i : K) * w / 5) = ((i * 6 : Nat) : K)) ∧
    (texts (Placeholder.drawBarChart rnd left top w h n c).out =
        texts c.out ++ (List.range n).flatMap (fun (i : Nat) =>
          [(toString (jsRound (0.8 * axisReading 5 (h / 5) (Placeholder.randomHeight (rnd i) h)))
              ++ "m",
            left + ((i : K) * (w / ((n : K) * 2)) * 2) + w / ((n : K) * 2) / 2 +
              w / ((n : K) * 2) / 2,
            top + h - Placeholder.randomHeight (rnd i) h - 10),
           (["Mobile", "Desktop", "Tablet", "Other"].getD i "undefined",
            left + ((i : K) * (w / ((n : K) * 2)) * 2) + w / ((n : K) * 2) / 2 +
              w / ((n : K) * 2) / 2,
            top + h + 20)]) ++
        (List.range 6).map (fun (i : Nat) =>
          (toString (i * 5) ++ "m", left - 10, top + h - ((i : K) * h / 5) + 5)) ∧
      (∀ i : Nat, axisReading 5 (h / 5) ((i : K) * h / 5) = ((i * 5 : Nat) : K)) ∧
      axisReading 5 (h / 5) h = 25) ∧
    ∀ x : K, |((jsRound x : Int) : K) - x| ≤ 1 / 2 := by
  have hh0 : h ≠ 0 := hh.ne'
  have hw0 : w ≠ 0 := hw.ne'
  have hline : ∀ x : K, x / h * 5 = axisReading 1 (h / 5) x := by
    intro x; unfold axisReading; field_simp
  have hhbar : ∀ x : K, x / w * 30 = axisReading 6 (w / 5) x := by
    intro x; unfold axisReading; field_simp; ring
  have hbar : ∀ x : K, x / h * 20 = 0.8 * axisReading 5 (h / 5) x := by
    intro x; unfold axisReading; field_simp; ring
  refine ⟨⟨?_, ?_⟩, ⟨?_, ?_⟩, ⟨?_, ?_, ?_⟩, jsRound_near⟩
  · rw [texts_drawLineChart]
    simp only [hline]
  · intro i
    unfold axisReading; field_simp
  · rw [texts_drawHorizontalBarChart]
    simp only [hhbar]
  · intro i
    unfold axisReading; push_cast; field_simp; ring
  · rw [texts_placeholder_drawBarChart]
    simp only [hbar]
  · intro i
    unfold axisReading; push_cast; field_simp; ring
  · unfold axisReading; field_simp; ring

/-- C17 on the 500 x 200 chart with every sample one half: a bar is 100 high,
the axis reads 12.5 at its top and the bar is labelled `10m`. -/
theorem printed_values_against_axes_witness :
    (0 : ℝ) < 500 ∧ (0 : ℝ) < 200 ∧
      axisReading 5 ((200 : ℝ) / 5) (Placeholder.randomHeight (1 / 2) 200) = 12.5 ∧
      ((texts (Placeholder.drawBarChart (fun _ => (1 / 2 : ℝ)) 150 200 500 200 1
          freshCtx).out).map (fun t => t.1)).head? = some "10m" := by
  have h := (printed_values_against_axes
    ⟨Real.pi, Real.cos, Real.sin, fun y x => Complex.arg ⟨x, y⟩⟩
    (fun _ => (1 / 2 : ℝ)) 150 200 500 200 (by norm_num) (by norm_num) 1 freshCtx).2.2.1.1
  have hr : axisReading 5 ((200 : ℝ) / 5) (Placeholder.randomHeight (1 / 2) 200) = 12.5 := by
    norm_num [axisReading, Placeholder.randomHeight]
  refine ⟨by norm_num, by norm_num, hr, ?_⟩
  rw [h, hr]
  have hj : jsRound (0.8 * 12.5 : ℝ) = 10 := by
    unfold jsRound
    rw [Int.floor_eq_iff]
    constructor <;> norm_num
  simp [freshCtx, List.range, List.range.loop, hj]
  decide

end PrintedValues

/-! ### Horizontal layout of the dashboard bars -/

section BarLayout

variable {K : Type} [LinearOrderedField K] [FloorRing K]

omit [LinearOrderedField K] [FloorRing K] in
theorem map_mapIdx_comp {α β γ : Type} (g : β → γ) (l : List α) :
    ∀ f : Nat → α → β, (l.mapIdx f).map g = l.mapIdx (fun i d => g (f i d)) := by
  induction l with
  | nil => intro f; simp
  | cons d rest ih =>
    intro f
    rw [List.mapIdx_cons, List.map_cons, List.mapIdx_cons, ih]

omit [FloorRing K] in
theorem startX_nonneg_iff (data : List (ChartDatum K)) :
    0 ≤ Dashboard.startX data ↔ data.length ≤ 7 := by
  unfold Dashboard.startX
  constructor
  · intro h
    by_contra hlt
    have h8 : 8 ≤ data.length := by omega
    have h8K : (8 : K) ≤ (data.length : K) := by exact_mod_cast h8
    have hpos : (0 : K) ≤ 800 - (80 * (data.length : K) + 30 * ((data.length : K) - 1)) := by
      have := mul_nonneg h (by norm_num : (0 : K) ≤ 2)
      rwa [div_mul_cancel₀ _ (by norm_num : (2 : K) ≠ 0)] at this
    linarith
  · intro h
    have h7K : (data.length : K) ≤ 7 := by exact_mod_cast h
    apply div_nonneg _ (by norm_num)
    linarith

/-- C18. For a dataset of `N ≥ 1` entries the bars of the dashboard
`drawBarChart` are, in array order, 80 wide with left edges at
`startX + 110 i`; the next bar starts 30 after the right edge of a bar, so
bars do not overlap; the left margin `startX` equals the margin right of the
last bar, `800 - (startX + 110 (N - 1) + 80)`; and `startX` is non-negative
exactly when `N ≤ 7`. -/
theorem drawBarChart_layout (data : List (ChartDatum K)) (c : Ctx K) (hN : data ≠ []) :
    (filledRects (emitted (Dashboard.drawBarChart data) c)).map (fun r => (r.1, r.2.2.1)) =
        data.mapIdx (fun i _ => (Dashboard.startX data + 110 * (i : K), (80 : K))) ∧
      (∀ i : Nat, Dashboard.startX data + 110 * (i : K) + 80 + 30 =
        Dashboard.startX data + 110 * ((i + 1 : Nat) : K)) ∧
      (∀ i : Nat, Dashboard.startX data + 110 * (i : K) + 80 <
        Dashboard.startX data + 110 * ((i + 1 : Nat) : K)) ∧
      Dashboard.startX data =
        800 - (Dashboard.startX data + 110 * ((data.length - 1 : Nat) : K) + 80) ∧
      (0 ≤ Dashboard.startX data ↔ data.length ≤ 7) := by
  have hlen : 1 ≤ data.length := List.length_pos.2 hN
  refine ⟨?_, ?_, ?_, ?_, startX_nonneg_iff data⟩
  · rw [Dashboard.filledRects_drawBarChart, map_mapIdx_comp]
    congr 1
    funext i d
    simp only [Prod.mk.injEq, and_true]
    ring
  · intro i
    push_cast
    ring
  · intro i
    push_cast
    linarith
  · rw [Nat.cast_sub hlen]
    unfold Dashboard.startX
    push_cast
    ring

/-- C18 at the wait-time dataset: four bars with left edges 195, 305, 415 and
525, each 80 wide. -/
theorem drawBarChart_layout_witness :
    (Dashboard.waitTimeData : List (ChartDatum ℚ)) ≠ [] ∧
      (filledRects (emitted (Dashboard.drawBarChart (Dashboard.waitTimeData : List (ChartDatum ℚ)))
        freshCtx)).map (fun r => (r.1, r.2.2.1)) =
        [(195, 80), (305, 80), (415, 80), (525, 80)] := by
  have hne : (Dashboard.waitTimeData : List (ChartDatum ℚ)) ≠ [] := by
    simp [Dashboard.waitTimeData]
  refine ⟨hne, ?_⟩
  rw [(drawBarChart_layout Dashboard.waitTimeData freshCtx hne).1]
  norm_num [Dashboard.waitTimeData, Dashboard.startX, List.mapIdx_cons]

end BarLayout

/-! ### Layers and components against the canvas -/

section Boxes

variable {K : Type}

@[simp] theorem filledRoundRects_nil : filledRoundRects ([] : List (Paint K)) = [] := rfl

@[simp] theorem filledRoundRects_fillRect (x y w h : K) (st : Style K) (a : K)
    (ps : List (Paint K)) :
    filledRoundRects (Paint.fillRect x y w h st a :: ps) = filledRoundRects ps := rfl

@[simp] theorem filledRoundRects_strokeRect (x y w h : K) (st : Style K) (lw : K)
    (ld : List K) (a : K) (ps : List (Paint K)) :
    filledRoundRects (Paint.strokeRect x y w h st lw ld a :: ps) = filledRoundRects ps := rfl

@[simp] theorem filledRoundRects_fillText (t : String) (x y : K) (st : Style K)
    (f ta tb : String) (a : K) (ps : List (Paint K)) :
    filledRoundRects (Paint.fillText t x y st f ta tb a :: ps) = filledRoundRects ps := rfl

@[simp] theorem filledRoundRects_fill (path : List (PathOp K)) (st : Style K) (a : K)
    (ps : List (Paint K)) :
    filledRoundRects (Paint.fill path st a :: ps) =
      path.filterMap (fun op => match op with
        | PathOp.roundRect x y w h _ => some (x, y, w, h)
        | _ => none) ++ filledRoundRects ps := rfl

@[simp] theorem filledRoundRects_stroke (path : List (PathOp K)) (st : Style K) (lw : K)
    (ld : List K) (a : K) (ps : List (Paint K)) :
    filledRoundRects (Paint.stroke path st lw ld a :: ps) = filledRoundRects ps := rfl

theorem filledRoundRects_append (l₁ l₂ : List (Paint K)) :
    filledRoundRects (l₁ ++ l₂) = filledRoundRects l₁ ++ filledRoundRects l₂ := by
  induction l₁ with
  | nil => rfl
  | cons p ps ih => cases p <;> simp [ih]

variable [LinearOrderedField K]

theorem boxes_drawLayer (name : String) (y : K) (color : String) (c : Ctx K) :
    filledRects (AwsDiagram.drawLayer name y color c).out =
        filledRects c.out ++ [(50, y - 30, 900, 100, Style.color color)] ∧
      filledRoundRects (AwsDiagram.drawLayer name y color c).out = filledRoundRects c.out := by
  constructor <;>
  simp [AwsDiagram.drawLayer, setFillStyle, setStrokeStyle, setFont, setTextAlign,
    setLineWidth, setGlobalAlpha, fillRect, strokeRect, fillText, filledRects_append,
    filledRoundRects_append]

theorem boxes_drawComponent (name : String) (x y : K) (color : String) (c : Ctx K) :
    filledRects (AwsDiagram.drawComponent name x y color c).out = filledRects c.out ∧
      filledRoundRects (AwsDiagram.drawComponent name x y color c).out =
        filledRoundRects c.out ++ [(x - 100, y - 20, 200, 40)] := by
  constructor <;>
  simp [AwsDiagram.drawComponent, setFillStyle, setStrokeStyle, setFont, setTextAlign,
    setLineWidth, setGlobalAlpha, beginPath, roundRect, fill, stroke, fillText,
    filledRects_append, filledRoundRects_append]

theorem boxes_drawArrow (M : JsMath K) (x1 y1 x2 y2 : K) (c : Ctx K) :
    filledRects (AwsDiagram.drawArrow M x1 y1 x2 y2 c).out = filledRects c.out ∧
      filledRoundRects (AwsDiagram.drawArrow M x1 y1 x2 y2 c).out = filledRoundRects c.out := by
  constructor <;>
  simp [AwsDiagram.drawArrow, setFillStyle, setStrokeStyle, setLineWidth, beginPath, moveTo,
    lineTo, closePath, fill, stroke, filledRects_append, filledRoundRects_append]

theorem boxes_drawDashedArrow (M : JsMath K) (x1 y1 x2 y2 : K) (c : Ctx K) :
    filledRects (AwsDiagram.drawDashedArrow M x1 y1 x2 y2 c).out = filledRects c.out ∧
      filledRoundRects (AwsDiagram.drawDashedArrow M x1 y1 x2 y2 c).out =
        filledRoundRects c.out := by
  constructor <;>
  simp [AwsDiagram.drawDashedArrow, setFillStyle, setStrokeStyle, setLineWidth, setLineDash,
    beginPath, moveTo, lineTo, closePath, fill, stroke, filledRects_append,
    filledRoundRects_append]

theorem boxes_drawArchitectureLayer (name : String) (y : K) (color : String) (c : Ctx K) :
    filledRects (Placeholder.drawArchitectureLayer name y color c).out =
        filledRects c.out ++ [(50, y - 30, 900, 100, Style.color color)] ∧
      filledRoundRects (Placeholder.drawArchitectureLayer name y color c).out =
        filledRoundRects c.out := by
  constructor <;>
  simp [Placeholder.drawArchitectureLayer, setFillStyle, setStrokeStyle, setFont, setTextAlign,
    setLineWidth, setGlobalAlpha, fillRect, strokeRect, fillText, filledRects_append,
    filledRoundRects_append]

theorem boxes_drawArchitectureComponent (name : String) (x y : K) (color : String)
    (c : Ctx K) :
    filledRects (Placeholder.drawArchitectureComponent name x y color c).out =
        filledRects c.out ∧
      filledRoundRects (Placeholder.drawArchitectureComponent name x y color c).out =
        filledRoundRects c.out ++ [(x - 100, y - 20, 200, 40)] := by
  constructor <;>
  simp [Placeholder.drawArchitectureComponent, setFillStyle, setStrokeStyle, setFont,
    setTextAlign, setLineWidth, setGlobalAlpha, beginPath, roundRect, fill, stroke, fillText,
    filledRects_append, filledRoundRects_append]

theorem boxes_drawArchitectureArrow (M : JsMath K) (x1 y1 x2 y2 : K) (c : Ctx K) :
    filledRects (Placeholder.drawArchitectureArrow M x1 y1 x2 y2 c).out = filledRects c.out ∧
      filledRoundRects (Placeholder.drawArchitectureArrow M x1 y1 x2 y2 c).out =
        filledRoundRects c.out := by
  constructor <;>
  simp [Placeholder.drawArchitectureArrow, setFillStyle, setStrokeStyle, setLineWidth,
    beginPath, moveTo, lineTo, closePath, fill, stroke, filledRects_append,
    filledRoundRects_append]

theorem boxes_drawDashedArchitectureArrow (M : JsMath K) (x1 y1 x2 y2 : K) (c : Ctx K) :
    filledRects (Placeholder.drawDashedArchitectureArrow M x1 y1 x2 y2 c).out =
        filledRects c.out ∧
      filledRoundRects (Placeholder.drawDashedArchitectureArrow M x1 y1 x2 y2 c).out =
        filledRoundRects c.out := by
  constructor <;>
  simp [Placeholder.drawDashedArchitectureArrow, setFillStyle, setStrokeStyle, setLineWidth,
    setLineDash, beginPath, moveTo, lineTo, closePath, fill, stroke, filledRects_append,
    filledRoundRects_append]

/-- The rectangles and rounded rectangles the AWS diagram fills on a new canvas. -/
theorem boxes_generateAwsArchitectureDiagram (M : JsMath K) :
    (filledRects (AwsDiagram.generateAwsArchitectureDiagram.draw M freshCtx).out).map
        (fun r => (r.1, r.2.1, r.2.2.1, r.2.2.2.1)) =
      [(0, 0, 1000, 600), (50, 50, 900, 100), (50, 170, 900, 100), (50, 290, 900, 100),
       (50, 410, 900, 100), (50, 530, 900, 100)] ∧
    filledRoundRects (AwsDiagram.generateAwsArchitectureDiagram.draw M freshCtx).out =
      [(0, 90, 200, 40), (250, 90, 200, 40), (500, 90, 200, 40),
       (0, 210, 200, 40), (250, 210, 200, 40), (500, 210, 200, 40),
       (0, 330, 200, 40), (250, 330, 200, 40), (500, 330, 200, 40),
       (0, 450, 200, 40), (250, 450, 200, 40), (500, 450, 200, 40),
       (250, 570, 200, 40), (700, 210, 200, 40), (700, 330, 200, 40)] := by
  constructor
  · simp only [AwsDiagram.generateAwsArchitectureDiagram.draw, boxes_drawLayer,
      boxes_drawComponent, boxes_drawArrow, boxes_drawDashedArrow]
    simp [fillText, fillRect, setFillStyle, setFont, setTextAlign, freshCtx,
      filledRects_append]
    norm_num
  · simp only [AwsDiagram.generateAwsArchitectureDiagram.draw, boxes_drawLayer,
      boxes_drawComponent, boxes_drawArrow, boxes_drawDashedArrow]
    simp [fillText, fillRect, setFillStyle, setFont, setTextAlign, freshCtx,
      filledRoundRects_append]
    norm_num

/-- The rectangles and rounded rectangles `createArchitectureDiagram` fills on a
new canvas. -/
theorem boxes_createArchitectureDiagram (M : JsMath K) :
    (filledRects (Placeholder.createArchitectureDiagram.draw M freshCtx).out).map
        (fun r => (r.1, r.2.1, r.2.2.1, r.2.2.2.1)) =
      [(0, 0, 1000, 600), (50, 50, 900, 100), (50, 170, 900, 100), (50, 290, 900, 100),
       (50, 410, 900, 100), (50, 530, 900, 100)] ∧
    filledRoundRects (Placeholder.createArchitectureDiagram.draw M freshCtx).out =
      [(50, 90, 200, 40), (400, 90, 200, 40), (750, 90, 200, 40),
       (50, 210, 200, 40), (400, 210, 200, 40), (750, 210, 200, 40),
       (50, 330, 200, 40), (400, 330, 200, 40), (750, 330, 200, 40),
       (50, 450, 200, 40), (400, 450, 200, 40), (750, 450, 200, 40),
       (400, 570, 200, 40), (225, 270, 200, 40), (225, 390, 200, 40)] := by
  constructor
  · simp only [Placeholder.createArchitectureDiagram.draw, boxes_drawArchitectureLayer,
      boxes_drawArchitectureComponent, boxes_drawArchitectureArrow,
      boxes_drawDashedArchitectureArrow]
    simp [fillText, fillRect, setFillStyle, setFont, setTextAlign, freshCtx,
      filledRects_append, boxes_drawArchitectureLayer,
      boxes_drawArchitectureComponent, boxes_drawArchitectureArrow,
      boxes_drawDashedArchitectureArrow]
    norm_num
  · simp only [Placeholder.createArchitectureDiagram.draw, boxes_drawArchitectureLayer,
      boxes_drawArchitectureComponent, boxes_drawArchitectureArrow,
      boxes_drawDashedArchitectureArrow]
    simp [fillText, fillRect, setFillStyle, setFont, setTextAlign, freshCtx,
      filledRoundRects_append, boxes_drawArchitectureLayer,
      boxes_drawArchitectureComponent, boxes_drawArchitectureArrow,
      boxes_drawDashedArchitectureArrow]
    norm_num

/-- C19. On the 1000 x 600 canvas of `generateAwsArchitectureDiagram` the five
layer rectangles are `(50, y - 30, 900, 100)` for `y = 80, 200, 320, 440, 560`
and the fifteen component boxes are `(x - 100, y - 20, 200, 40)`; each lies
within the width of the canvas, and each lies within its height except the
Analytics layer `(50, 530, 900, 100)`, which ends at `y = 630`, and the Amazon
QuickSight box `(250, 570, 200, 40)`, which ends at `y = 610`.  The same holds
for the layers and boxes of `createArchitectureDiagram`, where the box below
the canvas is QuickSight Dashboards, `(400, 570, 200, 40)`. -/
theorem architecture_boxes_within_canvas (M : JsMath K) :
    ((filledRects (AwsDiagram.generateAwsArchitectureDiagram.draw M freshCtx).out).map
          (fun r => (r.1, r.2.1, r.2.2.1, r.2.2.2.1)) =
        [(0, 0, 1000, 600), (50, 50, 900, 100), (50, 170, 900, 100), (50, 290, 900, 100),
         (50, 410, 900, 100), (50, 530, 900, 100)] ∧
      filledRoundRects (AwsDiagram.generateAwsArchitectureDiagram.draw M freshCtx).out =
        [(0, 90, 200, 40), (250, 90, 200, 40), (500, 90, 200, 40),
         (0, 210, 200, 40), (250, 210, 200, 40), (500, 210, 200, 40),
         (0, 330, 200, 40), (250, 330, 200, 40), (500, 330, 200, 40),
         (0, 450, 200, 40), (250, 450, 200, 40), (500, 450, 200, 40),
         (250, 570, 200, 40), (700, 210, 200, 40), (700, 330, 200, 40)] ∧
      ∀ r ∈ ((filledRects (AwsDiagram.generateAwsArchitectureDiagram.draw M freshCtx).out).map
            (fun r => (r.1, r.2.1, r.2.2.1, r.2.2.2.1))).tail ++
          filledRoundRects (AwsDiagram.generateAwsArchitectureDiagram.draw M freshCtx).out,
        withinWidth 1000 r ∧
          (withinHeight 600 r ↔ r ≠ (50, 530, 900, 100) ∧ r ≠ (250, 570, 200, 40))) ∧
    ((filledRects (Placeholder.createArchitectureDiagram.draw M freshCtx).out).map
          (fun r => (r.1, r.2.1, r.2.2.1, r.2.2.2.1)) =
        [(0, 0, 1000, 600), (50, 50, 900, 100), (50, 170, 900, 100), (50, 290, 900, 100),
         (50, 410, 900, 100), (50, 530, 900, 100)] ∧
      filledRoundRects (Placeholder.createArchitectureDiagram.draw M freshCtx).out =
        [(50, 90, 200, 40), (400, 90, 200, 40), (750, 90, 200, 40),
         (50, 210, 200, 40), (400, 210, 200, 40), (750, 210, 200, 40),
         (50, 330, 200, 40), (400, 330, 200, 40), (750, 330, 200, 40),
         (50, 450, 200, 40), (400, 450, 200, 40), (750, 450, 200, 40),
         (400, 570, 200, 40), (225, 270, 200, 40), (225, 390, 200, 40)] ∧
      ∀ r ∈ ((filledRects (Placeholder.createArchitectureDiagram.draw M freshCtx).out).map
            (fun r => (r.1, r.2.1, r.2.2.1, r.2.2.2.1))).tail ++
          filledRoundRects (Placeholder.createArchitectureDiagram.draw M freshCtx).out,
        withinWidth 1000 r ∧
          (withinHeight 600 r ↔ r ≠ (50, 530, 900, 100) ∧ r ≠ (400, 570, 200, 40))) ∧
    ((530 : K) + 100 = 630 ∧ (570 : K) + 40 = 610 ∧ (600 : K) < 610) := by
  obtain ⟨ha1, ha2⟩ := boxes_generateAwsArchitectureDiagram M
  obtain ⟨hp1, hp2⟩ := boxes_createArchitectureDiagram M
  refine ⟨⟨ha1, ha2, ?_⟩, ⟨hp1, hp2, ?_⟩, by norm_num, by norm_num, by norm_num⟩
  · rw [ha1, ha2]
    simp only [List.tail_cons, List.cons_append, List.nil_append, List.forall_mem_cons]
    norm_num [withinWidth, withinHeight]
  · rw [hp1, hp2]
    simp only [List.tail_cons, List.cons_append, List.nil_append, List.forall_mem_cons]
    norm_num [withinWidth, withinHeight]

end Boxes

end Telemedicine
